import Mathlib

/-!
# CS330 final project: scene manager

A shallow embedding of `7-1_FinalProjectMilestones/Source/SceneManager.cpp`
(`SceneManager`: texture registry, material registry, transform / colour /
texture / material uniform pipeline and the fixed render script), followed by
theorems about it.

Conventions of the embedding

* `float` / `double` values are elements of an arbitrary field `R`; the few
  transcendental library functions the code calls are bundled in `FloatOps R`.
  Theorems about real-number behaviour instantiate `R := ℝ`.
* `int` is `Int`; `GLuint` / `uint32_t` is a `Nat` reduced modulo `2 ^ 32`
  wherever the code stores into such a variable.
* Undefined behaviour (indexing `m_textureIDs` out of bounds, dereferencing a
  null `m_pShaderManager`) and fuel exhaustion of a `while` loop are `none`.
* Collaborators that are not part of the file (the image decoder, the OpenGL
  driver, `ShaderManager`, `ShapeMeshes`) are modelled by their observable
  effect: an oracle for the decoder, a call log and binding table for OpenGL,
  a uniform table for the shader manager, and a call trace for the meshes.
-/

namespace CS330

/-! ## Numeric and vector types -/

/-- The transcendental functions of `<cmath>` / glm used by the scene manager. -/
structure FloatOps (R : Type) where
  cos : R → R
  sin : R → R
  tan : R → R
  sqrt : R → R
  pi : R

/-- The type `glm::vec2`. -/
structure vec2 (R : Type) where
  x : R
  y : R

/-- The type `glm::vec3`. -/
structure vec3 (R : Type) where
  x : R
  y : R
  z : R

/-- The type `glm::vec4` (`r g b a` are `x y z w`). -/
structure vec4 (R : Type) where
  x : R
  y : R
  z : R
  w : R

/-- The type `glm::mat4`; entry `M i j` is row `i`, column `j`
(glm writes the same entry as `M[j][i]`). -/
abbrev mat4 (R : Type) := Matrix (Fin 4) (Fin 4) R

/-- Conversion of a `GLuint` / `uint32_t` value to `int` (two's complement,
32 bits), as performed by `textureID = m_textureIDs[index].ID`. -/
def GLuint_to_int (u : Nat) : Int :=
  if u % 2 ^ 32 < 2 ^ 31 then ((u % 2 ^ 32 : Nat) : Int)
  else ((u % 2 ^ 32 : Nat) : Int) - 2 ^ 32

/-! ## OpenGL driver -/

/-- The OpenGL enumerants that appear in the file. -/
inductive GLenum
  | GL_TEXTURE_2D
  | GL_TEXTURE_WRAP_S
  | GL_TEXTURE_WRAP_T
  | GL_TEXTURE_MIN_FILTER
  | GL_TEXTURE_MAG_FILTER
  | GL_REPEAT
  | GL_LINEAR
  | GL_RGB8
  | GL_RGB
  | GL_RGBA8
  | GL_RGBA
  | GL_UNSIGNED_BYTE
  deriving DecidableEq, Repr

/-- One call into the OpenGL API. `glActiveTexture unit` stands for
`glActiveTexture(GL_TEXTURE0 + unit)`; `glGenTextures n name` records the
name the driver wrote back. -/
inductive GLCall
  | glGenTextures (n : Nat) (name : Nat)
  | glBindTexture (target : GLenum) (texture : Nat)
  | glTexParameteri (target pname param : GLenum)
  | glTexImage2D (target : GLenum) (level : Int) (internalformat : GLenum)
      (width height border : Int) (format type : GLenum)
  | glGenerateMipmap (target : GLenum)
  | glActiveTexture (unit : Int)
  deriving DecidableEq, Repr

/-- Whether a call is a texture-generation call. -/
def GLCall.isGenTextures : GLCall → Bool
  | .glGenTextures _ _ => true
  | _ => false

/-- Observable state of the OpenGL context: the log of calls (oldest first),
the names the driver hands out (`names k` at the `k`-th generation), the
selected texture unit and the `GL_TEXTURE_2D` binding of every unit. -/
structure GLState where
  calls : List GLCall
  names : Nat → Nat
  generated : Nat
  activeTexture : Int
  texture2D : Int → Nat

namespace GLState

/-- `glGenTextures(1, &textureID)`: returns the value written to `textureID`. -/
def glGenTextures (g : GLState) : Nat × GLState :=
  let name := g.names g.generated % 2 ^ 32
  (name, { g with calls := g.calls ++ [GLCall.glGenTextures 1 name],
                  generated := g.generated + 1 })

/-- `glBindTexture(target, texture)` binds on the active unit. -/
def glBindTexture (g : GLState) (target : GLenum) (texture : Nat) : GLState :=
  { g with calls := g.calls ++ [GLCall.glBindTexture target texture],
           texture2D := fun u => if u = g.activeTexture then texture else g.texture2D u }

/-- `glTexParameteri(target, pname, param)`. -/
def glTexParameteri (g : GLState) (target pname param : GLenum) : GLState :=
  { g with calls := g.calls ++ [GLCall.glTexParameteri target pname param] }

/-- `glTexImage2D(target, level, internalformat, width, height, border, format, type, data)`. -/
def glTexImage2D (g : GLState) (target : GLenum) (level : Int) (internalformat : GLenum)
    (width height border : Int) (format type : GLenum) : GLState :=
  { g with calls := g.calls ++
      [GLCall.glTexImage2D target level internalformat width height border format type] }

/-- `glGenerateMipmap(target)`. -/
def glGenerateMipmap (g : GLState) (target : GLenum) : GLState :=
  { g with calls := g.calls ++ [GLCall.glGenerateMipmap target] }

/-- `glActiveTexture(GL_TEXTURE0 + unit)`. -/
def glActiveTexture (g : GLState) (unit : Int) : GLState :=
  { g with calls := g.calls ++ [GLCall.glActiveTexture unit], activeTexture := unit }

end GLState

/-- What `stbi_load` reports for a decoded image (the pixel data itself is
never inspected by the scene manager). -/
structure StbImage where
  width : Int
  height : Int
  colorChannels : Int
  deriving DecidableEq, Repr

/-! ## Shader manager -/

/-- A value uploaded to a shader uniform, tagged by the setter that was used. -/
inductive UniformValue (R : Type)
  | mat4 (m : mat4 R)
  | vec2 (v : vec2 R)
  | vec3 (v : vec3 R)
  | vec4 (v : vec4 R)
  | float (x : R)
  | int (i : Int)
  | bool (b : Bool)
  | sampler2D (slot : Int)

/-- Modelled from the spec: the `ShaderManager` class (shader-uniform service,
"string-keyed uniform upload") is not part of the source file; it is the table
of the last value uploaded under each uniform name. -/
structure ShaderManager (R : Type) where
  uniforms : String → Option (UniformValue R)

namespace ShaderManager

variable {R : Type}

/-- Store `v` under `name`. -/
def set (sh : ShaderManager R) (name : String) (v : UniformValue R) : ShaderManager R :=
  { uniforms := fun n => if n = name then some v else sh.uniforms n }

/-- `setMat4Value(name, value)`. -/
def setMat4Value (sh : ShaderManager R) (name : String) (m : mat4 R) : ShaderManager R :=
  sh.set name (.mat4 m)

/-- `setIntValue(name, value)`. -/
def setIntValue (sh : ShaderManager R) (name : String) (i : Int) : ShaderManager R :=
  sh.set name (.int i)

/-- `setBoolValue(name, value)`. -/
def setBoolValue (sh : ShaderManager R) (name : String) (b : Bool) : ShaderManager R :=
  sh.set name (.bool b)

/-- `setFloatValue(name, value)`. -/
def setFloatValue (sh : ShaderManager R) (name : String) (x : R) : ShaderManager R :=
  sh.set name (.float x)

/-- `setVec2Value(name, value)`. -/
def setVec2Value (sh : ShaderManager R) (name : String) (v : vec2 R) : ShaderManager R :=
  sh.set name (.vec2 v)

/-- `setVec3Value(name, value)`. -/
def setVec3Value (sh : ShaderManager R) (name : String) (v : vec3 R) : ShaderManager R :=
  sh.set name (.vec3 v)

/-- `setVec4Value(name, value)`. -/
def setVec4Value (sh : ShaderManager R) (name : String) (v : vec4 R) : ShaderManager R :=
  sh.set name (.vec4 v)

/-- `setSampler2DValue(name, slot)`. -/
def setSampler2DValue (sh : ShaderManager R) (name : String) (slot : Int) : ShaderManager R :=
  sh.set name (.sampler2D slot)

end ShaderManager

/-! ## Scene manager state -/

/-- The global `g_ModelName`. -/
def g_ModelName : String := "model"
/-- The global `g_ColorValueName`. -/
def g_ColorValueName : String := "objectColor"
/-- The global `g_TextureValueName`. -/
def g_TextureValueName : String := "objectTexture"
/-- The global `g_UseTextureName`. -/
def g_UseTextureName : String := "bUseTexture"
/-- The global `g_UseLightingName`. -/
def g_UseLightingName : String := "bUseLighting"

/-- An element of `m_textureIDs`: `ID` is a `uint32_t`
(`DestroyGLTextures` passes its address to `glGenTextures`). -/
structure TEXTURE_INFO where
  tag : String
  ID : Nat
  deriving DecidableEq, Repr

/-- An element of `m_objectMaterials`. -/
structure OBJECT_MATERIAL (R : Type) where
  ambientColor : vec3 R
  ambientStrength : R
  diffuseColor : vec3 R
  specularColor : vec3 R
  shininess : R
  tag : String

/-- A call made by the scene manager that the trace records: entry into one of
its own state-setting methods, or a call into the `ShapeMeshes` service
(`LoadTorusMesh none` is the call with the default thickness). -/
inductive Call (R : Type)
  | SetTransformations (scaleXYZ : vec3 R) (XrotationDegrees YrotationDegrees
      ZrotationDegrees : R) (positionXYZ : vec3 R)
  | SetShaderColor (r g b a : R)
  | SetShaderTexture (textureTag : String)
  | SetTextureUVScale (u v : R)
  | SetShaderMaterial (materialTag : String)
  | LoadPlaneMesh
  | LoadCylinderMesh
  | LoadSphereMesh
  | LoadTorusMesh (thickness : Option R)
  | LoadBoxMesh
  | DrawPlaneMesh
  | DrawCylinderMesh
  | DrawHalfSphereMesh
  | DrawTorusMesh
  | DrawBoxMesh

/-- The class `SceneManager`. `m_textureIDs` is the 16-element array (a list
whose length is the capacity); `m_pShaderManager` is `none` for `NULL`;
`gl` is the OpenGL context; `trace` lists the calls of type `Call` in order
(it stands for `m_basicMeshes` as far as mesh calls are concerned). -/
structure SceneManager (R : Type) where
  m_pShaderManager : Option (ShaderManager R)
  m_loadedTextures : Int
  m_textureIDs : List TEXTURE_INFO
  m_objectMaterials : List (OBJECT_MATERIAL R)
  gl : GLState
  trace : List (Call R)

namespace SceneManager

variable {R : Type}

/-! ## Texture registry -/

/-- `CreateGLTexture(filename, tag)`. `stbi_load` is the decoder oracle
(`none` when the file cannot be read or decoded). Returns the boolean result
and the new state; `none` when the store into `m_textureIDs` is out of
bounds. Console output and the decoder's flip flag are not modelled. -/
def CreateGLTexture (stbi_load : String → Option StbImage) (self : SceneManager R)
    (filename : String) (tag : String) : Option (Bool × SceneManager R) :=
  match stbi_load filename with
  | some image =>
    let width := image.width
    let height := image.height
    let colorChannels := image.colorChannels
    let (textureID, gl) := self.gl.glGenTextures
    let gl := gl.glBindTexture .GL_TEXTURE_2D textureID
    let gl := gl.glTexParameteri .GL_TEXTURE_2D .GL_TEXTURE_WRAP_S .GL_REPEAT
    let gl := gl.glTexParameteri .GL_TEXTURE_2D .GL_TEXTURE_WRAP_T .GL_REPEAT
    let gl := gl.glTexParameteri .GL_TEXTURE_2D .GL_TEXTURE_MIN_FILTER .GL_LINEAR
    let gl := gl.glTexParameteri .GL_TEXTURE_2D .GL_TEXTURE_MAG_FILTER .GL_LINEAR
    let finish := fun (gl : GLState) =>
      let gl := gl.glGenerateMipmap .GL_TEXTURE_2D
      let gl := gl.glBindTexture .GL_TEXTURE_2D 0
      if 0 ≤ self.m_loadedTextures ∧ self.m_loadedTextures < self.m_textureIDs.length then
        some (true,
          { self with
            gl := gl
            m_textureIDs :=
              self.m_textureIDs.set self.m_loadedTextures.toNat { tag := tag, ID := textureID }
            m_loadedTextures := self.m_loadedTextures + 1 })
      else
        none
    if colorChannels = 3 then
      finish
        (gl.glTexImage2D .GL_TEXTURE_2D 0 .GL_RGB8 width height 0 .GL_RGB .GL_UNSIGNED_BYTE)
    else if colorChannels = 4 then
      finish
        (gl.glTexImage2D .GL_TEXTURE_2D 0 .GL_RGBA8 width height 0 .GL_RGBA .GL_UNSIGNED_BYTE)
    else
      some (false, { self with gl := gl })
  | none => some (false, self)

/-- The body of the loop of `BindGLTextures`, for loop index `i`; `none` when
the element is read out of bounds. -/
def BindGLTextures.body (self : SceneManager R) (i : Nat) : Option (SceneManager R) :=
  match self.m_textureIDs[i]? with
  | some e =>
    let gl := self.gl.glActiveTexture (i : Int)
    let gl := gl.glBindTexture .GL_TEXTURE_2D e.ID
    some { self with gl := gl }
  | none => none

/-- `BindGLTextures()`: the counted loop `for (i = 0; i < m_loadedTextures; i++)`. -/
def BindGLTextures (self : SceneManager R) : Option (SceneManager R) :=
  (List.range self.m_loadedTextures.toNat).foldlM BindGLTextures.body self

/-- The `while` loop of `FindTextureID`, on the locals `textureID`, `index`,
`bFound`; `none` on an out-of-bounds read or when the fuel runs out. -/
def FindTextureID.loop (self : SceneManager R) (tag : String) :
    Nat → Int → Nat → Bool → Option Int
  | 0, _, _, _ => none
  | fuel + 1, textureID, index, bFound =>
    if (index : Int) < self.m_loadedTextures ∧ bFound = false then
      match self.m_textureIDs[index]? with
      | some e =>
        if e.tag = tag then
          FindTextureID.loop self tag fuel (GLuint_to_int e.ID) index true
        else
          FindTextureID.loop self tag fuel textureID (index + 1) bFound
      | none => none
    else
      some textureID

/-- `FindTextureID(tag)`. -/
def FindTextureID (self : SceneManager R) (tag : String) : Option Int :=
  FindTextureID.loop self tag (self.m_loadedTextures.toNat + 2) (-1) 0 false

/-- The `while` loop of `FindTextureSlot`, on the locals `textureSlot`,
`index`, `bFound`. -/
def FindTextureSlot.loop (self : SceneManager R) (tag : String) :
    Nat → Int → Nat → Bool → Option Int
  | 0, _, _, _ => none
  | fuel + 1, textureSlot, index, bFound =>
    if (index : Int) < self.m_loadedTextures ∧ bFound = false then
      match self.m_textureIDs[index]? with
      | some e =>
        if e.tag = tag then
          FindTextureSlot.loop self tag fuel (index : Int) index true
        else
          FindTextureSlot.loop self tag fuel textureSlot (index + 1) bFound
      | none => none
    else
      some textureSlot

/-- `FindTextureSlot(tag)`. -/
def FindTextureSlot (self : SceneManager R) (tag : String) : Option Int :=
  FindTextureSlot.loop self tag (self.m_loadedTextures.toNat + 2) (-1) 0 false

/-! ## Material registry -/

/-- The `while` loop of `FindMaterial`, on the locals `index`, `bFound` and the
reference parameter `material`. -/
def FindMaterial.loop (self : SceneManager R) (tag : String) :
    Nat → Nat → Bool → OBJECT_MATERIAL R → Option (OBJECT_MATERIAL R)
  | 0, _, _, _ => none
  | fuel + 1, index, bFound, material =>
    if index < self.m_objectMaterials.length ∧ bFound = false then
      match self.m_objectMaterials[index]? with
      | some m =>
        if m.tag = tag then
          FindMaterial.loop self tag fuel index true
            { material with
              ambientColor := m.ambientColor
              ambientStrength := m.ambientStrength
              diffuseColor := m.diffuseColor
              specularColor := m.specularColor
              shininess := m.shininess }
        else
          FindMaterial.loop self tag fuel (index + 1) bFound material
      | none => none
    else
      some material

/-- `FindMaterial(tag, material)`: the boolean result and the final contents
of the reference parameter `material`. -/
def FindMaterial (self : SceneManager R) (tag : String) (material : OBJECT_MATERIAL R) :
    Option (Bool × OBJECT_MATERIAL R) :=
  if self.m_objectMaterials.length = 0 then
    some (false, material)
  else
    match FindMaterial.loop self tag (self.m_objectMaterials.length + 2) 0 false material with
    | some material => some (true, material)
    | none => none

end SceneManager

/-! ## glm (external library) -/

namespace glm

variable {R : Type} [Field R]

/-- `glm::scale(v)`: the scaling matrix. -/
def scale (v : vec3 R) : mat4 R :=
  !![v.x, 0, 0, 0;
     0, v.y, 0, 0;
     0, 0, v.z, 0;
     0, 0, 0, 1]

/-- `glm::translate(v)`: the translation matrix. -/
def translate (v : vec3 R) : mat4 R :=
  !![1, 0, 0, v.x;
     0, 1, 0, v.y;
     0, 0, 1, v.z;
     0, 0, 0, 1]

/-- `glm::radians(degrees)`: degrees to radians. -/
def radians (F : FloatOps R) (degrees : R) : R :=
  degrees * (F.pi / 180)

/-- `glm::normalize(v)`: `v * inversesqrt(dot(v, v))`. -/
def normalize (F : FloatOps R) (v : vec3 R) : vec3 R :=
  let inv := 1 / F.sqrt (v.x * v.x + v.y * v.y + v.z * v.z)
  { x := v.x * inv, y := v.y * inv, z := v.z * inv }

/-- `glm::rotate(angle, v)` of `glm/gtx/transform.hpp`, that is
`rotate(mat4(1), angle, v)`: the axis is normalised, `temp = (1 - c) * axis`,
and the entry glm names `Rotate[j][i]` is row `i`, column `j` here. -/
def rotate (F : FloatOps R) (angle : R) (v : vec3 R) : mat4 R :=
  let c := F.cos angle
  let s := F.sin angle
  let axis := normalize F v
  let temp : vec3 R := { x := (1 - c) * axis.x, y := (1 - c) * axis.y, z := (1 - c) * axis.z }
  !![c + temp.x * axis.x, temp.y * axis.x - s * axis.z, temp.z * axis.x + s * axis.y, 0;
     temp.x * axis.y + s * axis.z, c + temp.y * axis.y, temp.z * axis.y - s * axis.x, 0;
     temp.x * axis.z - s * axis.y, temp.y * axis.z + s * axis.x, c + temp.z * axis.z, 0;
     0, 0, 0, 1]

end glm

namespace SceneManager

variable {R : Type}

/-! ## Shader state -/

/-- `SetTransformations(scaleXYZ, XrotationDegrees, YrotationDegrees,
ZrotationDegrees, positionXYZ)`. -/
def SetTransformations [Field R] (F : FloatOps R) (self : SceneManager R) (scaleXYZ : vec3 R)
    (XrotationDegrees YrotationDegrees ZrotationDegrees : R) (positionXYZ : vec3 R) :
    SceneManager R :=
  let self := { self with trace := self.trace ++
    [Call.SetTransformations scaleXYZ XrotationDegrees YrotationDegrees ZrotationDegrees
      positionXYZ] }
  let scale := glm.scale scaleXYZ
  let rotationX := glm.rotate F (glm.radians F XrotationDegrees) { x := 1, y := 0, z := 0 }
  let rotationY := glm.rotate F (glm.radians F YrotationDegrees) { x := 0, y := 1, z := 0 }
  let rotationZ := glm.rotate F (glm.radians F ZrotationDegrees) { x := 0, y := 0, z := 1 }
  let translation := glm.translate positionXYZ
  let modelView := translation * rotationX * rotationY * rotationZ * scale
  match self.m_pShaderManager with
  | some sh => { self with m_pShaderManager := some (sh.setMat4Value g_ModelName modelView) }
  | none => self

/-- `SetShaderColor(redColorValue, greenColorValue, blueColorValue, alphaValue)`;
`setIntValue(g_UseTextureName, false)` uploads the integer `0`. -/
def SetShaderColor (self : SceneManager R) (redColorValue greenColorValue blueColorValue
    alphaValue : R) : SceneManager R :=
  let self := { self with trace := self.trace ++
    [Call.SetShaderColor redColorValue greenColorValue blueColorValue alphaValue] }
  let currentColor : vec4 R :=
    { x := redColorValue, y := greenColorValue, z := blueColorValue, w := alphaValue }
  match self.m_pShaderManager with
  | some sh =>
    let sh := sh.setIntValue g_UseTextureName 0
    let sh := sh.setVec4Value g_ColorValueName currentColor
    { self with m_pShaderManager := some sh }
  | none => self

/-- `SetShaderTexture(textureTag)`; `setIntValue(g_UseTextureName, true)`
uploads the integer `1`. -/
def SetShaderTexture (self : SceneManager R) (textureTag : String) : Option (SceneManager R) :=
  let self := { self with trace := self.trace ++ [Call.SetShaderTexture textureTag] }
  match self.m_pShaderManager with
  | some sh =>
    let sh := sh.setIntValue g_UseTextureName 1
    match FindTextureSlot self textureTag with
    | some textureID =>
      some { self with
        m_pShaderManager := some (sh.setSampler2DValue g_TextureValueName textureID) }
    | none => none
  | none => some self

/-- `SetTextureUVScale(u, v)`. -/
def SetTextureUVScale (self : SceneManager R) (u v : R) : SceneManager R :=
  let self := { self with trace := self.trace ++ [Call.SetTextureUVScale u v] }
  match self.m_pShaderManager with
  | some sh =>
    { self with m_pShaderManager := some (sh.setVec2Value "UVscale" { x := u, y := v }) }
  | none => self

/-- `SetShaderMaterial(materialTag)`. The local `OBJECT_MATERIAL material` is
not initialised by the code; `uninit` is its content before `FindMaterial`
runs. `m_pShaderManager` is dereferenced without a null test. -/
def SetShaderMaterial (uninit : OBJECT_MATERIAL R) (self : SceneManager R)
    (materialTag : String) : Option (SceneManager R) :=
  let self := { self with trace := self.trace ++ [Call.SetShaderMaterial materialTag] }
  if self.m_objectMaterials.length > 0 then
    match FindMaterial self materialTag uninit with
    | some (bReturn, material) =>
      if bReturn = true then
        match self.m_pShaderManager with
        | some sh =>
          let sh := sh.setVec3Value "material.ambientColor" material.ambientColor
          let sh := sh.setFloatValue "material.ambientStrength" material.ambientStrength
          let sh := sh.setVec3Value "material.diffuseColor" material.diffuseColor
          let sh := sh.setVec3Value "material.specularColor" material.specularColor
          let sh := sh.setFloatValue "material.shininess" material.shininess
          some { self with m_pShaderManager := some sh }
        | none => none
      else
        some self
    | none => none
  else
    some self

/-! ## Mesh service -/

/-- Record a call into `m_basicMeshes`. -/
def mesh (self : SceneManager R) (c : Call R) : SceneManager R :=
  { self with trace := self.trace ++ [c] }

/-! ## Scene preparation -/

/-- `DefineObjectMaterials()`: four `push_back` calls. -/
def DefineObjectMaterials [Field R] (self : SceneManager R) : SceneManager R :=
  let designMaterial : OBJECT_MATERIAL R :=
    { ambientColor := { x := 1, y := 1, z := 1 }
      ambientStrength := 1 / 100
      diffuseColor := { x := 0, y := 0, z := 0 }
      specularColor := { x := 2 / 10, y := 2 / 10, z := 35 / 100 }
      shininess := 20
      tag := "design" }
  let self := { self with m_objectMaterials := self.m_objectMaterials ++ [designMaterial] }
  let brownMaterial : OBJECT_MATERIAL R :=
    { ambientColor := { x := 1, y := 1, z := 1 }
      ambientStrength := 1 / 100
      diffuseColor := { x := 0, y := 0, z := 0 }
      specularColor := { x := 5 / 100, y := 5 / 100, z := 5 / 100 }
      shininess := 20
      tag := "brown" }
  let self := { self with m_objectMaterials := self.m_objectMaterials ++ [brownMaterial] }
  let tableMaterial : OBJECT_MATERIAL R :=
    { ambientColor := { x := 1, y := 1, z := 1 }
      ambientStrength := 1 / 100
      diffuseColor := { x := 1 / 10, y := 1 / 10, z := 1 / 10 }
      specularColor := { x := 2 / 10, y := 2 / 10, z := 2 / 10 }
      shininess := 30
      tag := "table" }
  let self := { self with m_objectMaterials := self.m_objectMaterials ++ [tableMaterial] }
  let napkinMaterial : OBJECT_MATERIAL R :=
    { ambientColor := { x := 5 / 10, y := 5 / 10, z := 5 / 10 }
      ambientStrength := 5 / 1000
      diffuseColor := { x := 1 / 10, y := 1 / 10, z := 1 / 10 }
      specularColor := { x := 2 / 10, y := 2 / 10, z := 2 / 10 }
      shininess := 5 / 10
      tag := "napkin" }
  { self with m_objectMaterials := self.m_objectMaterials ++ [napkinMaterial] }

/-- `SetupSceneLights()`; `m_pShaderManager` is dereferenced without a null
test. -/
def SetupSceneLights [Field R] (self : SceneManager R) : Option (SceneManager R) :=
  match self.m_pShaderManager with
  | none => none
  | some sh =>
    let sh := sh.setVec3Value "lightSources[0].position" { x := -7, y := 8, z := -2 }
    let sh := sh.setVec3Value "lightSources[0].ambientColor"
      { x := 5 / 10, y := 5 / 10, z := 45 / 100 }
    let sh := sh.setVec3Value "lightSources[0].diffuseColor"
      { x := 1 / 10, y := 1 / 10, z := 1 / 100 }
    let sh := sh.setVec3Value "lightSources[0].specularColor"
      { x := 9 / 10, y := 9 / 10, z := 5 / 10 }
    let sh := sh.setFloatValue "lightSources[0].focalStrength" 64
    let sh := sh.setFloatValue "lightSources[0].specularIntensity" (9 / 10)
    let sh := sh.setVec3Value "lightSources[1].position" { x := 0, y := 7, z := 15 }
    let sh := sh.setVec3Value "lightSources[1].ambientColor"
      { x := 5 / 10, y := 5 / 10, z := 6 / 10 }
    let sh := sh.setVec3Value "lightSources[1].diffuseColor"
      { x := 2 / 10, y := 2 / 10, z := 2 / 10 }
    let sh := sh.setVec3Value "lightSources[1].specularColor"
      { x := 5 / 10, y := 5 / 10, z := 8 / 10 }
    let sh := sh.setFloatValue "lightSources[1].focalStrength" 7
    let sh := sh.setFloatValue "lightSources[1].specularIntensity" (2 / 10)
    let sh := sh.setBoolValue g_UseLightingName true
    some { self with m_pShaderManager := some sh }

/-- `LoadSceneTextures()`: five `CreateGLTexture` calls whose results are
discarded, then `BindGLTextures`. -/
def LoadSceneTextures (stbi_load : String → Option StbImage) (self : SceneManager R) :
    Option (SceneManager R) := do
  let (_, self) ← CreateGLTexture stbi_load self
    "../../Utilities/textures/customTexture.jpg" "customTexture"
  let (_, self) ← CreateGLTexture stbi_load self
    "../../Utilities/textures/customTexture2.jpg" "customTexture2"
  let (_, self) ← CreateGLTexture stbi_load self
    "../../Utilities/textures/table_wood.jpg" "table_wood"
  let (_, self) ← CreateGLTexture stbi_load self
    "../../Utilities/textures/butter_tray.jpg" "butter_tray"
  let (_, self) ← CreateGLTexture stbi_load self
    "../../Utilities/textures/napkin_holder.jpg" "napkin_holder"
  BindGLTextures self

/-- `PrepareScene()`. -/
def PrepareScene [Field R] (stbi_load : String → Option StbImage) (self : SceneManager R) :
    Option (SceneManager R) := do
  let self ← LoadSceneTextures stbi_load self
  let self := DefineObjectMaterials self
  let self ← SetupSceneLights self
  let self := self.mesh Call.LoadPlaneMesh
  let self := self.mesh Call.LoadCylinderMesh
  let self := self.mesh Call.LoadSphereMesh
  let self := self.mesh (Call.LoadTorusMesh none)
  let self := self.mesh Call.LoadBoxMesh
  pure self

/-! ## The render script -/

/-- The local variables of `RenderScene` that live across draw steps. -/
structure RenderScene.Locals (R : Type) where
  scaleXYZ : vec3 R
  XrotationDegrees : R
  YrotationDegrees : R
  ZrotationDegrees : R
  positionXYZ : vec3 R

/-- `RenderScene`, source lines 531-561: the table plane. -/
def RenderScene.tablePlane [Field R] (F : FloatOps R) (uninit : OBJECT_MATERIAL R)
    (l : RenderScene.Locals R) (self : SceneManager R) :
    Option (RenderScene.Locals R × SceneManager R) := do
  let l : RenderScene.Locals R := { l with scaleXYZ := { x := 25, y := 1, z := 25 } }
  let l : RenderScene.Locals R := { l with XrotationDegrees := 0 }
  let l : RenderScene.Locals R := { l with YrotationDegrees := 0 }
  let l : RenderScene.Locals R := { l with ZrotationDegrees := 0 }
  let l : RenderScene.Locals R := { l with positionXYZ := { x := 0, y := 0, z := -10 } }
  let self := SetTransformations F self l.scaleXYZ l.XrotationDegrees l.YrotationDegrees
    l.ZrotationDegrees l.positionXYZ
  let self := SetShaderColor self (1 / 10) (84 / 1000) (52 / 1000) 1
  let self ← SetShaderMaterial uninit self "table"
  let self := self.mesh Call.DrawPlaneMesh
  pure (l, self)

/-- `RenderScene`, source lines 563-596: the salt shaker body. -/
def RenderScene.saltBody [Field R] (F : FloatOps R) (uninit : OBJECT_MATERIAL R)
    (l : RenderScene.Locals R) (self : SceneManager R) :
    Option (RenderScene.Locals R × SceneManager R) := do
  let l : RenderScene.Locals R := { l with XrotationDegrees := 0 }
  let l : RenderScene.Locals R := { l with YrotationDegrees := 55 }
  let l : RenderScene.Locals R := { l with scaleXYZ := { x := 14 / 10, y := 25 / 10, z := 14 / 10 } }
  let l : RenderScene.Locals R := { l with positionXYZ := { x := 42 / 10, y := 12 / 10, z := 28 / 10 } }
  let self := SetTransformations F self l.scaleXYZ l.XrotationDegrees l.YrotationDegrees
    l.ZrotationDegrees l.positionXYZ
  let self := SetTextureUVScale self 2 1
  let self ← SetShaderTexture self "customTexture"
  let self ← SetShaderMaterial uninit self "design"
  let self := self.mesh Call.DrawCylinderMesh
  pure (l, self)

/-- `RenderScene`, source lines 598-624: the salt shaker cap. -/
def RenderScene.saltCap [Field R] (F : FloatOps R) (uninit : OBJECT_MATERIAL R)
    (l : RenderScene.Locals R) (self : SceneManager R) :
    Option (RenderScene.Locals R × SceneManager R) := do
  let l : RenderScene.Locals R := { l with scaleXYZ := { x := 15 / 10, y := 1, z := 15 / 10 } }
  let l : RenderScene.Locals R := { l with positionXYZ := { x := 42 / 10, y := 37 / 10, z := 28 / 10 } }
  let self := SetTransformations F self l.scaleXYZ l.XrotationDegrees l.YrotationDegrees
    l.ZrotationDegrees l.positionXYZ
  let self := SetTextureUVScale self 4 3
  let self ← SetShaderTexture self "customTexture2"
  let self ← SetShaderMaterial uninit self "brown"
  let self := self.mesh Call.DrawHalfSphereMesh
  pure (l, self)

/-- `RenderScene`, source lines 626-659: the pepper shaker body. -/
def RenderScene.pepperBody [Field R] (F : FloatOps R) (uninit : OBJECT_MATERIAL R)
    (l : RenderScene.Locals R) (self : SceneManager R) :
    Option (RenderScene.Locals R × SceneManager R) := do
  let l : RenderScene.Locals R := { l with YrotationDegrees := 85 }
  let l : RenderScene.Locals R := { l with scaleXYZ := { x := 14 / 10, y := 25 / 10, z := 14 / 10 } }
  let l : RenderScene.Locals R := { l with positionXYZ := { x := -35 / 10, y := 12 / 10, z := 25 / 10 } }
  let self := SetTransformations F self l.scaleXYZ l.XrotationDegrees l.YrotationDegrees
    l.ZrotationDegrees l.positionXYZ
  let self := SetTextureUVScale self 2 1
  let self ← SetShaderTexture self "customTexture"
  let self ← SetShaderMaterial uninit self "design"
  let self := self.mesh Call.DrawCylinderMesh
  pure (l, self)

/-- `RenderScene`, source lines 661-688: the pepper shaker cap. -/
def RenderScene.pepperCap [Field R] (F : FloatOps R) (uninit : OBJECT_MATERIAL R)
    (l : RenderScene.Locals R) (self : SceneManager R) :
    Option (RenderScene.Locals R × SceneManager R) := do
  let l : RenderScene.Locals R := { l with scaleXYZ := { x := 15 / 10, y := 1, z := 15 / 10 } }
  let l : RenderScene.Locals R := { l with positionXYZ := { x := -35 / 10, y := 37 / 10, z := 25 / 10 } }
  let self := SetTransformations F self l.scaleXYZ l.XrotationDegrees l.YrotationDegrees
    l.ZrotationDegrees l.positionXYZ
  let self := SetTextureUVScale self 4 3
  let self ← SetShaderTexture self "customTexture2"
  let self ← SetShaderMaterial uninit self "brown"
  let self := self.mesh Call.DrawHalfSphereMesh
  pure (l, self)

/-- `RenderScene`, source lines 690-718: the table tray. -/
def RenderScene.tray [Field R] (F : FloatOps R) (uninit : OBJECT_MATERIAL R)
    (l : RenderScene.Locals R) (self : SceneManager R) :
    Option (RenderScene.Locals R × SceneManager R) := do
  let l : RenderScene.Locals R := { l with YrotationDegrees := 0 }
  let l : RenderScene.Locals R := { l with scaleXYZ := { x := 7, y := 9 / 10, z := 7 } }
  let l : RenderScene.Locals R := { l with positionXYZ := { x := 0, y := 3 / 10, z := 0 } }
  let self := SetTransformations F self l.scaleXYZ l.XrotationDegrees l.YrotationDegrees
    l.ZrotationDegrees l.positionXYZ
  let self ← SetShaderTexture self "table_wood"
  let self ← SetShaderMaterial uninit self "table"
  let self := self.mesh Call.DrawCylinderMesh
  pure (l, self)

/-- `RenderScene`, source lines 720-743: the tray ring (torus of thickness 0.03). -/
def RenderScene.trayRing [Field R] (F : FloatOps R)
    (l : RenderScene.Locals R) (self : SceneManager R) :
    Option (RenderScene.Locals R × SceneManager R) := do
  let l : RenderScene.Locals R := { l with XrotationDegrees := 90 }
  let l : RenderScene.Locals R := { l with scaleXYZ := { x := 682 / 100, y := 682 / 100, z := 682 / 100 } }
  let l : RenderScene.Locals R := { l with positionXYZ := { x := 0, y := 11 / 10, z := 0 } }
  let self := SetTransformations F self l.scaleXYZ l.XrotationDegrees l.YrotationDegrees
    l.ZrotationDegrees l.positionXYZ
  let self := self.mesh (Call.LoadTorusMesh (some (3 / 100)))
  let self := self.mesh Call.DrawTorusMesh
  pure (l, self)

/-- `RenderScene`, source lines 746-779: the butter dish. -/
def RenderScene.butterDish [Field R] (F : FloatOps R) (uninit : OBJECT_MATERIAL R)
    (l : RenderScene.Locals R) (self : SceneManager R) :
    Option (RenderScene.Locals R × SceneManager R) := do
  let l : RenderScene.Locals R := { l with XrotationDegrees := 0 }
  let l : RenderScene.Locals R := { l with YrotationDegrees := 140 }
  let l : RenderScene.Locals R := { l with scaleXYZ := { x := 15 / 10, y := 2, z := 3 } }
  let l : RenderScene.Locals R := { l with positionXYZ := { x := 0, y := 13 / 10, z := 33 / 10 } }
  let self := SetTransformations F self l.scaleXYZ l.XrotationDegrees l.YrotationDegrees
    l.ZrotationDegrees l.positionXYZ
  let self := SetTextureUVScale self 2 2
  let self ← SetShaderTexture self "butter_tray"
  let self ← SetShaderMaterial uninit self "design"
  let self := self.mesh Call.DrawHalfSphereMesh
  pure (l, self)

/-- `RenderScene`, source lines 781-813: the butter dish torus (thickness 0.11);
`positionXYZ` is not reassigned (the assignment is commented out). -/
def RenderScene.butterRing [Field R] (F : FloatOps R) (uninit : OBJECT_MATERIAL R)
    (l : RenderScene.Locals R) (self : SceneManager R) :
    Option (RenderScene.Locals R × SceneManager R) := do
  let l : RenderScene.Locals R := { l with XrotationDegrees := 90 }
  let l : RenderScene.Locals R := { l with YrotationDegrees := 0 }
  let l : RenderScene.Locals R := { l with ZrotationDegrees := 40 }
  let l : RenderScene.Locals R := { l with scaleXYZ := { x := 17 / 10, y := 32 / 10, z := 35 / 10 } }
  let self := SetTransformations F self l.scaleXYZ l.XrotationDegrees l.YrotationDegrees
    l.ZrotationDegrees l.positionXYZ
  let self := SetTextureUVScale self 4 3
  let self ← SetShaderTexture self "customTexture2"
  let self ← SetShaderMaterial uninit self "brown"
  let self := self.mesh (Call.LoadTorusMesh (some (11 / 100)))
  let self := self.mesh Call.DrawTorusMesh
  pure (l, self)

/-- `RenderScene`, source lines 815-852: first box of the napkin holder. -/
def RenderScene.holderBack [Field R] (F : FloatOps R) (uninit : OBJECT_MATERIAL R)
    (l : RenderScene.Locals R) (self : SceneManager R) :
    Option (RenderScene.Locals R × SceneManager R) := do
  let l : RenderScene.Locals R := { l with XrotationDegrees := 0 }
  let l : RenderScene.Locals R := { l with YrotationDegrees := 20 }
  let l : RenderScene.Locals R := { l with ZrotationDegrees := 0 }
  let l : RenderScene.Locals R := { l with scaleXYZ := { x := 5, y := 5, z := 5 / 10 } }
  let l : RenderScene.Locals R := { l with
    positionXYZ := { x := -17279404685 / 10000000000, y := 34 / 10, z := -2 } }
  let self := SetTransformations F self l.scaleXYZ l.XrotationDegrees l.YrotationDegrees
    l.ZrotationDegrees l.positionXYZ
  let self := SetTextureUVScale self 1 1
  let self ← SetShaderTexture self "napkin_holder"
  let self ← SetShaderMaterial uninit self "design"
  let self := self.mesh Call.DrawBoxMesh
  pure (l, self)

/-- `RenderScene`, source lines 854-868: second box of the napkin holder. -/
def RenderScene.holderFront [Field R] (F : FloatOps R)
    (l : RenderScene.Locals R) (self : SceneManager R) :
    Option (RenderScene.Locals R × SceneManager R) := do
  let l : RenderScene.Locals R := { l with positionXYZ := { x := -1, y := 34 / 10, z := 0 } }
  let self := SetTransformations F self l.scaleXYZ l.XrotationDegrees l.YrotationDegrees
    l.ZrotationDegrees l.positionXYZ
  let self := self.mesh Call.DrawBoxMesh
  pure (l, self)

/-- `RenderScene`, source lines 870-891: third box of the napkin holder. -/
def RenderScene.holderBase [Field R] (F : FloatOps R)
    (l : RenderScene.Locals R) (self : SceneManager R) :
    Option (RenderScene.Locals R × SceneManager R) := do
  let l : RenderScene.Locals R := { l with scaleXYZ := { x := 5, y := 5 / 10, z := 2 } }
  let l : RenderScene.Locals R := { l with
    positionXYZ := { x := -13639702343 / 10000000000, y := 115 / 100, z := -1 } }
  let self := SetTransformations F self l.scaleXYZ l.XrotationDegrees l.YrotationDegrees
    l.ZrotationDegrees l.positionXYZ
  let self ← SetShaderTexture self ""
  let self := SetShaderColor self (596 / 1000) (708 / 1000) (780 / 1000) 1
  let self := self.mesh Call.DrawBoxMesh
  pure (l, self)

/-- One iteration of the napkin loop of `RenderScene` (source lines 910-928),
for loop index `i`. -/
def RenderScene.napkin [Field R] (F : FloatOps R)
    (ls : RenderScene.Locals R × SceneManager R) (i : Nat) :
    RenderScene.Locals R × SceneManager R :=
  let l := ls.1
  let self := ls.2
  let Zpos : R := (i : R) / 6
  let Xpos : R := -1 + F.tan (l.ZrotationDegrees * (314159 / 100000) / 180) * Zpos
  let l : RenderScene.Locals R := { l with positionXYZ := { x := Xpos, y := 4, z := -Zpos } }
  let self := SetTransformations F self l.scaleXYZ l.XrotationDegrees l.YrotationDegrees
    l.ZrotationDegrees l.positionXYZ
  let self := self.mesh Call.DrawPlaneMesh
  (l, self)

/-- `RenderScene`, source lines 893-928: the ten napkins, loop index `i` from 1 to 10. -/
def RenderScene.napkins [Field R] (F : FloatOps R) (uninit : OBJECT_MATERIAL R)
    (l : RenderScene.Locals R) (self : SceneManager R) :
    Option (RenderScene.Locals R × SceneManager R) := do
  let l : RenderScene.Locals R := { l with XrotationDegrees := 90 }
  let l : RenderScene.Locals R := { l with YrotationDegrees := 0 }
  let l : RenderScene.Locals R := { l with ZrotationDegrees := -20 }
  let l : RenderScene.Locals R := { l with scaleXYZ := { x := 3, y := 3, z := 25 / 10 } }
  let self := SetShaderColor self (85 / 100) (85 / 100) (85 / 100) 1
  let self ← SetShaderMaterial uninit self "napkin"
  pure ((List.range' 1 10).foldl (RenderScene.napkin F) (l, self))

/-- `RenderScene()`: the draw steps in source order. The locals `scaleXYZ`,
`XrotationDegrees`, `YrotationDegrees`, `ZrotationDegrees`, `positionXYZ` keep
their last value from one draw step to the next; `scaleXYZ0` and
`positionXYZ0` are the contents of the two vectors before their first
assignment. `uninit` is the content of the uninitialised local of
`SetShaderMaterial`. -/
def RenderScene [Field R] (F : FloatOps R) (uninit : OBJECT_MATERIAL R)
    (scaleXYZ0 positionXYZ0 : vec3 R) (self : SceneManager R) : Option (SceneManager R) :=
  let l : RenderScene.Locals R :=
    { scaleXYZ := scaleXYZ0
      XrotationDegrees := 0
      YrotationDegrees := 0
      ZrotationDegrees := 0
      positionXYZ := positionXYZ0 }
  (RenderScene.tablePlane F uninit l self).bind fun ls =>
  (RenderScene.saltBody F uninit ls.1 ls.2).bind fun ls =>
  (RenderScene.saltCap F uninit ls.1 ls.2).bind fun ls =>
  (RenderScene.pepperBody F uninit ls.1 ls.2).bind fun ls =>
  (RenderScene.pepperCap F uninit ls.1 ls.2).bind fun ls =>
  (RenderScene.tray F uninit ls.1 ls.2).bind fun ls =>
  (RenderScene.trayRing F ls.1 ls.2).bind fun ls =>
  (RenderScene.butterDish F uninit ls.1 ls.2).bind fun ls =>
  (RenderScene.butterRing F uninit ls.1 ls.2).bind fun ls =>
  (RenderScene.holderBack F uninit ls.1 ls.2).bind fun ls =>
  (RenderScene.holderFront F ls.1 ls.2).bind fun ls =>
  (RenderScene.holderBase F ls.1 ls.2).bind fun ls =>
  (RenderScene.napkins F uninit ls.1 ls.2).bind fun ls =>
  some ls.2

/-! ## Notions used in the statements -/

/-- The registry entry in use at index `i`: defined for `i` below
`m_loadedTextures` (and inside the array). -/
def entryAt (self : SceneManager R) (i : Nat) : Option TEXTURE_INFO :=
  if (i : Int) < self.m_loadedTextures then self.m_textureIDs[i]? else none

/-- The occupancy count lies within the array. -/
def InBounds (self : SceneManager R) : Prop :=
  0 ≤ self.m_loadedTextures ∧ self.m_loadedTextures ≤ self.m_textureIDs.length

instance (self : SceneManager R) : Decidable self.InBounds := by
  unfold InBounds; infer_instance

end SceneManager

/-- A texture array of capacity 16 with nothing stored. -/
def blankTextures : List TEXTURE_INFO := List.replicate 16 { tag := "", ID := 0 }

/-- An OpenGL context with an empty log, handing out the names 1, 2, 3, ... -/
def freshGL : GLState :=
  { calls := [], names := fun k => k + 1, generated := 0, activeTexture := 0,
    texture2D := fun _ => 0 }

/-- A scene manager with an empty registry, no materials and a shader
manager with no uniform set. -/
def freshScene (R : Type) : SceneManager R :=
  { m_pShaderManager := some { uniforms := fun _ => none }
    m_loadedTextures := 0
    m_textureIDs := blankTextures
    m_objectMaterials := []
    gl := freshGL
    trace := [] }

/-- A decoder that reads every file as a 64 x 64 image with `channels` channels. -/
def decodeAll (channels : Int) : String → Option StbImage :=
  fun _ => some { width := 64, height := 64, colorChannels := channels }

/-- A decoder that can read no file. -/
def decodeNone : String → Option StbImage :=
  fun _ => none

/-- A registry whose only entry, tagged "a", holds the largest `GLuint`. -/
def maxHandleScene (R : Type) : SceneManager R :=
  { freshScene R with
    m_loadedTextures := 1
    m_textureIDs := blankTextures.set 0 { tag := "a", ID := 4294967295 } }

namespace SceneManager

variable {R : Type}

/-- Whether `CreateGLTexture` accepts the file: it decodes, with 3 or 4 channels. -/
def accepts (stbi_load : String → Option StbImage) (filename : String) : Bool :=
  match stbi_load filename with
  | some image => decide (image.colorChannels = 3 ∨ image.colorChannels = 4)
  | none => false

/-- A sequence of `CreateGLTexture(filename, tag)` calls, in order, the
boolean results being discarded. -/
def CreateGLTextures (stbi_load : String → Option StbImage) (self : SceneManager R) :
    List (String × String) → Option (SceneManager R)
  | [] => some self
  | (filename, tag) :: rest =>
    match CreateGLTexture stbi_load self filename tag with
    | some (_, self') => CreateGLTextures stbi_load self' rest
    | none => none

/-- The number of calls of a sequence that `CreateGLTexture` accepts. -/
def acceptedCount (stbi_load : String → Option StbImage) (calls : List (String × String)) : Nat :=
  calls.countP (fun c => accepts stbi_load c.1)

/-- The handle stored at index `i` of `m_textureIDs` (0 outside the array). -/
def handleAt (self : SceneManager R) (i : Nat) : Nat :=
  match self.m_textureIDs[i]? with
  | some e => e.ID
  | none => 0

end SceneManager

/-- Seventeen registration requests `("f.jpg", "t")`. -/
def seventeenCalls : List (String × String) := List.replicate 17 ("f.jpg", "t")

/-- A material with every component zero and an empty tag. -/
def blankMaterial (R : Type) [Field R] : OBJECT_MATERIAL R :=
  { ambientColor := { x := 0, y := 0, z := 0 }
    ambientStrength := 0
    diffuseColor := { x := 0, y := 0, z := 0 }
    specularColor := { x := 0, y := 0, z := 0 }
    shininess := 0
    tag := "" }

/-- A registry whose only entry is registered under the empty tag. -/
def emptyTagScene (R : Type) : SceneManager R :=
  { freshScene R with
    m_loadedTextures := 1
    m_textureIDs := blankTextures.set 0 { tag := "", ID := 1 } }

namespace SceneManager

variable {R : Type}

/-- The five fields `FindMaterial` copies from `m` into `material` (the tag of
`material` is left as it is). -/
def copyMaterial (material m : OBJECT_MATERIAL R) : OBJECT_MATERIAL R :=
  { material with
    ambientColor := m.ambientColor
    ambientStrength := m.ambientStrength
    diffuseColor := m.diffuseColor
    specularColor := m.specularColor
    shininess := m.shininess }

end SceneManager

/-! ## The transform of the specification -/

namespace Spec

variable {R : Type} [Field R]

/-- `Translate(position)`: the homogeneous translation matrix. -/
def Translate (p : vec3 R) : mat4 R :=
  !![1, 0, 0, p.x;
     0, 1, 0, p.y;
     0, 0, 1, p.z;
     0, 0, 0, 1]

/-- `Scale(scale)`: the homogeneous scaling matrix. -/
def Scale (s : vec3 R) : mat4 R :=
  !![s.x, 0, 0, 0;
     0, s.y, 0, 0;
     0, 0, s.z, 0;
     0, 0, 0, 1]

/-- `RotateX(deg)`: rotation about the X axis by `deg` degrees. -/
def RotateX (F : FloatOps R) (deg : R) : mat4 R :=
  !![1, 0, 0, 0;
     0, F.cos (deg * (F.pi / 180)), -F.sin (deg * (F.pi / 180)), 0;
     0, F.sin (deg * (F.pi / 180)), F.cos (deg * (F.pi / 180)), 0;
     0, 0, 0, 1]

/-- `RotateY(deg)`: rotation about the Y axis by `deg` degrees. -/
def RotateY (F : FloatOps R) (deg : R) : mat4 R :=
  !![F.cos (deg * (F.pi / 180)), 0, F.sin (deg * (F.pi / 180)), 0;
     0, 1, 0, 0;
     -F.sin (deg * (F.pi / 180)), 0, F.cos (deg * (F.pi / 180)), 0;
     0, 0, 0, 1]

/-- `RotateZ(deg)`: rotation about the Z axis by `deg` degrees. -/
def RotateZ (F : FloatOps R) (deg : R) : mat4 R :=
  !![F.cos (deg * (F.pi / 180)), -F.sin (deg * (F.pi / 180)), 0, 0;
     F.sin (deg * (F.pi / 180)), F.cos (deg * (F.pi / 180)), 0, 0;
     0, 0, 1, 0;
     0, 0, 0, 1]

end Spec

namespace Call

variable {R : Type}

/-- Whether the call is `DrawPlaneMesh`. -/
def isDrawPlane : Call R → Bool
  | DrawPlaneMesh => true
  | _ => false

/-- Whether the call is `DrawCylinderMesh`. -/
def isDrawCylinder : Call R → Bool
  | DrawCylinderMesh => true
  | _ => false

/-- Whether the call is `DrawHalfSphereMesh`. -/
def isDrawHalfSphere : Call R → Bool
  | DrawHalfSphereMesh => true
  | _ => false

/-- Whether the call is `DrawTorusMesh`. -/
def isDrawTorus : Call R → Bool
  | DrawTorusMesh => true
  | _ => false

/-- Whether the call is `DrawBoxMesh`. -/
def isDrawBox : Call R → Bool
  | DrawBoxMesh => true
  | _ => false

/-- Whether the call is a mesh draw call. -/
def isDraw (c : Call R) : Bool :=
  c.isDrawPlane || c.isDrawCylinder || c.isDrawHalfSphere || c.isDrawTorus || c.isDrawBox

end Call

namespace SceneManager

variable {R : Type}

/-- The scene manager can run the render script: a shader manager is present
and the texture count lies within the array. -/
def Ready (self : SceneManager R) : Prop :=
  self.m_pShaderManager.isSome = true ∧ self.InBounds

end SceneManager
/-- The computation `m` returns a value, and the value satisfies `Q`. -/
def Returns {α : Type} (m : Option α) (Q : α → Prop) : Prop :=
  ∃ a, m = some a ∧ Q a

namespace SceneManager

variable {R : Type}

/-- The state `s'` differs from `s` by the calls `cs` appended to the trace and
by the values of shader uniforms only. -/
def Extends (s s' : SceneManager R) (cs : List (Call R)) : Prop :=
  s'.trace = s.trace ++ cs ∧
  s'.m_loadedTextures = s.m_loadedTextures ∧
  s'.m_textureIDs = s.m_textureIDs ∧
  s'.m_objectMaterials = s.m_objectMaterials ∧
  s'.gl = s.gl ∧
  s'.m_pShaderManager.isSome = s.m_pShaderManager.isSome

end SceneManager
namespace SceneManager

variable {R : Type}

/-- The two calls of iteration `i` of the napkin loop of `RenderScene`, for
the scale and rotation in force during the loop. -/
def napkinCalls [Field R] (F : FloatOps R) (scaleXYZ : vec3 R)
    (XrotationDegrees YrotationDegrees ZrotationDegrees : R) (i : Nat) : List (Call R) :=
  [Call.SetTransformations scaleXYZ XrotationDegrees YrotationDegrees ZrotationDegrees
     { x := -1 + F.tan (ZrotationDegrees * (314159 / 100000) / 180) * ((i : R) / 6)
       y := 4
       z := -((i : R) / 6) },
   Call.DrawPlaneMesh]

/-- The calls `RenderScene` makes, in order: the twelve draw steps before the
napkin loop, the colour and material set for the napkins, and the two calls of
each of the ten loop iterations. -/
def renderScript [Field R] (F : FloatOps R) : List (Call R) :=
  -- tablePlane
  ([Call.SetTransformations { x := 25, y := 1, z := 25 } 0 0 0 { x := 0, y := 0, z := -10 },
    Call.SetShaderColor (1 / 10) (84 / 1000) (52 / 1000) 1,
    Call.SetShaderMaterial "table",
    Call.DrawPlaneMesh] : List (Call R)) ++
  -- saltBody
  ([Call.SetTransformations { x := 14 / 10, y := 25 / 10, z := 14 / 10 } 0 55 0 { x := 42 / 10, y := 12 / 10, z := 28 / 10 },
    Call.SetTextureUVScale 2 1,
    Call.SetShaderTexture "customTexture",
    Call.SetShaderMaterial "design",
    Call.DrawCylinderMesh] : List (Call R)) ++
  -- saltCap
  ([Call.SetTransformations { x := 15 / 10, y := 1, z := 15 / 10 } 0 55 0 { x := 42 / 10, y := 37 / 10, z := 28 / 10 },
    Call.SetTextureUVScale 4 3,
    Call.SetShaderTexture "customTexture2",
    Call.SetShaderMaterial "brown",
    Call.DrawHalfSphereMesh] : List (Call R)) ++
  -- pepperBody
  ([Call.SetTransformations { x := 14 / 10, y := 25 / 10, z := 14 / 10 } 0 85 0 { x := -35 / 10, y := 12 / 10, z := 25 / 10 },
    Call.SetTextureUVScale 2 1,
    Call.SetShaderTexture "customTexture",
    Call.SetShaderMaterial "design",
    Call.DrawCylinderMesh] : List (Call R)) ++
  -- pepperCap
  ([Call.SetTransformations { x := 15 / 10, y := 1, z := 15 / 10 } 0 85 0 { x := -35 / 10, y := 37 / 10, z := 25 / 10 },
    Call.SetTextureUVScale 4 3,
    Call.SetShaderTexture "customTexture2",
    Call.SetShaderMaterial "brown",
    Call.DrawHalfSphereMesh] : List (Call R)) ++
  -- tray
  ([Call.SetTransformations { x := 7, y := 9 / 10, z := 7 } 0 0 0 { x := 0, y := 3 / 10, z := 0 },
    Call.SetShaderTexture "table_wood",
    Call.SetShaderMaterial "table",
    Call.DrawCylinderMesh] : List (Call R)) ++
  -- trayRing
  ([Call.SetTransformations { x := 682 / 100, y := 682 / 100, z := 682 / 100 } 90 0 0 { x := 0, y := 11 / 10, z := 0 },
    Call.LoadTorusMesh (some (3 / 100)),
    Call.DrawTorusMesh] : List (Call R)) ++
  -- butterDish
  ([Call.SetTransformations { x := 15 / 10, y := 2, z := 3 } 0 140 0 { x := 0, y := 13 / 10, z := 33 / 10 },
    Call.SetTextureUVScale 2 2,
    Call.SetShaderTexture "butter_tray",
    Call.SetShaderMaterial "design",
    Call.DrawHalfSphereMesh] : List (Call R)) ++
  -- butterRing
  ([Call.SetTransformations { x := 17 / 10, y := 32 / 10, z := 35 / 10 } 90 0 40 { x := 0, y := 13 / 10, z := 33 / 10 },
    Call.SetTextureUVScale 4 3,
    Call.SetShaderTexture "customTexture2",
    Call.SetShaderMaterial "brown",
    Call.LoadTorusMesh (some (11 / 100)),
    Call.DrawTorusMesh] : List (Call R)) ++
  -- holderBack
  ([Call.SetTransformations { x := 5, y := 5, z := 5 / 10 } 0 20 0 { x := -17279404685 / 10000000000, y := 34 / 10, z := -2 },
    Call.SetTextureUVScale 1 1,
    Call.SetShaderTexture "napkin_holder",
    Call.SetShaderMaterial "design",
    Call.DrawBoxMesh] : List (Call R)) ++
  -- holderFront
  ([Call.SetTransformations { x := 5, y := 5, z := 5 / 10 } 0 20 0 { x := -1, y := 34 / 10, z := 0 },
    Call.DrawBoxMesh] : List (Call R)) ++
  -- holderBase
  ([Call.SetTransformations { x := 5, y := 5 / 10, z := 2 } 0 20 0 { x := -13639702343 / 10000000000, y := 115 / 100, z := -1 },
    Call.SetShaderTexture "",
    Call.SetShaderColor (596 / 1000) (708 / 1000) (780 / 1000) 1,
    Call.DrawBoxMesh] : List (Call R)) ++
  -- napkins
  ([Call.SetShaderColor (85 / 100) (85 / 100) (85 / 100) 1,
    Call.SetShaderMaterial "napkin"] : List (Call R)) ++
  (List.range' 1 10).flatMap
    (napkinCalls F { x := 3, y := 3, z := 25 / 10 } 90 0 (-20))

end SceneManager
/-- Rational stand-ins for the floating-point library functions, for running
the scene on `ℚ`: a constant cosine, sine and tangent, the identity for the
square root and 355/113 for pi. Which calls are made does not depend on them. -/
def rationalOps : FloatOps ℚ :=
  { cos := fun _ => 1, sin := fun _ => 0, tan := fun _ => 0, sqrt := fun x => x,
    pi := 355 / 113 }

/-- A fresh scene manager whose OpenGL driver hands out the texture name
3000000000 (a `GLuint` above `2 ^ 31`). -/
def largeNameScene (R : Type) : SceneManager R :=
  { freshScene R with gl := { freshGL with names := fun _ => 3000000000 } }

/-- A material record with recognisable contents, standing for what an
uninitialised local happens to hold. -/
def garbageMaterial : OBJECT_MATERIAL ℚ :=
  { ambientColor := { x := 7, y := 7, z := 7 }
    ambientStrength := 7
    diffuseColor := { x := 7, y := 7, z := 7 }
    specularColor := { x := 7, y := 7, z := 7 }
    shininess := 7
    tag := "" }

namespace SceneManager

variable {R : Type}

/-- The five uploads of `SetShaderMaterial`, for the material `m`. -/
def pushMaterial (sh : ShaderManager R) (m : OBJECT_MATERIAL R) : ShaderManager R :=
  ((((sh.setVec3Value "material.ambientColor" m.ambientColor).setFloatValue
    "material.ambientStrength" m.ambientStrength).setVec3Value
    "material.diffuseColor" m.diffuseColor).setVec3Value
    "material.specularColor" m.specularColor).setFloatValue
    "material.shininess" m.shininess

/-- Whether `name` is one of the five `material.*` uniforms. -/
def isMaterialUniform (name : String) : Bool :=
  name = "material.ambientColor" || name = "material.ambientStrength" ||
  name = "material.diffuseColor" || name = "material.specularColor" ||
  name = "material.shininess"

end SceneManager

/-- A call with its numeric arguments erased: the method, the tag of a
texture or material call, and whether `LoadTorusMesh` was given a thickness. -/
inductive CallShape
  | SetTransformations
  | SetShaderColor
  | SetShaderTexture (textureTag : String)
  | SetTextureUVScale
  | SetShaderMaterial (materialTag : String)
  | LoadPlaneMesh
  | LoadCylinderMesh
  | LoadSphereMesh
  | LoadTorusMesh (explicitThickness : Bool)
  | LoadBoxMesh
  | DrawPlaneMesh
  | DrawCylinderMesh
  | DrawHalfSphereMesh
  | DrawTorusMesh
  | DrawBoxMesh
  deriving DecidableEq, Repr

/-- The shape of a call. -/
def Call.shape {R : Type} : Call R → CallShape
  | .SetTransformations _ _ _ _ _ => .SetTransformations
  | .SetShaderColor _ _ _ _ => .SetShaderColor
  | .SetShaderTexture textureTag => .SetShaderTexture textureTag
  | .SetTextureUVScale _ _ => .SetTextureUVScale
  | .SetShaderMaterial materialTag => .SetShaderMaterial materialTag
  | .LoadPlaneMesh => .LoadPlaneMesh
  | .LoadCylinderMesh => .LoadCylinderMesh
  | .LoadSphereMesh => .LoadSphereMesh
  | .LoadTorusMesh thickness => .LoadTorusMesh thickness.isSome
  | .LoadBoxMesh => .LoadBoxMesh
  | .DrawPlaneMesh => .DrawPlaneMesh
  | .DrawCylinderMesh => .DrawCylinderMesh
  | .DrawHalfSphereMesh => .DrawHalfSphereMesh
  | .DrawTorusMesh => .DrawTorusMesh
  | .DrawBoxMesh => .DrawBoxMesh

namespace CallShape

/-- Whether the call is a mesh draw call. -/
def isDraw : CallShape → Bool
  | DrawPlaneMesh => true
  | DrawCylinderMesh => true
  | DrawHalfSphereMesh => true
  | DrawTorusMesh => true
  | DrawBoxMesh => true
  | _ => false

/-- Whether the call goes to the mesh service (`m_basicMeshes`). -/
def isMeshCall : CallShape → Bool
  | LoadPlaneMesh => true
  | LoadCylinderMesh => true
  | LoadSphereMesh => true
  | LoadTorusMesh _ => true
  | LoadBoxMesh => true
  | c => c.isDraw

/-- Whether the call is a colour-or-texture call (`SetShaderColor` or
`SetShaderTexture`). -/
def isColourOrTexture : CallShape → Bool
  | SetShaderColor => true
  | SetShaderTexture _ => true
  | _ => false

/-- Whether the call is `SetShaderMaterial`. -/
def isSetShaderMaterial : CallShape → Bool
  | SetShaderMaterial _ => true
  | _ => false

end CallShape

/-- The draw steps of a trace: the trace cut after every mesh draw call
(`acc` holds the calls since the last cut; calls after the last draw belong
to no step). -/
def drawSteps.go : List CallShape → List CallShape → List (List CallShape)
  | [], _ => []
  | c :: cs, acc =>
    if c.isDraw then (acc ++ [c]) :: drawSteps.go cs [] else drawSteps.go cs (acc ++ [c])

/-- The draw steps of a trace, each ending with its mesh draw call. -/
def drawSteps (trace : List CallShape) : List (List CallShape) :=
  drawSteps.go trace []

/-- Whether a draw step contains, in this order, a `SetTransformations` call,
then a colour-or-texture call, then a `SetShaderMaterial` call, before its
final draw call. -/
def inSequence (step : List CallShape) : Bool :=
  let afterTransform := step.dropWhile (fun c => c != CallShape.SetTransformations)
  let afterColour := afterTransform.dropWhile (fun c => !c.isColourOrTexture)
  let afterMaterial := afterColour.dropWhile (fun c => !c.isSetShaderMaterial)
  !afterMaterial.isEmpty

/-- Whether a draw step has exactly one `SetTransformations` call and one draw
call, the draw call last. -/
def transformThenDraw (step : List CallShape) : Bool :=
  step.count CallShape.SetTransformations == 1 && step.countP CallShape.isDraw == 1 &&
  (match step.getLast? with
   | some c => c.isDraw
   | none => false)

/-- The shapes of the calls of `renderScript`, in order. -/
def renderShape : List CallShape :=
  [.SetTransformations, .SetShaderColor, .SetShaderMaterial "table", .DrawPlaneMesh,
   .SetTransformations, .SetTextureUVScale, .SetShaderTexture "customTexture",
   .SetShaderMaterial "design", .DrawCylinderMesh, .SetTransformations, .SetTextureUVScale,
   .SetShaderTexture "customTexture2", .SetShaderMaterial "brown", .DrawHalfSphereMesh,
   .SetTransformations, .SetTextureUVScale, .SetShaderTexture "customTexture",
   .SetShaderMaterial "design", .DrawCylinderMesh, .SetTransformations, .SetTextureUVScale,
   .SetShaderTexture "customTexture2", .SetShaderMaterial "brown", .DrawHalfSphereMesh,
   .SetTransformations, .SetShaderTexture "table_wood", .SetShaderMaterial "table",
   .DrawCylinderMesh, .SetTransformations, .LoadTorusMesh true, .DrawTorusMesh,
   .SetTransformations, .SetTextureUVScale, .SetShaderTexture "butter_tray",
   .SetShaderMaterial "design", .DrawHalfSphereMesh, .SetTransformations, .SetTextureUVScale,
   .SetShaderTexture "customTexture2", .SetShaderMaterial "brown", .LoadTorusMesh true,
   .DrawTorusMesh, .SetTransformations, .SetTextureUVScale, .SetShaderTexture "napkin_holder",
   .SetShaderMaterial "design", .DrawBoxMesh, .SetTransformations, .DrawBoxMesh,
   .SetTransformations, .SetShaderTexture "", .SetShaderColor, .DrawBoxMesh, .SetShaderColor,
   .SetShaderMaterial "napkin", .SetTransformations, .DrawPlaneMesh, .SetTransformations,
   .DrawPlaneMesh, .SetTransformations, .DrawPlaneMesh, .SetTransformations, .DrawPlaneMesh,
   .SetTransformations, .DrawPlaneMesh, .SetTransformations, .DrawPlaneMesh,
   .SetTransformations, .DrawPlaneMesh, .SetTransformations, .DrawPlaneMesh,
   .SetTransformations, .DrawPlaneMesh, .SetTransformations, .DrawPlaneMesh]

/-! ## Tags passed to the lookups -/

/-- The tags that a call sequence passes to `SetShaderTexture`, hence to
`FindTextureSlot`, in order. -/
def textureTags (cs : List CallShape) : List String :=
  cs.filterMap fun c =>
    match c with
    | .SetShaderTexture tag => some tag
    | _ => none

/-- The tags that a call sequence passes to `SetShaderMaterial`, hence to
`FindMaterial`, in order. -/
def materialTags (cs : List CallShape) : List String :=
  cs.filterMap fun c =>
    match c with
    | .SetShaderMaterial tag => some tag
    | _ => none

namespace SceneManager

variable {R : Type}

/-! ## The draw steps around the tray -/

/-- `RenderScene`, source lines 531-688: the draw steps up to and including
the pepper shaker cap. -/
def RenderScene.throughPepperCap [Field R] (F : FloatOps R) (uninit : OBJECT_MATERIAL R)
    (l : RenderScene.Locals R) (self : SceneManager R) :
    Option (RenderScene.Locals R × SceneManager R) :=
  (RenderScene.tablePlane F uninit l self).bind fun ls =>
  (RenderScene.saltBody F uninit ls.1 ls.2).bind fun ls =>
  (RenderScene.saltCap F uninit ls.1 ls.2).bind fun ls =>
  (RenderScene.pepperBody F uninit ls.1 ls.2).bind fun ls =>
  RenderScene.pepperCap F uninit ls.1 ls.2

/-- `RenderScene`, source lines 746-931: the draw steps after the tray ring. -/
def RenderScene.afterTrayRing [Field R] (F : FloatOps R) (uninit : OBJECT_MATERIAL R)
    (l : RenderScene.Locals R) (self : SceneManager R) : Option (SceneManager R) :=
  (RenderScene.butterDish F uninit l self).bind fun ls =>
  (RenderScene.butterRing F uninit ls.1 ls.2).bind fun ls =>
  (RenderScene.holderBack F uninit ls.1 ls.2).bind fun ls =>
  (RenderScene.holderFront F ls.1 ls.2).bind fun ls =>
  (RenderScene.holderBase F ls.1 ls.2).bind fun ls =>
  (RenderScene.napkins F uninit ls.1 ls.2).bind fun ls =>
  some ls.2

end SceneManager

/-! ## View manager (`ViewManager.cpp`) -/

/-- The members of the external class `Camera` that `ViewManager.cpp` reads or
writes. -/
structure Camera (R : Type) where
  Position : vec3 R
  Front : vec3 R
  Up : vec3 R
  Zoom : R
  MovementSpeed : R
  MouseSensitivity : R

namespace ViewManager

variable {R : Type}

/-- `Scroll_Callback(window, xOffset, yOffset)`, on the global `g_pCamera`
(`none` for a null pointer, which the function dereferences without a test);
returns the camera after the call. -/
def Scroll_Callback [LinearOrderedField R] (g_pCamera : Option (Camera R))
    (_xOffset yOffset : R) : Option (Camera R) :=
  match g_pCamera with
  | none => none
  | some camera =>
    let movement : R := camera.MovementSpeed
    let sens : R := camera.MouseSensitivity
    let movement : R := movement + yOffset
    let sens : R := sens + yOffset / 100
    let checked : R × R := if movement < 0 ∨ sens < 0 then (0, 0) else (movement, sens)
    some { camera with MovementSpeed := checked.1, MouseSensitivity := checked.2 }

end ViewManager

/-- The camera as the `ViewManager` constructor sets it up. -/
def initialCamera : Camera ℚ :=
  { Position := { x := 0, y := 5, z := 10 }
    Front := { x := 0, y := -2 / 10, z := -5 / 10 }
    Up := { x := 0, y := 1, z := 0 }
    Zoom := 80
    MovementSpeed := 1
    MouseSensitivity := 1 / 100 }

/-! # Theorems -/

namespace SceneManager

variable {R : Type}

/-! ## The lookup loops -/

theorem entryAt_some {self : SceneManager R} {i : Nat} {e : TEXTURE_INFO}
    (h : self.entryAt i = some e) :
    (i : Int) < self.m_loadedTextures ∧ self.m_textureIDs[i]? = some e := by
  unfold entryAt at h
  split at h
  · exact ⟨by assumption, h⟩
  · exact absurd h (by simp)

theorem entryAt_of_lt {self : SceneManager R} {i : Nat}
    (hlen : self.m_loadedTextures ≤ self.m_textureIDs.length)
    (h : (i : Int) < self.m_loadedTextures) :
    ∃ e, self.entryAt i = some e ∧ self.m_textureIDs[i]? = some e := by
  have hi : i < self.m_textureIDs.length := by omega
  exact ⟨self.m_textureIDs[i], by simp [entryAt, h, List.getElem?_eq_getElem hi],
    List.getElem?_eq_getElem hi⟩

theorem slot_loop_found (self : SceneManager R) (tag : String) (fuel : Nat) (v : Int)
    (index : Nat) : FindTextureSlot.loop self tag (fuel + 1) v index true = some v := by
  simp [FindTextureSlot.loop]

theorem slot_loop_miss (self : SceneManager R) (tag : String)
    (hlen : self.m_loadedTextures ≤ self.m_textureIDs.length)
    (hmiss : ∀ i e, self.entryAt i = some e → e.tag ≠ tag) :
    ∀ (fuel : Nat) (v : Int) (index : Nat), self.m_loadedTextures.toNat - index < fuel →
      FindTextureSlot.loop self tag fuel v index false = some v := by
  intro fuel
  induction fuel with
  | zero => intro v index h; omega
  | succ k ih =>
    intro v index h
    by_cases hlt : (index : Int) < self.m_loadedTextures
    · obtain ⟨e, he, hget⟩ := entryAt_of_lt hlen hlt
      have hne : e.tag ≠ tag := hmiss index e he
      rw [FindTextureSlot.loop]
      simp only [hlt, hget, hne, and_self, if_true, if_false]
      exact ih v (index + 1) (by omega)
    · rw [FindTextureSlot.loop]
      simp [hlt]

theorem slot_loop_hit (self : SceneManager R) (tag : String) (k : Nat) (e : TEXTURE_INFO)
    (hlen : self.m_loadedTextures ≤ self.m_textureIDs.length)
    (hk : self.entryAt k = some e) (hetag : e.tag = tag)
    (hfirst : ∀ i e', i < k → self.entryAt i = some e' → e'.tag ≠ tag) :
    ∀ (fuel : Nat) (v : Int) (index : Nat), index ≤ k → k - index + 1 < fuel →
      FindTextureSlot.loop self tag fuel v index false = some (k : Int) := by
  obtain ⟨hkn, hkget⟩ := entryAt_some hk
  intro fuel
  induction fuel with
  | zero => intro v index _ h; omega
  | succ f ih =>
    intro v index hik h
    have hlt : (index : Int) < self.m_loadedTextures := by omega
    obtain ⟨e0, he0, hget⟩ := entryAt_of_lt hlen hlt
    rw [FindTextureSlot.loop]
    by_cases heq : e0.tag = tag
    · have hidx : index = k := by
        rcases Nat.lt_or_ge index k with hlt2 | hge
        · exact absurd heq (hfirst index e0 hlt2 he0)
        · omega
      subst hidx
      simp only [hlt, hget, heq, and_self, if_true]
      obtain ⟨f1, rfl⟩ : ∃ f1, f = f1 + 1 := ⟨f - 1, by omega⟩
      exact slot_loop_found self tag f1 _ _
    · have hidx : index ≠ k := by
        rintro rfl
        rw [hkget] at hget
        cases hget
        exact heq hetag
      simp only [hlt, hget, heq, and_self, if_true, if_false]
      exact ih v (index + 1) (by omega) (by omega)

theorem id_loop_found (self : SceneManager R) (tag : String) (fuel : Nat) (v : Int)
    (index : Nat) : FindTextureID.loop self tag (fuel + 1) v index true = some v := by
  simp [FindTextureID.loop]

theorem id_loop_miss (self : SceneManager R) (tag : String)
    (hlen : self.m_loadedTextures ≤ self.m_textureIDs.length)
    (hmiss : ∀ i e, self.entryAt i = some e → e.tag ≠ tag) :
    ∀ (fuel : Nat) (v : Int) (index : Nat), self.m_loadedTextures.toNat - index < fuel →
      FindTextureID.loop self tag fuel v index false = some v := by
  intro fuel
  induction fuel with
  | zero => intro v index h; omega
  | succ k ih =>
    intro v index h
    by_cases hlt : (index : Int) < self.m_loadedTextures
    · obtain ⟨e, he, hget⟩ := entryAt_of_lt hlen hlt
      have hne : e.tag ≠ tag := hmiss index e he
      rw [FindTextureID.loop]
      simp only [hlt, hget, hne, and_self, if_true, if_false]
      exact ih v (index + 1) (by omega)
    · rw [FindTextureID.loop]
      simp [hlt]

theorem id_loop_hit (self : SceneManager R) (tag : String) (k : Nat) (e : TEXTURE_INFO)
    (hlen : self.m_loadedTextures ≤ self.m_textureIDs.length)
    (hk : self.entryAt k = some e) (hetag : e.tag = tag)
    (hfirst : ∀ i e', i < k → self.entryAt i = some e' → e'.tag ≠ tag) :
    ∀ (fuel : Nat) (v : Int) (index : Nat), index ≤ k → k - index + 1 < fuel →
      FindTextureID.loop self tag fuel v index false = some (GLuint_to_int e.ID) := by
  obtain ⟨hkn, hkget⟩ := entryAt_some hk
  intro fuel
  induction fuel with
  | zero => intro v index _ h; omega
  | succ f ih =>
    intro v index hik h
    have hlt : (index : Int) < self.m_loadedTextures := by omega
    obtain ⟨e0, he0, hget⟩ := entryAt_of_lt hlen hlt
    rw [FindTextureID.loop]
    by_cases heq : e0.tag = tag
    · have hidx : index = k := by
        rcases Nat.lt_or_ge index k with hlt2 | hge
        · exact absurd heq (hfirst index e0 hlt2 he0)
        · omega
      subst hidx
      have hee : e0 = e := by rw [hkget] at hget; cases hget; rfl
      subst hee
      simp only [hlt, hget, heq, and_self, if_true]
      obtain ⟨f1, rfl⟩ : ∃ f1, f = f1 + 1 := ⟨f - 1, by omega⟩
      exact id_loop_found self tag f1 _ _
    · have hidx : index ≠ k := by
        rintro rfl
        rw [hkget] at hget
        cases hget
        exact heq hetag
      simp only [hlt, hget, heq, and_self, if_true, if_false]
      exact ih v (index + 1) (by omega) (by omega)

/-- The result of `FindTextureSlot` when no entry in use carries the tag. -/
theorem FindTextureSlot_miss (self : SceneManager R) (tag : String)
    (hlen : self.m_loadedTextures ≤ self.m_textureIDs.length)
    (hmiss : ∀ i e, self.entryAt i = some e → e.tag ≠ tag) :
    FindTextureSlot self tag = some (-1) :=
  slot_loop_miss self tag hlen hmiss _ _ _ (by omega)

/-- The result of `FindTextureSlot` when `k` is the first index carrying the tag. -/
theorem FindTextureSlot_hit (self : SceneManager R) (tag : String) (k : Nat) (e : TEXTURE_INFO)
    (hlen : self.m_loadedTextures ≤ self.m_textureIDs.length)
    (hk : self.entryAt k = some e) (hetag : e.tag = tag)
    (hfirst : ∀ i e', i < k → self.entryAt i = some e' → e'.tag ≠ tag) :
    FindTextureSlot self tag = some (k : Int) :=
  slot_loop_hit self tag k e hlen hk hetag hfirst _ _ _ (Nat.zero_le _)
    (by have := (entryAt_some hk).1; omega)

theorem FindTextureID_miss (self : SceneManager R) (tag : String)
    (hlen : self.m_loadedTextures ≤ self.m_textureIDs.length)
    (hmiss : ∀ i e, self.entryAt i = some e → e.tag ≠ tag) :
    FindTextureID self tag = some (-1) :=
  id_loop_miss self tag hlen hmiss _ _ _ (by omega)

theorem FindTextureID_hit (self : SceneManager R) (tag : String) (k : Nat) (e : TEXTURE_INFO)
    (hlen : self.m_loadedTextures ≤ self.m_textureIDs.length)
    (hk : self.entryAt k = some e) (hetag : e.tag = tag)
    (hfirst : ∀ i e', i < k → self.entryAt i = some e' → e'.tag ≠ tag) :
    FindTextureID self tag = some (GLuint_to_int e.ID) :=
  id_loop_hit self tag k e hlen hk hetag hfirst _ _ _ (Nat.zero_le _)
    (by have := (entryAt_some hk).1; omega)

/-- Either some entry in use carries the tag, and then there is a first one, or none does. -/
theorem first_match_or_none (self : SceneManager R) (tag : String) :
    (∃ k e, self.entryAt k = some e ∧ e.tag = tag ∧
        ∀ i e', i < k → self.entryAt i = some e' → e'.tag ≠ tag) ∨
    (∀ i e, self.entryAt i = some e → e.tag ≠ tag) := by
  by_cases h : ∃ k, ∃ e, self.entryAt k = some e ∧ e.tag = tag
  · left
    classical
    refine ⟨Nat.find h, ?_⟩
    obtain ⟨e, he, het⟩ := Nat.find_spec h
    refine ⟨e, he, het, ?_⟩
    intro i e' hi hie hte
    exact Nat.find_min h hi ⟨e', hie, hte⟩
  · right
    intro i e he het
    exact h ⟨i, e, he, het⟩

theorem GLuint_to_int_mod (u : Nat) : (GLuint_to_int u) % 2 ^ 32 = ((u % 2 ^ 32 : Nat) : Int) := by
  unfold GLuint_to_int
  split <;> omega

theorem GLuint_to_int_eq_neg_one (u : Nat) : GLuint_to_int u = -1 ↔ u % 2 ^ 32 = 2 ^ 32 - 1 := by
  unfold GLuint_to_int
  split <;> omega

theorem GLuint_to_int_small (u : Nat) (h : u < 2 ^ 31) : GLuint_to_int u = (u : Int) := by
  unfold GLuint_to_int
  have : u % 2 ^ 32 = u := Nat.mod_eq_of_lt (by omega)
  rw [this, if_pos (by omega)]


theorem slot_loop_congr (s1 s2 : SceneManager R) (tag : String)
    (hn : s1.m_loadedTextures = s2.m_loadedTextures) (ha : s1.m_textureIDs = s2.m_textureIDs) :
    ∀ (fuel : Nat) (v : Int) (index : Nat) (b : Bool),
      FindTextureSlot.loop s1 tag fuel v index b = FindTextureSlot.loop s2 tag fuel v index b := by
  intro fuel
  induction fuel with
  | zero => intro v index b; rfl
  | succ k ih =>
    intro v index b
    rw [FindTextureSlot.loop, FindTextureSlot.loop, hn, ha]
    simp only [ih]

theorem id_loop_congr (s1 s2 : SceneManager R) (tag : String)
    (hn : s1.m_loadedTextures = s2.m_loadedTextures) (ha : s1.m_textureIDs = s2.m_textureIDs) :
    ∀ (fuel : Nat) (v : Int) (index : Nat) (b : Bool),
      FindTextureID.loop s1 tag fuel v index b = FindTextureID.loop s2 tag fuel v index b := by
  intro fuel
  induction fuel with
  | zero => intro v index b; rfl
  | succ k ih =>
    intro v index b
    rw [FindTextureID.loop, FindTextureID.loop, hn, ha]
    simp only [ih]

theorem FindTextureSlot_congr (s1 s2 : SceneManager R) (tag : String)
    (hn : s1.m_loadedTextures = s2.m_loadedTextures) (ha : s1.m_textureIDs = s2.m_textureIDs) :
    FindTextureSlot s1 tag = FindTextureSlot s2 tag := by
  unfold FindTextureSlot
  rw [hn]
  exact slot_loop_congr s1 s2 tag hn ha _ _ _ _

theorem FindTextureID_congr (s1 s2 : SceneManager R) (tag : String)
    (hn : s1.m_loadedTextures = s2.m_loadedTextures) (ha : s1.m_textureIDs = s2.m_textureIDs) :
    FindTextureID s1 tag = FindTextureID s2 tag := by
  unfold FindTextureID
  rw [hn]
  exact id_loop_congr s1 s2 tag hn ha _ _ _ _

/-- What a successful `CreateGLTexture` returns. -/
theorem CreateGLTexture_ok (stbi_load : String → Option StbImage) (self : SceneManager R)
    (filename tag : String) (image : StbImage)
    (h0 : 0 ≤ self.m_loadedTextures)
    (hcap : self.m_loadedTextures < self.m_textureIDs.length)
    (hload : stbi_load filename = some image)
    (hch : image.colorChannels = 3 ∨ image.colorChannels = 4) :
    ∃ self', CreateGLTexture stbi_load self filename tag = some (true, self') ∧
      self'.m_loadedTextures = self.m_loadedTextures + 1 ∧
      self'.m_textureIDs = self.m_textureIDs.set self.m_loadedTextures.toNat
        { tag := tag, ID := self.gl.glGenTextures.1 } ∧
      self'.m_pShaderManager = self.m_pShaderManager ∧
      self'.m_objectMaterials = self.m_objectMaterials ∧
      self'.trace = self.trace ∧
      self'.gl.generated = self.gl.generated + 1 ∧
      self'.gl.names = self.gl.names := by
  rcases hch with h | h
  · simp [CreateGLTexture, hload, h, h0, hcap, GLState.glGenTextures, GLState.glBindTexture,
      GLState.glTexParameteri, GLState.glTexImage2D, GLState.glGenerateMipmap]
  · simp [CreateGLTexture, hload, h, h0, hcap, GLState.glGenTextures, GLState.glBindTexture,
      GLState.glTexParameteri, GLState.glTexImage2D, GLState.glGenerateMipmap]

/-- What a failing `CreateGLTexture` returns. -/
theorem CreateGLTexture_fail (stbi_load : String → Option StbImage) (self : SceneManager R)
    (filename tag : String)
    (h : stbi_load filename = none ∨ ∃ image, stbi_load filename = some image ∧
      image.colorChannels ≠ 3 ∧ image.colorChannels ≠ 4) :
    ∃ self', CreateGLTexture stbi_load self filename tag = some (false, self') ∧
      self'.m_loadedTextures = self.m_loadedTextures ∧
      self'.m_textureIDs = self.m_textureIDs ∧
      self'.m_pShaderManager = self.m_pShaderManager ∧
      self'.m_objectMaterials = self.m_objectMaterials ∧
      self'.trace = self.trace := by
  rcases h with h | ⟨image, h, h3, h4⟩
  · simp [CreateGLTexture, h]
  · simp [CreateGLTexture, h, h3, h4]

/-- C1 (as stated, refuted). When the driver generates the texture name
3000000000, `CreateGLTexture` on an empty registry returns `true` and stores
that handle at index 0, and `FindTextureID` then returns -1294967296, which is
not the handle. -/
theorem FindTextureID_of_large_handle :
    ∃ self', CreateGLTexture (decodeAll 3) (largeNameScene ℚ) "a.jpg" "a" = some (true, self') ∧
      self'.entryAt 0 = some { tag := "a", ID := 3000000000 } ∧
      FindTextureID self' "a" = some (-1294967296) ∧
      FindTextureID self' "a" ≠ some 3000000000 := by
  obtain ⟨self', hc, hn, ha, -⟩ := CreateGLTexture_ok (decodeAll 3) (largeNameScene ℚ)
    "a.jpg" "a" { width := 64, height := 64, colorChannels := 3 } (by decide) (by decide) rfl
    (by decide)
  have hent : self'.entryAt 0 = some { tag := "a", ID := 3000000000 } := by
    unfold entryAt
    rw [hn, ha]
    rfl
  have hid : FindTextureID self' "a" = some (-1294967296) :=
    FindTextureID_hit self' "a" 0 _ (by rw [hn, ha]; decide) hent rfl
      (by intro i _ hi; omega)
  exact ⟨self', hc, hent, hid, by rw [hid]; decide⟩

/-- C1 (amended). In a registry of capacity 16 holding fewer than 16 entries,
for a tag carried by no entry in use and an image that decodes with 3 or 4
channels, `CreateGLTexture` returns `true` and stores the tag with the
generated handle at index `m_loadedTextures` (the count before the call);
afterwards `FindTextureSlot tag` returns that index and `FindTextureID tag`
returns the generated handle converted to `int`: the handle itself when it is
below `2 ^ 31`, and in every case a value that reduces to the handle modulo
`2 ^ 32`. -/
theorem CreateGLTexture_then_lookup (stbi_load : String → Option StbImage)
    (self : SceneManager R) (filename tag : String) (image : StbImage)
    (hcap : self.m_textureIDs.length = 16)
    (h0 : 0 ≤ self.m_loadedTextures) (h16 : self.m_loadedTextures < 16)
    (hfresh : ∀ i e, self.entryAt i = some e → e.tag ≠ tag)
    (hload : stbi_load filename = some image)
    (hch : image.colorChannels = 3 ∨ image.colorChannels = 4) :
    ∃ self', CreateGLTexture stbi_load self filename tag = some (true, self') ∧
      self'.entryAt self.m_loadedTextures.toNat =
        some { tag := tag, ID := self.gl.glGenTextures.1 } ∧
      FindTextureID self' tag = some (GLuint_to_int self.gl.glGenTextures.1) ∧
      GLuint_to_int self.gl.glGenTextures.1 % 2 ^ 32 = (self.gl.glGenTextures.1 : Int) ∧
      (self.gl.glGenTextures.1 < 2 ^ 31 →
        FindTextureID self' tag = some (self.gl.glGenTextures.1 : Int)) ∧
      FindTextureSlot self' tag = some self.m_loadedTextures := by
  obtain ⟨self', hc, hn, ha, -⟩ :=
    CreateGLTexture_ok stbi_load self filename tag image h0 (by omega) hload hch
  have hk : (self.m_loadedTextures.toNat : Int) = self.m_loadedTextures := Int.toNat_of_nonneg h0
  have hlen : self'.m_loadedTextures ≤ self'.m_textureIDs.length := by
    rw [hn, ha, List.length_set]; omega
  have hent : self'.entryAt self.m_loadedTextures.toNat =
      some { tag := tag, ID := self.gl.glGenTextures.1 } := by
    unfold entryAt
    rw [hn, ha, if_pos (by omega), List.getElem?_set_self (by omega)]
  have hfirst : ∀ i e', i < self.m_loadedTextures.toNat → self'.entryAt i = some e' →
      e'.tag ≠ tag := by
    intro i e' hi he'
    apply hfresh i e'
    obtain ⟨_, hget⟩ := entryAt_some he'
    rw [ha, List.getElem?_set_ne (by omega)] at hget
    unfold entryAt
    rw [if_pos (by omega)]
    exact hget
  have hid := FindTextureID_hit self' tag _ _ hlen hent rfl hfirst
  refine ⟨self', hc, hent, hid, ?_, ?_, ?_⟩
  · rw [GLuint_to_int_mod]
    simp [GLState.glGenTextures]
  · intro hsmall
    rw [hid, GLuint_to_int_small _ hsmall]
  · have := FindTextureSlot_hit self' tag _ _ hlen hent rfl hfirst
    rw [hk] at this
    exact this

theorem CreateGLTexture_then_lookup_witness :
    ∃ self', CreateGLTexture (decodeAll 3) (freshScene ℚ) "a.jpg" "a" = some (true, self') ∧
      self'.entryAt (freshScene ℚ).m_loadedTextures.toNat =
        some { tag := "a", ID := (freshScene ℚ).gl.glGenTextures.1 } ∧
      FindTextureID self' "a" = some (GLuint_to_int (freshScene ℚ).gl.glGenTextures.1) ∧
      GLuint_to_int (freshScene ℚ).gl.glGenTextures.1 % 2 ^ 32 =
        ((freshScene ℚ).gl.glGenTextures.1 : Int) ∧
      ((freshScene ℚ).gl.glGenTextures.1 < 2 ^ 31 →
        FindTextureID self' "a" = some ((freshScene ℚ).gl.glGenTextures.1 : Int)) ∧
      FindTextureSlot self' "a" = some (freshScene ℚ).m_loadedTextures :=
  CreateGLTexture_then_lookup (decodeAll 3) (freshScene ℚ) "a.jpg" "a"
    { width := 64, height := 64, colorChannels := 3 } (by rfl) (by decide) (by decide)
    (by intro i e h; simp [entryAt, freshScene] at h; omega) (by rfl) (by decide)

/-- C3 (as stated, refuted). In a registry whose single entry is tagged "a"
and holds the handle `4294967295`, `FindTextureID "a"` returns `-1` although an
entry with exactly that tag is registered. -/
theorem FindTextureID_minus_one_for_registered_tag :
    (maxHandleScene ℚ).entryAt 0 = some { tag := "a", ID := 4294967295 } ∧
      FindTextureID (maxHandleScene ℚ) "a" = some (-1) := by
  constructor
  · rfl
  · decide

/-- C3 (amended). In a registry within its bounds, for every tag:
if `k` is the smallest index in use whose tag equals the queried tag, then
`FindTextureSlot` returns `k` and `FindTextureID` returns the handle stored at
`k` converted to `int` (the handle itself when it is below `2 ^ 31`), whatever
later entries carry the same tag; `FindTextureSlot` returns `-1` exactly when
no entry in use has the tag; `FindTextureID` returns `-1` exactly when no entry
in use has the tag or the first one that has it stores the handle `2 ^ 32 - 1`;
and both always return. -/
theorem Find_first_match (self : SceneManager R) (tag : String) (hb : self.InBounds) :
    (∀ k e, self.entryAt k = some e → e.tag = tag →
        (∀ i e', i < k → self.entryAt i = some e' → e'.tag ≠ tag) →
        FindTextureSlot self tag = some (k : Int) ∧
        FindTextureID self tag = some (GLuint_to_int e.ID) ∧
        (e.ID < 2 ^ 31 → FindTextureID self tag = some (e.ID : Int))) ∧
    (FindTextureSlot self tag = some (-1) ↔ ∀ i e, self.entryAt i = some e → e.tag ≠ tag) ∧
    (FindTextureID self tag = some (-1) ↔
      (∀ i e, self.entryAt i = some e → e.tag ≠ tag) ∨
      ∃ k e, self.entryAt k = some e ∧ e.tag = tag ∧
        (∀ i e', i < k → self.entryAt i = some e' → e'.tag ≠ tag) ∧
        e.ID % 2 ^ 32 = 2 ^ 32 - 1) ∧
    (∃ slot, FindTextureSlot self tag = some slot) ∧
    (∃ id, FindTextureID self tag = some id) := by
  obtain ⟨_, hlen⟩ := hb
  have hit : ∀ k e, self.entryAt k = some e → e.tag = tag →
      (∀ i e', i < k → self.entryAt i = some e' → e'.tag ≠ tag) →
      FindTextureSlot self tag = some (k : Int) ∧
      FindTextureID self tag = some (GLuint_to_int e.ID) ∧
      (e.ID < 2 ^ 31 → FindTextureID self tag = some (e.ID : Int)) := by
    intro k e hk het hfirst
    have h2 := FindTextureID_hit self tag k e hlen hk het hfirst
    refine ⟨FindTextureSlot_hit self tag k e hlen hk het hfirst, h2, ?_⟩
    intro hsmall
    rw [h2, GLuint_to_int_small _ hsmall]
  refine ⟨hit, ?_, ?_, ?_, ?_⟩
  · constructor
    · intro h
      rcases first_match_or_none self tag with ⟨k, e, hk, het, hfirst⟩ | hnone
      · have := (hit k e hk het hfirst).1
        rw [this] at h
        simp only [Option.some.injEq] at h
        omega
      · exact hnone
    · exact FindTextureSlot_miss self tag hlen
  · constructor
    · intro h
      rcases first_match_or_none self tag with ⟨k, e, hk, het, hfirst⟩ | hnone
      · right
        have := (hit k e hk het hfirst).2.1
        rw [this] at h
        simp only [Option.some.injEq] at h
        exact ⟨k, e, hk, het, hfirst, (GLuint_to_int_eq_neg_one _).1 h⟩
      · exact Or.inl hnone
    · rintro (hnone | ⟨k, e, hk, het, hfirst, hmax⟩)
      · exact FindTextureID_miss self tag hlen hnone
      · rw [(hit k e hk het hfirst).2.1, (GLuint_to_int_eq_neg_one _).2 hmax]
  · rcases first_match_or_none self tag with ⟨k, e, hk, het, hfirst⟩ | hnone
    · exact ⟨_, (hit k e hk het hfirst).1⟩
    · exact ⟨_, FindTextureSlot_miss self tag hlen hnone⟩
  · rcases first_match_or_none self tag with ⟨k, e, hk, het, hfirst⟩ | hnone
    · exact ⟨_, (hit k e hk het hfirst).2.1⟩
    · exact ⟨_, FindTextureID_miss self tag hlen hnone⟩

theorem Find_first_match_witness :
    (maxHandleScene ℚ).InBounds ∧
      FindTextureSlot (maxHandleScene ℚ) "a" = some ((0 : Nat) : Int) ∧
      FindTextureID (maxHandleScene ℚ) "a" = some (GLuint_to_int 4294967295) :=
  ⟨by decide,
    ((Find_first_match (maxHandleScene ℚ) "a" (by decide)).1 0
      { tag := "a", ID := 4294967295 } rfl rfl (by intro i _ hi; omega)).1,
    ((Find_first_match (maxHandleScene ℚ) "a" (by decide)).1 0
      { tag := "a", ID := 4294967295 } rfl rfl (by intro i _ hi; omega)).2.1⟩

/-- C5. When the image cannot be decoded, or decodes with a channel count
other than 3 and 4, `CreateGLTexture` returns `false` and leaves
`m_loadedTextures` and `m_textureIDs` as they were, so that `FindTextureID`
and `FindTextureSlot` answer every query as before the call. -/
theorem CreateGLTexture_failure_keeps_registry (stbi_load : String → Option StbImage)
    (self : SceneManager R) (filename tag : String)
    (h : stbi_load filename = none ∨ ∃ image, stbi_load filename = some image ∧
      image.colorChannels ≠ 3 ∧ image.colorChannels ≠ 4) :
    ∃ self', CreateGLTexture stbi_load self filename tag = some (false, self') ∧
      self'.m_loadedTextures = self.m_loadedTextures ∧
      self'.m_textureIDs = self.m_textureIDs ∧
      ∀ query, FindTextureID self' query = FindTextureID self query ∧
        FindTextureSlot self' query = FindTextureSlot self query := by
  obtain ⟨self', hc, hn, ha, -⟩ := CreateGLTexture_fail stbi_load self filename tag h
  exact ⟨self', hc, hn, ha, fun query =>
    ⟨FindTextureID_congr self' self query hn ha, FindTextureSlot_congr self' self query hn ha⟩⟩

theorem CreateGLTexture_failure_keeps_registry_witness :
    ∃ self', CreateGLTexture (decodeAll 1) (maxHandleScene ℚ) "grey.png" "grey" =
        some (false, self') ∧
      self'.m_loadedTextures = (maxHandleScene ℚ).m_loadedTextures ∧
      self'.m_textureIDs = (maxHandleScene ℚ).m_textureIDs ∧
      ∀ query, FindTextureID self' query = FindTextureID (maxHandleScene ℚ) query ∧
        FindTextureSlot self' query = FindTextureSlot (maxHandleScene ℚ) query :=
  CreateGLTexture_failure_keeps_registry (decodeAll 1) (maxHandleScene ℚ) "grey.png" "grey"
    (Or.inr ⟨{ width := 64, height := 64, colorChannels := 1 }, rfl, by decide, by decide⟩)

/-- The first `m` iterations of the loop of `BindGLTextures`. -/
theorem bind_prefix (self : SceneManager R)
    (hlen : self.m_loadedTextures ≤ self.m_textureIDs.length) :
    ∀ m : Nat, (m : Int) ≤ self.m_loadedTextures →
      ∃ s : SceneManager R,
        (List.range m).foldlM BindGLTextures.body self = some s ∧
        s.m_textureIDs = self.m_textureIDs ∧ s.m_loadedTextures = self.m_loadedTextures ∧
        s.m_pShaderManager = self.m_pShaderManager ∧
        s.m_objectMaterials = self.m_objectMaterials ∧ s.trace = self.trace ∧
        s.gl.calls = self.gl.calls ++ (List.range m).flatMap (fun i =>
          [GLCall.glActiveTexture (i : Int),
           GLCall.glBindTexture .GL_TEXTURE_2D (self.handleAt i)]) ∧
        ∀ u : Int, s.gl.texture2D u =
          if 0 ≤ u ∧ u < (m : Int) then self.handleAt u.toNat else self.gl.texture2D u := by
  intro m
  induction m with
  | zero =>
    intro _
    refine ⟨self, by simp, rfl, rfl, rfl, rfl, rfl, by simp, ?_⟩
    intro u
    rw [if_neg (by omega)]
  | succ k ih =>
    intro hk
    obtain ⟨s, hs, h1, h2, h3, h4, h5, h6, h7⟩ := ih (by omega)
    have hki : k < s.m_textureIDs.length := by rw [h1]; omega
    have hki2 : k < self.m_textureIDs.length := by omega
    rw [List.range_succ, List.foldlM_append, hs]
    simp only [BindGLTextures.body, List.getElem?_eq_getElem hki, List.foldlM_cons,
      List.foldlM_nil, Option.pure_def, Option.bind_eq_bind, Option.some_bind]
    refine ⟨_, rfl, h1, h2, h3, h4, h5, ?_, ?_⟩
    · simp [GLState.glBindTexture, GLState.glActiveTexture, h6, handleAt,
        List.getElem?_eq_getElem hki2, h1]
    · intro u
      simp only [GLState.glBindTexture, GLState.glActiveTexture]
      by_cases hu : u = (k : Int)
      · subst hu
        simp [handleAt, List.getElem?_eq_getElem hki2, h1]
      · rw [if_neg hu, h7 u]
        by_cases hr : 0 ≤ u ∧ u < (k : Int)
        · rw [if_pos hr, if_pos (by omega)]
        · rw [if_neg hr, if_neg (by omega)]

/-- What `BindGLTextures` does on a registry within its bounds. -/
theorem BindGLTextures_spec (self : SceneManager R) (hb : self.InBounds) :
    ∃ s : SceneManager R, BindGLTextures self = some s ∧
      s.m_textureIDs = self.m_textureIDs ∧ s.m_loadedTextures = self.m_loadedTextures ∧
      s.m_pShaderManager = self.m_pShaderManager ∧
      s.m_objectMaterials = self.m_objectMaterials ∧ s.trace = self.trace ∧
      s.gl.calls = self.gl.calls ++ (List.range self.m_loadedTextures.toNat).flatMap (fun i =>
        [GLCall.glActiveTexture (i : Int),
         GLCall.glBindTexture .GL_TEXTURE_2D (self.handleAt i)]) ∧
      ∀ u : Int, s.gl.texture2D u =
        if 0 ≤ u ∧ u < self.m_loadedTextures then self.handleAt u.toNat
        else self.gl.texture2D u := by
  obtain ⟨h0, hlen⟩ := hb
  have hk : (self.m_loadedTextures.toNat : Int) = self.m_loadedTextures := Int.toNat_of_nonneg h0
  obtain ⟨s, hs, h1, h2, h3, h4, h5, h6, h7⟩ :=
    bind_prefix self hlen self.m_loadedTextures.toNat (by omega)
  refine ⟨s, hs, h1, h2, h3, h4, h5, h6, ?_⟩
  intro u
  rw [h7 u, hk]


theorem CreateGLTextures_append (stbi_load : String → Option StbImage) :
    ∀ (pre rest : List (String × String)) (self : SceneManager R),
      CreateGLTextures stbi_load self (pre ++ rest) =
        (CreateGLTextures stbi_load self pre).bind
          (fun s => CreateGLTextures stbi_load s rest) := by
  intro pre
  induction pre with
  | nil => intro rest self; rfl
  | cons c pre ih =>
    intro rest self
    obtain ⟨filename, tag⟩ := c
    simp only [List.cons_append, CreateGLTextures]
    cases hc : CreateGLTexture stbi_load self filename tag with
    | none => rfl
    | some r => exact ih rest r.2

/-- One `CreateGLTexture` call: the count grows by one exactly when the file is
accepted, and the entries in use stay where they are. -/
theorem CreateGLTexture_step (stbi_load : String → Option StbImage) (self : SceneManager R)
    (filename tag : String) (h0 : 0 ≤ self.m_loadedTextures)
    (hroom : self.m_loadedTextures + (if accepts stbi_load filename then 1 else 0) ≤
      self.m_textureIDs.length) :
    ∃ b self', CreateGLTexture stbi_load self filename tag = some (b, self') ∧
      b = accepts stbi_load filename ∧
      self'.m_loadedTextures =
        self.m_loadedTextures + (if accepts stbi_load filename then 1 else 0) ∧
      self'.m_textureIDs.length = self.m_textureIDs.length ∧
      (∀ i : Nat, (i : Int) < self.m_loadedTextures →
        self'.m_textureIDs[i]? = self.m_textureIDs[i]?) ∧
      (accepts stbi_load filename = true →
        self'.m_textureIDs[self.m_loadedTextures.toNat]? =
          some { tag := tag, ID := self.gl.glGenTextures.1 }) := by
  cases hl : stbi_load filename with
  | none =>
    have hacc : accepts stbi_load filename = false := by simp [accepts, hl]
    obtain ⟨self', hc, hn, ha, -⟩ :=
      CreateGLTexture_fail stbi_load self filename tag (Or.inl hl)
    refine ⟨false, self', hc, hacc.symm, by simp [hn, hacc], by rw [ha], ?_, ?_⟩
    · intro i _; rw [ha]
    · intro h; rw [hacc] at h; cases h
  | some image =>
    by_cases hch : image.colorChannels = 3 ∨ image.colorChannels = 4
    · have hacc : accepts stbi_load filename = true := by simp [accepts, hl, hch]
      rw [hacc] at hroom
      simp only [if_true] at hroom
      obtain ⟨self', hc, hn, ha, -⟩ :=
        CreateGLTexture_ok stbi_load self filename tag image h0 (by omega) hl hch
      refine ⟨true, self', hc, hacc.symm, by simp [hn, hacc], by rw [ha, List.length_set],
        ?_, ?_⟩
      · intro i hi
        rw [ha, List.getElem?_set_ne (by omega)]
      · intro _
        rw [ha, List.getElem?_set_self (by omega)]
    · have hacc : accepts stbi_load filename = false := by simp [accepts, hl, hch]
      obtain ⟨self', hc, hn, ha, -⟩ :=
        CreateGLTexture_fail stbi_load self filename tag
          (Or.inr ⟨image, hl, fun h => hch (Or.inl h), fun h => hch (Or.inr h)⟩)
      refine ⟨false, self', hc, hacc.symm, by simp [hn, hacc], by rw [ha], ?_, ?_⟩
      · intro i _; rw [ha]
      · intro h; rw [hacc] at h; cases h

/-- A sequence of `CreateGLTexture` calls that fits into the array. -/
theorem CreateGLTextures_spec (stbi_load : String → Option StbImage) :
    ∀ (calls : List (String × String)) (self : SceneManager R),
      0 ≤ self.m_loadedTextures →
      self.m_loadedTextures + (acceptedCount stbi_load calls : Int) ≤ self.m_textureIDs.length →
      ∃ final, CreateGLTextures stbi_load self calls = some final ∧
        final.m_loadedTextures = self.m_loadedTextures + (acceptedCount stbi_load calls : Int) ∧
        final.m_textureIDs.length = self.m_textureIDs.length ∧
        ∀ i : Nat, (i : Int) < self.m_loadedTextures →
          final.m_textureIDs[i]? = self.m_textureIDs[i]? := by
  intro calls
  induction calls with
  | nil =>
    intro self _ _
    exact ⟨self, rfl, by simp [acceptedCount], rfl, fun _ _ => rfl⟩
  | cons c calls ih =>
    intro self h0 hroom
    obtain ⟨filename, tag⟩ := c
    have hcount : acceptedCount stbi_load ((filename, tag) :: calls) =
        acceptedCount stbi_load calls + (if accepts stbi_load filename then 1 else 0) := by
      simp [acceptedCount, List.countP_cons]
    cases hacc : accepts stbi_load filename with
    | false =>
      simp only [hacc, Bool.false_eq_true, if_false, Nat.add_zero] at hcount
      rw [hcount] at hroom ⊢
      obtain ⟨b, s1, hc, -, hn1, hl1, hkeep1, -⟩ :=
        CreateGLTexture_step stbi_load self filename tag h0 (by simp [hacc]; omega)
      simp only [hacc, Bool.false_eq_true, if_false, add_zero] at hn1
      obtain ⟨final, hf, hn2, hl2, hkeep2⟩ := ih s1 (by omega) (by rw [hn1, hl1]; omega)
      refine ⟨final, ?_, ?_, by rw [hl2, hl1], ?_⟩
      · simp only [CreateGLTextures, hc, hf]
      · rw [hn2, hn1]
      · intro i hi
        rw [hkeep2 i (by omega), hkeep1 i hi]
    | true =>
      simp only [hacc, if_true] at hcount
      rw [hcount] at hroom ⊢
      push_cast at hroom ⊢
      obtain ⟨b, s1, hc, -, hn1, hl1, hkeep1, -⟩ :=
        CreateGLTexture_step stbi_load self filename tag h0 (by simp [hacc]; omega)
      simp only [hacc, if_true] at hn1
      obtain ⟨final, hf, hn2, hl2, hkeep2⟩ := ih s1 (by omega) (by rw [hn1, hl1]; omega)
      refine ⟨final, ?_, ?_, by rw [hl2, hl1], ?_⟩
      · simp only [CreateGLTextures, hc, hf]
      · rw [hn2, hn1]; omega
      · intro i hi
        rw [hkeep2 i (by omega), hkeep1 i hi]


/-- C2 (as stated, refuted). Starting from an empty registry, seventeen
accepted `CreateGLTexture` calls do not leave a registry whose seventeenth
registration sits at slot 16: the seventeenth store is outside the 16-element
array, and the run has no defined result. -/
theorem seventeenth_registration_overflows :
    (CreateGLTextures (decodeAll 3) (freshScene ℚ) seventeenCalls).isSome = false ∧
      (freshScene ℚ).m_loadedTextures = 0 ∧
      acceptedCount (decodeAll 3) seventeenCalls = 17 ∧
      (freshScene ℚ).m_textureIDs[16]? = none := by
  refine ⟨?_, rfl, ?_, rfl⟩
  · decide
  · decide

/-- C2 (amended). Starting from an empty registry of capacity 16, for every
sequence of `CreateGLTexture` calls of which at most 16 are accepted (the
others fail): the sequence runs to the end, the count is the number of
accepted calls, every accepted call that follows `N - 1` accepted ones returns
`true` and its tag and generated handle are found at index `N - 1` of the final
registry; and `BindGLTextures` then issues, for `i = 0, ..., count - 1` in
order, `glActiveTexture(GL_TEXTURE0 + i)` and
`glBindTexture(GL_TEXTURE_2D, handle at i)` and nothing else, so that unit `i`
is bound to the handle stored at index `i` and every other unit keeps its
binding. -/
theorem registration_order_is_unit_order (stbi_load : String → Option StbImage)
    (self : SceneManager R) (calls : List (String × String))
    (hempty : self.m_loadedTextures = 0) (hcap : self.m_textureIDs.length = 16)
    (hfit : acceptedCount stbi_load calls ≤ 16) :
    ∃ final, CreateGLTextures stbi_load self calls = some final ∧
      final.m_loadedTextures = (acceptedCount stbi_load calls : Int) ∧
      (∀ pre filename tag post, calls = pre ++ (filename, tag) :: post →
        accepts stbi_load filename = true →
        ∃ before after, CreateGLTextures stbi_load self pre = some before ∧
          CreateGLTexture stbi_load before filename tag = some (true, after) ∧
          final.entryAt (acceptedCount stbi_load pre) =
            some { tag := tag, ID := before.gl.glGenTextures.1 }) ∧
      ∃ bound, BindGLTextures final = some bound ∧
        bound.gl.calls = final.gl.calls ++
          (List.range (acceptedCount stbi_load calls)).flatMap (fun i =>
            [GLCall.glActiveTexture (i : Int),
             GLCall.glBindTexture .GL_TEXTURE_2D (final.handleAt i)]) ∧
        (∀ i e, final.entryAt i = some e → bound.gl.texture2D (i : Int) = e.ID) ∧
        (∀ u : Int, ¬ (0 ≤ u ∧ u < final.m_loadedTextures) →
          bound.gl.texture2D u = final.gl.texture2D u) := by
  obtain ⟨final, hf, hn, hl, -⟩ := CreateGLTextures_spec stbi_load calls self (by omega)
    (by rw [hempty, hcap]; omega)
  rw [hempty, zero_add] at hn
  have hb : final.InBounds := ⟨by omega, by rw [hn, hl, hcap]; omega⟩
  refine ⟨final, hf, hn, ?_, ?_⟩
  · intro pre filename tag post hsplit hacc
    have hcount : acceptedCount stbi_load calls =
        acceptedCount stbi_load pre + (1 + acceptedCount stbi_load post) := by
      rw [hsplit]
      simp [acceptedCount, List.countP_cons, hacc]
      omega
    obtain ⟨before, hpre, hn1, hl1, -⟩ := CreateGLTextures_spec stbi_load pre self (by omega)
      (by rw [hempty, hcap]; omega)
    rw [hempty, zero_add] at hn1
    obtain ⟨b, after, hc, hbacc, hn2, hl2, -, hstore⟩ :=
      CreateGLTexture_step stbi_load before filename tag (by omega)
        (by rw [hn1, hl1, hcap]; simp [hacc]; omega)
    rw [hacc] at hbacc
    subst hbacc
    simp only [hacc, if_true] at hn2
    obtain ⟨final2, hpost, hn3, -, hkeep⟩ := CreateGLTextures_spec stbi_load post after
      (by omega) (by rw [hn2, hn1, hl2, hl1, hcap]; omega)
    have hfinal : final2 = final := by
      have h := CreateGLTextures_append stbi_load pre ((filename, tag) :: post) self
      rw [← hsplit, hf, hpre] at h
      simp only [Option.bind, CreateGLTextures, hc, hpost] at h
      exact (Option.some.inj h).symm
    subst hfinal
    refine ⟨before, after, hpre, hc, ?_⟩
    have hidx : before.m_loadedTextures.toNat = acceptedCount stbi_load pre := by
      rw [hn1]; simp
    unfold entryAt
    rw [if_pos (by rw [hn]; omega), hkeep _ (by rw [hn2, hn1]; omega), ← hidx]
    exact hstore hacc
  · obtain ⟨bound, hbind, -, -, -, -, -, hcalls, hunits⟩ := BindGLTextures_spec final hb
    refine ⟨bound, hbind, ?_, ?_, ?_⟩
    · rw [hcalls, hn]; simp
    · intro i e hie
      obtain ⟨hlt, hget⟩ := entryAt_some hie
      rw [hunits, if_pos ⟨by omega, hlt⟩]
      simp [handleAt, hget]
    · intro u hu
      rw [hunits, if_neg hu]

theorem registration_order_is_unit_order_witness :
    (freshScene ℚ).m_loadedTextures = 0 ∧ (freshScene ℚ).m_textureIDs.length = 16 ∧
    acceptedCount (decodeAll 4) [("a.png", "a"), ("b.png", "b")] ≤ 16 ∧
    ∃ final, CreateGLTextures (decodeAll 4) (freshScene ℚ) [("a.png", "a"), ("b.png", "b")] =
        some final ∧
      final.m_loadedTextures =
        (acceptedCount (decodeAll 4) [("a.png", "a"), ("b.png", "b")] : Int) :=
  ⟨rfl, rfl, by decide,
    (registration_order_is_unit_order (decodeAll 4) (freshScene ℚ)
      [("a.png", "a"), ("b.png", "b")] rfl rfl (by decide)).imp
      (fun _ h => ⟨h.1, h.2.1⟩)⟩

/-! ## The material lookup loop -/

theorem material_loop_found (self : SceneManager R) (tag : String) (fuel : Nat)
    (index : Nat) (material : OBJECT_MATERIAL R) :
    FindMaterial.loop self tag (fuel + 1) index true material = some material := by
  simp [FindMaterial.loop]

theorem material_loop_miss (self : SceneManager R) (tag : String)
    (hmiss : ∀ (i : Nat) (m : OBJECT_MATERIAL R), self.m_objectMaterials[i]? = some m → m.tag ≠ tag) :
    ∀ (fuel : Nat) (index : Nat) (material : OBJECT_MATERIAL R),
      self.m_objectMaterials.length - index < fuel →
      FindMaterial.loop self tag fuel index false material = some material := by
  intro fuel
  induction fuel with
  | zero => intro index material h; omega
  | succ k ih =>
    intro index material h
    by_cases hlt : index < self.m_objectMaterials.length
    · have hget := List.getElem?_eq_getElem hlt
      have hne : self.m_objectMaterials[index].tag ≠ tag := hmiss index _ hget
      rw [FindMaterial.loop]
      simp only [hlt, hget, hne, and_self, if_true, if_false]
      exact ih (index + 1) material (by omega)
    · rw [FindMaterial.loop]
      simp [hlt]

theorem material_loop_hit (self : SceneManager R) (tag : String) (k : Nat)
    (mk : OBJECT_MATERIAL R)
    (hk : self.m_objectMaterials[k]? = some mk) (hktag : mk.tag = tag)
    (hfirst : ∀ (i : Nat) (m : OBJECT_MATERIAL R), i < k → self.m_objectMaterials[i]? = some m → m.tag ≠ tag) :
    ∀ (fuel : Nat) (index : Nat) (material : OBJECT_MATERIAL R), index ≤ k →
      k - index + 1 < fuel →
      FindMaterial.loop self tag fuel index false material =
        some (copyMaterial material mk) := by
  obtain ⟨hklt, hkget⟩ := List.getElem?_eq_some.1 hk
  intro fuel
  induction fuel with
  | zero => intro index material _ h; omega
  | succ f ih =>
    intro index material hik h
    have hlt : index < self.m_objectMaterials.length := by omega
    have hget := List.getElem?_eq_getElem hlt
    rw [FindMaterial.loop]
    by_cases heq : self.m_objectMaterials[index].tag = tag
    · have hidx : index = k := by
        rcases Nat.lt_or_ge index k with hlt2 | hge
        · exact absurd heq (hfirst index _ hlt2 hget)
        · omega
      subst hidx
      simp only [hlt, hget, heq, and_self, if_true]
      obtain ⟨f1, rfl⟩ : ∃ f1, f = f1 + 1 := ⟨f - 1, by omega⟩
      rw [material_loop_found, ← hkget]
      rfl
    · have hidx : index ≠ k := by
        rintro rfl
        rw [hkget] at heq
        exact heq hktag
      simp only [hlt, hget, heq, and_self, if_true, if_false]
      exact ih (index + 1) material (by omega) (by omega)

theorem material_first_match_or_none (self : SceneManager R) (tag : String) :
    (∃ (k : Nat) (mk : OBJECT_MATERIAL R), self.m_objectMaterials[k]? = some mk ∧ mk.tag = tag ∧
        ∀ (i : Nat) (m : OBJECT_MATERIAL R), i < k → self.m_objectMaterials[i]? = some m → m.tag ≠ tag) ∨
    (∀ (i : Nat) (m : OBJECT_MATERIAL R), self.m_objectMaterials[i]? = some m → m.tag ≠ tag) := by
  by_cases h : ∃ k : Nat, ∃ mk : OBJECT_MATERIAL R, self.m_objectMaterials[k]? = some mk ∧ mk.tag = tag
  · left
    classical
    refine ⟨Nat.find h, ?_⟩
    obtain ⟨mk, hm, hmt⟩ := Nat.find_spec h
    exact ⟨mk, hm, hmt, fun i m hi him hte => Nat.find_min h hi ⟨m, him, hte⟩⟩
  · right
    intro i m hm hmt
    exact h ⟨i, m, hm, hmt⟩

/-- On an empty material list `FindMaterial` returns `false`. -/
theorem FindMaterial_empty (self : SceneManager R) (tag : String)
    (material : OBJECT_MATERIAL R) (h : self.m_objectMaterials = []) :
    FindMaterial self tag material = some (false, material) := by
  simp [FindMaterial, h]

/-- On a non-empty material list without the tag `FindMaterial` returns `true`
and leaves `material` as it was. -/
theorem FindMaterial_miss (self : SceneManager R) (tag : String)
    (material : OBJECT_MATERIAL R) (hne : self.m_objectMaterials ≠ [])
    (hmiss : ∀ (i : Nat) (m : OBJECT_MATERIAL R), self.m_objectMaterials[i]? = some m → m.tag ≠ tag) :
    FindMaterial self tag material = some (true, material) := by
  have hlen : self.m_objectMaterials.length ≠ 0 := by
    intro h; exact hne (List.length_eq_zero.1 h)
  unfold FindMaterial
  rw [if_neg hlen, material_loop_miss self tag hmiss _ _ _ (by omega)]

/-- On a material list whose first entry with the tag is `mk`, `FindMaterial`
returns `true` and copies the five fields of `mk`. -/
theorem FindMaterial_hit (self : SceneManager R) (tag : String)
    (material : OBJECT_MATERIAL R) (k : Nat) (mk : OBJECT_MATERIAL R)
    (hk : self.m_objectMaterials[k]? = some mk) (hktag : mk.tag = tag)
    (hfirst : ∀ (i : Nat) (m : OBJECT_MATERIAL R), i < k → self.m_objectMaterials[i]? = some m → m.tag ≠ tag) :
    FindMaterial self tag material = some (true, copyMaterial material mk) := by
  obtain ⟨hklt, -⟩ := List.getElem?_eq_some.1 hk
  have hlen : self.m_objectMaterials.length ≠ 0 := by omega
  unfold FindMaterial
  rw [if_neg hlen, material_loop_hit self tag k mk hk hktag hfirst _ _ _ (Nat.zero_le _)
    (by omega)]

/-- On a non-empty material list `FindMaterial` always returns, with result `true`. -/
theorem FindMaterial_nonempty (self : SceneManager R) (tag : String)
    (material : OBJECT_MATERIAL R) (hne : self.m_objectMaterials ≠ []) :
    ∃ out, FindMaterial self tag material = some (true, out) := by
  rcases material_first_match_or_none self tag with ⟨k, mk, hk, hkt, hfirst⟩ | hnone
  · exact ⟨_, FindMaterial_hit self tag material k mk hk hkt hfirst⟩
  · exact ⟨_, FindMaterial_miss self tag material hne hnone⟩

/-- C4 (the code at the failing input). With the four materials of
`DefineObjectMaterials` registered and the tag "missing", which none of them
carries, `FindMaterial` returns `true`, not `false`, and leaves the caller's
material record as it was. -/
theorem FindMaterial_reports_found_on_miss :
    (DefineObjectMaterials (freshScene ℚ)).m_objectMaterials.length = 4 ∧
    (∀ (i : Nat) (m : OBJECT_MATERIAL ℚ), (DefineObjectMaterials (freshScene ℚ)).m_objectMaterials[i]? = some m →
      m.tag ≠ "missing") ∧
    FindMaterial (DefineObjectMaterials (freshScene ℚ)) "missing" (blankMaterial ℚ) =
      some (true, blankMaterial ℚ) := by
  have hmiss : ∀ (i : Nat) (m : OBJECT_MATERIAL ℚ), (DefineObjectMaterials (freshScene ℚ)).m_objectMaterials[i]? = some m →
      m.tag ≠ "missing" := by
    intro i m hm
    have h4 : i < 4 := (List.getElem?_eq_some.1 hm).1
    interval_cases i <;> simp [DefineObjectMaterials, freshScene] at hm <;> subst hm <;> decide
  exact ⟨rfl, hmiss, FindMaterial_miss _ _ _ (by simp [DefineObjectMaterials]) hmiss⟩

/-- C6 (the code at the failing input). For an image that decodes with one
channel, `CreateGLTexture` returns `false` after having issued `glGenTextures`
(and six further calls on the new texture); the texture is not deleted.
For a file that cannot be decoded it issues no OpenGL call. -/
theorem CreateGLTexture_failure_after_glGenTextures :
    (CreateGLTexture (decodeAll 1) (freshScene ℚ) "grey.png" "grey").map
        (fun r => (r.1, r.2.gl.calls)) =
      some (false,
        [GLCall.glGenTextures 1 1,
         GLCall.glBindTexture .GL_TEXTURE_2D 1,
         GLCall.glTexParameteri .GL_TEXTURE_2D .GL_TEXTURE_WRAP_S .GL_REPEAT,
         GLCall.glTexParameteri .GL_TEXTURE_2D .GL_TEXTURE_WRAP_T .GL_REPEAT,
         GLCall.glTexParameteri .GL_TEXTURE_2D .GL_TEXTURE_MIN_FILTER .GL_LINEAR,
         GLCall.glTexParameteri .GL_TEXTURE_2D .GL_TEXTURE_MAG_FILTER .GL_LINEAR]) ∧
    (CreateGLTexture (decodeAll 1) (freshScene ℚ) "grey.png" "grey").map
        (fun r => r.2.gl.calls.any GLCall.isGenTextures) = some true ∧
    (CreateGLTexture decodeNone (freshScene ℚ) "absent.png" "absent").map
        (fun r => (r.1, r.2.gl.calls)) = some (false, []) := by
  refine ⟨?_, ?_, ?_⟩ <;> decide

/-! ## Colour and texture uniforms -/

theorem FindTextureSlot_returns (self : SceneManager R) (tag : String) (hb : self.InBounds) :
    ∃ slot, FindTextureSlot self tag = some slot ∧
      ((∀ i e, self.entryAt i = some e → e.tag ≠ tag) → slot = -1) := by
  rcases first_match_or_none self tag with ⟨k, e, hk, het, hfirst⟩ | hnone
  · exact ⟨_, FindTextureSlot_hit self tag k e hb.2 hk het hfirst,
      fun h => absurd het (h k e hk)⟩
  · exact ⟨_, FindTextureSlot_miss self tag hb.2 hnone, fun _ => rfl⟩

/-- `SetShaderTexture` with a shader manager present, in terms of the slot
`FindTextureSlot` returns. -/
theorem SetShaderTexture_eq (self : SceneManager R) (sh : ShaderManager R) (tag : String)
    (slot : Int) (hsh : self.m_pShaderManager = some sh)
    (hslot : FindTextureSlot self tag = some slot) :
    SetShaderTexture self tag = some
      { self with
        trace := self.trace ++ [Call.SetShaderTexture tag]
        m_pShaderManager := some
          ((sh.setIntValue g_UseTextureName 1).setSampler2DValue g_TextureValueName slot) } := by
  have h : ∀ s : SceneManager R, s.m_loadedTextures = self.m_loadedTextures →
      s.m_textureIDs = self.m_textureIDs → FindTextureSlot s tag = some slot :=
    fun s h1 h2 => by rw [FindTextureSlot_congr s self tag h1 h2, hslot]
  simp only [SetShaderTexture, hsh]
  rw [h]
  · rfl
  · rfl

/-- C9. With a shader manager present, whatever the uniforms were before
(texturing enabled or not), `SetShaderColor r g b a` leaves `bUseTexture` at
`false` (the integer 0) and `objectColor` at `(r, g, b, a)` and touches no
other uniform; a `SetShaderTexture` that follows sets `bUseTexture` to `true`
(the integer 1) again. -/
theorem SetShaderColor_clears_texture_flag (self : SceneManager R) (sh : ShaderManager R)
    (r g b a : R) (textureTag : String)
    (hsh : self.m_pShaderManager = some sh) (hb : self.InBounds) :
    ∃ sh1, (SetShaderColor self r g b a).m_pShaderManager = some sh1 ∧
      sh1.uniforms g_UseTextureName = some (UniformValue.int 0) ∧
      sh1.uniforms g_ColorValueName =
        some (UniformValue.vec4 { x := r, y := g, z := b, w := a }) ∧
      (∀ name, name ≠ g_UseTextureName → name ≠ g_ColorValueName →
        sh1.uniforms name = sh.uniforms name) ∧
      ∃ s2 sh2, SetShaderTexture (SetShaderColor self r g b a) textureTag = some s2 ∧
        s2.m_pShaderManager = some sh2 ∧
        sh2.uniforms g_UseTextureName = some (UniformValue.int 1) := by
  have hcol : SetShaderColor self r g b a =
      { self with
        trace := self.trace ++ [Call.SetShaderColor r g b a]
        m_pShaderManager := some ((sh.setIntValue g_UseTextureName 0).setVec4Value
          g_ColorValueName { x := r, y := g, z := b, w := a }) } := by
    simp only [SetShaderColor, hsh]
  refine ⟨_, by rw [hcol], ?_, ?_, ?_, ?_⟩
  · simp [ShaderManager.setVec4Value, ShaderManager.setIntValue, ShaderManager.set,
      g_UseTextureName, g_ColorValueName]
  · simp [ShaderManager.setVec4Value, ShaderManager.set]
  · intro name h1 h2
    simp [ShaderManager.setVec4Value, ShaderManager.setIntValue, ShaderManager.set, h1, h2]
  · have hb2 : (SetShaderColor self r g b a).InBounds := by rw [hcol]; exact hb
    obtain ⟨slot, hslot, -⟩ := FindTextureSlot_returns _ textureTag hb2
    refine ⟨_, _, SetShaderTexture_eq _ _ textureTag slot (by rw [hcol]) hslot, rfl, ?_⟩
    simp [ShaderManager.setSampler2DValue, ShaderManager.setIntValue, ShaderManager.set,
      g_UseTextureName, g_TextureValueName]

theorem SetShaderColor_clears_texture_flag_witness :
    (freshScene ℚ).m_pShaderManager = some { uniforms := fun _ => none } ∧
    (freshScene ℚ).InBounds ∧
    ∃ sh1, (SetShaderColor (freshScene ℚ) 1 0 0 1).m_pShaderManager = some sh1 ∧
      sh1.uniforms g_UseTextureName = some (UniformValue.int 0) :=
  ⟨rfl, by decide,
    (SetShaderColor_clears_texture_flag (freshScene ℚ) { uniforms := fun _ => none }
      1 0 0 1 "table_wood" rfl (by decide)).imp (fun _ h => ⟨h.1, h.2.1⟩)⟩

/-- C10 (as stated, refuted). In a registry whose only texture was registered
under the empty tag, `SetShaderTexture ""` pushes the sampler value 0, the slot
of that texture, not -1. -/
theorem SetShaderTexture_empty_tag_registered :
    (emptyTagScene ℚ).entryAt 0 = some { tag := "", ID := 1 } ∧
    ∃ s' sh', SetShaderTexture (emptyTagScene ℚ) "" = some s' ∧
      s'.m_pShaderManager = some sh' ∧
      sh'.uniforms g_TextureValueName = some (UniformValue.sampler2D 0) := by
  refine ⟨rfl, _, _, SetShaderTexture_eq (emptyTagScene ℚ) { uniforms := fun _ => none } ""
    0 rfl (by decide), rfl, ?_⟩
  simp [ShaderManager.setSampler2DValue, ShaderManager.set]

/-- C10 (amended). In a registry within its bounds and with a shader manager
present, for every tag, `SetShaderTexture tag` sets `bUseTexture` to `true`
(the integer 1) and `objectTexture` to the value `FindTextureSlot tag` returns,
leaving every other uniform alone; for a tag carried by no entry in use (the
empty tag as well, when no texture is registered under it) the value is -1. -/
theorem SetShaderTexture_pushes_slot (self : SceneManager R) (sh : ShaderManager R)
    (tag : String) (hsh : self.m_pShaderManager = some sh) (hb : self.InBounds) :
    ∃ slot s' sh', FindTextureSlot self tag = some slot ∧
      SetShaderTexture self tag = some s' ∧
      s'.m_pShaderManager = some sh' ∧
      sh'.uniforms g_UseTextureName = some (UniformValue.int 1) ∧
      sh'.uniforms g_TextureValueName = some (UniformValue.sampler2D slot) ∧
      (∀ name, name ≠ g_UseTextureName → name ≠ g_TextureValueName →
        sh'.uniforms name = sh.uniforms name) ∧
      ((∀ i e, self.entryAt i = some e → e.tag ≠ tag) → slot = -1) ∧
      (tag = "" → (∀ i e, self.entryAt i = some e → e.tag ≠ "") → slot = -1) := by
  obtain ⟨slot, hslot, hmiss⟩ := FindTextureSlot_returns self tag hb
  refine ⟨slot, _, _, hslot, SetShaderTexture_eq self sh tag slot hsh hslot, rfl, ?_, ?_, ?_,
    hmiss, ?_⟩
  · simp [ShaderManager.setSampler2DValue, ShaderManager.setIntValue, ShaderManager.set,
      g_UseTextureName, g_TextureValueName]
  · simp [ShaderManager.setSampler2DValue, ShaderManager.set]
  · intro name h1 h2
    simp [ShaderManager.setSampler2DValue, ShaderManager.setIntValue, ShaderManager.set, h1, h2]
  · intro ht h
    subst ht
    exact hmiss h

theorem SetShaderTexture_pushes_slot_witness :
    (freshScene ℚ).m_pShaderManager = some { uniforms := fun _ => none } ∧
    (freshScene ℚ).InBounds ∧
    ∃ slot, FindTextureSlot (freshScene ℚ) "" = some slot ∧ slot = -1 :=
  ⟨rfl, by decide,
    (SetShaderTexture_pushes_slot (freshScene ℚ) { uniforms := fun _ => none } "" rfl
      (by decide)).imp (fun _ h =>
        ⟨h.choose_spec.choose_spec.1,
          h.choose_spec.choose_spec.2.2.2.2.2.2.1
            (by intro i e he; simp [entryAt, freshScene] at he; omega)⟩)⟩

/-! ## The model matrix -/

theorem rotate_x_axis [Field R] (F : FloatOps R) (hsqrt : F.sqrt 1 = 1) (deg : R) :
    glm.rotate F (glm.radians F deg) { x := 1, y := 0, z := 0 } = Spec.RotateX F deg := by
  ext i j
  fin_cases i <;> fin_cases j <;>
    simp [glm.rotate, glm.normalize, glm.radians, Spec.RotateX, hsqrt]

theorem rotate_y_axis [Field R] (F : FloatOps R) (hsqrt : F.sqrt 1 = 1) (deg : R) :
    glm.rotate F (glm.radians F deg) { x := 0, y := 1, z := 0 } = Spec.RotateY F deg := by
  ext i j
  fin_cases i <;> fin_cases j <;>
    simp [glm.rotate, glm.normalize, glm.radians, Spec.RotateY, hsqrt]

theorem rotate_z_axis [Field R] (F : FloatOps R) (hsqrt : F.sqrt 1 = 1) (deg : R) :
    glm.rotate F (glm.radians F deg) { x := 0, y := 0, z := 1 } = Spec.RotateZ F deg := by
  ext i j
  fin_cases i <;> fin_cases j <;>
    simp [glm.rotate, glm.normalize, glm.radians, Spec.RotateZ, hsqrt]

/-- `SetTransformations` with a shader manager present. -/
theorem SetTransformations_eq [Field R] (F : FloatOps R) (self : SceneManager R)
    (sh : ShaderManager R) (scaleXYZ : vec3 R) (x y z : R) (positionXYZ : vec3 R)
    (hsh : self.m_pShaderManager = some sh) :
    SetTransformations F self scaleXYZ x y z positionXYZ =
      { self with
        trace := self.trace ++ [Call.SetTransformations scaleXYZ x y z positionXYZ]
        m_pShaderManager := some (sh.setMat4Value g_ModelName
          (glm.translate positionXYZ *
            glm.rotate F (glm.radians F x) { x := 1, y := 0, z := 0 } *
            glm.rotate F (glm.radians F y) { x := 0, y := 1, z := 0 } *
            glm.rotate F (glm.radians F z) { x := 0, y := 0, z := 1 } *
            glm.scale scaleXYZ)) } := by
  simp only [SetTransformations, hsh]


theorem real_RotateX_zero (F : FloatOps ℝ) (hcos : F.cos = Real.cos) (hsin : F.sin = Real.sin) :
    Spec.RotateX F 0 = 1 := by
  ext i j
  fin_cases i <;> fin_cases j <;>
    simp [Spec.RotateX, hcos, hsin, Matrix.one_apply, Matrix.vecHead, Matrix.vecTail]

theorem real_RotateZ_zero (F : FloatOps ℝ) (hcos : F.cos = Real.cos) (hsin : F.sin = Real.sin) :
    Spec.RotateZ F 0 = 1 := by
  ext i j
  fin_cases i <;> fin_cases j <;>
    simp [Spec.RotateZ, hcos, hsin, Matrix.one_apply, Matrix.vecHead, Matrix.vecTail]

theorem real_RotateY_ninety (F : FloatOps ℝ) (hcos : F.cos = Real.cos)
    (hsin : F.sin = Real.sin) (hpi : F.pi = Real.pi) :
    Spec.RotateY F 90 = !![0, 0, 1, 0; 0, 1, 0, 0; -1, 0, 0, 0; 0, 0, 0, 1] := by
  have h : (90 : ℝ) * (Real.pi / 180) = Real.pi / 2 := by ring
  ext i j
  fin_cases i <;> fin_cases j <;> simp [Spec.RotateY, hcos, hsin, hpi, h]

/-- C7. Over the reals (cos, sin, sqrt and pi those of the real numbers), with
a shader manager present, `SetTransformations` sets the uniform `model` to
`Translate(position) * RotateX(xDeg) * RotateY(yDeg) * RotateZ(zDeg) *
Scale(scale)`, for every scale, rotation angles and position. For
scale (2,1,1), rotation (0,90,0) and position (1,0,0) that matrix is
`Translate(1,0,0) * RotateY(90) * Scale(2,1,1)`; it sends the point (1,0,0) to
(1,0,-2), while the commuted product `Scale * RotateY * Translate` sends it to
(0,0,-2). -/
theorem SetTransformations_model_matrix (F : FloatOps ℝ) (self : SceneManager ℝ)
    (sh : ShaderManager ℝ) (scaleXYZ positionXYZ : vec3 ℝ) (x y z : ℝ)
    (hF : F = { cos := Real.cos, sin := Real.sin, tan := Real.tan, sqrt := Real.sqrt,
                pi := Real.pi })
    (hsh : self.m_pShaderManager = some sh) :
    (∃ sh', (SetTransformations F self scaleXYZ x y z positionXYZ).m_pShaderManager = some sh' ∧
      sh'.uniforms g_ModelName = some (UniformValue.mat4
        (Spec.Translate positionXYZ * Spec.RotateX F x * Spec.RotateY F y * Spec.RotateZ F z *
          Spec.Scale scaleXYZ))) ∧
    (∃ sh', (SetTransformations F self ({ x := 2, y := 1, z := 1 } : vec3 ℝ) 0 90 0
        ({ x := 1, y := 0, z := 0 } : vec3 ℝ)).m_pShaderManager = some sh' ∧
      sh'.uniforms g_ModelName = some (UniformValue.mat4
        (Spec.Translate ({ x := 1, y := 0, z := 0 } : vec3 ℝ) * Spec.RotateY F 90 *
          Spec.Scale ({ x := 2, y := 1, z := 1 } : vec3 ℝ)))) ∧
    (Spec.Translate ({ x := 1, y := 0, z := 0 } : vec3 ℝ) * Spec.RotateY F 90 *
        Spec.Scale ({ x := 2, y := 1, z := 1 } : vec3 ℝ)).mulVec ![1, 0, 0, 1] = ![1, 0, -2, 1] ∧
    (Spec.Scale ({ x := 2, y := 1, z := 1 } : vec3 ℝ) * Spec.RotateY F 90 *
        Spec.Translate ({ x := 1, y := 0, z := 0 } : vec3 ℝ)).mulVec ![1, 0, 0, 1] = ![0, 0, -2, 1] ∧
    (Spec.Translate ({ x := 1, y := 0, z := 0 } : vec3 ℝ) * Spec.RotateY F 90 *
        Spec.Scale ({ x := 2, y := 1, z := 1 } : vec3 ℝ)).mulVec ![1, 0, 0, 1] ≠
      (Spec.Scale ({ x := 2, y := 1, z := 1 } : vec3 ℝ) * Spec.RotateY F 90 *
        Spec.Translate ({ x := 1, y := 0, z := 0 } : vec3 ℝ)).mulVec ![1, 0, 0, 1] := by
  have hcos : F.cos = Real.cos := by rw [hF]
  have hsin : F.sin = Real.sin := by rw [hF]
  have hpi : F.pi = Real.pi := by rw [hF]
  have hsqrt : F.sqrt 1 = 1 := by rw [hF]; exact Real.sqrt_one
  have hmodel : ∀ (s p : vec3 ℝ) (a b c : ℝ),
      ∃ sh', (SetTransformations F self s a b c p).m_pShaderManager = some sh' ∧
        sh'.uniforms g_ModelName = some (UniformValue.mat4
          (Spec.Translate p * Spec.RotateX F a * Spec.RotateY F b * Spec.RotateZ F c *
            Spec.Scale s)) := by
    intro s p a b c
    rw [SetTransformations_eq F self sh s a b c p hsh, rotate_x_axis F hsqrt,
      rotate_y_axis F hsqrt, rotate_z_axis F hsqrt]
    refine ⟨_, rfl, ?_⟩
    simp [ShaderManager.setMat4Value, ShaderManager.set, Spec.Translate, Spec.Scale,
      glm.translate, glm.scale]
  have h1 : (Spec.Translate ({ x := 1, y := 0, z := 0 } : vec3 ℝ) * Spec.RotateY F 90 *
      Spec.Scale ({ x := 2, y := 1, z := 1 } : vec3 ℝ)).mulVec ![1, 0, 0, 1] = ![1, 0, -2, 1] := by
    rw [real_RotateY_ninety F hcos hsin hpi]
    ext i
    fin_cases i <;>
      simp [Spec.Translate, Spec.Scale, Matrix.mulVec, Matrix.mul_apply, Fin.sum_univ_four,
        Matrix.dotProduct]
  have h2 : (Spec.Scale ({ x := 2, y := 1, z := 1 } : vec3 ℝ) * Spec.RotateY F 90 *
      Spec.Translate ({ x := 1, y := 0, z := 0 } : vec3 ℝ)).mulVec ![1, 0, 0, 1] = ![0, 0, -2, 1] := by
    rw [real_RotateY_ninety F hcos hsin hpi]
    ext i
    fin_cases i <;>
      (simp [Spec.Translate, Spec.Scale, Matrix.mulVec, Matrix.mul_apply, Fin.sum_univ_four,
        Matrix.dotProduct]; try norm_num)
  refine ⟨hmodel _ _ _ _ _, ?_, h1, h2, ?_⟩
  · obtain ⟨sh', hs, hu⟩ := hmodel { x := 2, y := 1, z := 1 } { x := 1, y := 0, z := 0 } 0 90 0
    refine ⟨sh', hs, ?_⟩
    rw [hu, real_RotateX_zero F hcos hsin, real_RotateZ_zero F hcos hsin, mul_one, mul_one]
  · rw [h1, h2]
    intro h
    have := congrFun h 0
    simp at this

theorem SetTransformations_model_matrix_witness :
    ∃ sh', (SetTransformations
        { cos := Real.cos, sin := Real.sin, tan := Real.tan, sqrt := Real.sqrt, pi := Real.pi }
        (freshScene ℝ) ({ x := 2, y := 1, z := 1 } : vec3 ℝ) 0 90 0
        ({ x := 1, y := 0, z := 0 } : vec3 ℝ)).m_pShaderManager = some sh' ∧
      sh'.uniforms g_ModelName = some (UniformValue.mat4
        (Spec.Translate ({ x := 1, y := 0, z := 0 } : vec3 ℝ) *
          Spec.RotateY
            { cos := Real.cos, sin := Real.sin, tan := Real.tan, sqrt := Real.sqrt, pi := Real.pi }
            90 *
          Spec.Scale ({ x := 2, y := 1, z := 1 } : vec3 ℝ))) :=
  (SetTransformations_model_matrix
    { cos := Real.cos, sin := Real.sin, tan := Real.tan, sqrt := Real.sqrt, pi := Real.pi }
    (freshScene ℝ) { uniforms := fun _ => none } ({ x := 3, y := 3, z := 3 } : vec3 ℝ)
    ({ x := 0, y := 4, z := 0 } : vec3 ℝ) 10 20 30 rfl rfl).2.1

/-! ## Running the render script -/

theorem SetTransformations_frame [Field R] (F : FloatOps R) (self : SceneManager R)
    (s : vec3 R) (x y z : R) (p : vec3 R) :
    (SetTransformations F self s x y z p).trace =
        self.trace ++ [Call.SetTransformations s x y z p] ∧
      (SetTransformations F self s x y z p).m_loadedTextures = self.m_loadedTextures ∧
      (SetTransformations F self s x y z p).m_textureIDs = self.m_textureIDs ∧
      (SetTransformations F self s x y z p).m_objectMaterials = self.m_objectMaterials ∧
      (SetTransformations F self s x y z p).gl = self.gl ∧
      (SetTransformations F self s x y z p).m_pShaderManager.isSome =
        self.m_pShaderManager.isSome := by
  unfold SetTransformations
  cases h : self.m_pShaderManager <;> simp [h]

theorem SetShaderColor_frame (self : SceneManager R) (r g b a : R) :
    (SetShaderColor self r g b a).trace = self.trace ++ [Call.SetShaderColor r g b a] ∧
      (SetShaderColor self r g b a).m_loadedTextures = self.m_loadedTextures ∧
      (SetShaderColor self r g b a).m_textureIDs = self.m_textureIDs ∧
      (SetShaderColor self r g b a).m_objectMaterials = self.m_objectMaterials ∧
      (SetShaderColor self r g b a).gl = self.gl ∧
      (SetShaderColor self r g b a).m_pShaderManager.isSome =
        self.m_pShaderManager.isSome := by
  unfold SetShaderColor
  cases h : self.m_pShaderManager <;> simp [h]

theorem SetTextureUVScale_frame (self : SceneManager R) (u v : R) :
    (SetTextureUVScale self u v).trace = self.trace ++ [Call.SetTextureUVScale u v] ∧
      (SetTextureUVScale self u v).m_loadedTextures = self.m_loadedTextures ∧
      (SetTextureUVScale self u v).m_textureIDs = self.m_textureIDs ∧
      (SetTextureUVScale self u v).m_objectMaterials = self.m_objectMaterials ∧
      (SetTextureUVScale self u v).gl = self.gl ∧
      (SetTextureUVScale self u v).m_pShaderManager.isSome =
        self.m_pShaderManager.isSome := by
  unfold SetTextureUVScale
  cases h : self.m_pShaderManager <;> simp [h]

/-- With a shader manager present and the registry within bounds,
`SetShaderTexture` returns; it appends itself to the trace and changes the
shader uniforms only. -/
theorem SetShaderTexture_frame (self : SceneManager R) (tag : String) (hr : self.Ready) :
    ∃ s', SetShaderTexture self tag = some s' ∧
      s'.trace = self.trace ++ [Call.SetShaderTexture tag] ∧
      s'.m_loadedTextures = self.m_loadedTextures ∧
      s'.m_textureIDs = self.m_textureIDs ∧
      s'.m_objectMaterials = self.m_objectMaterials ∧
      s'.gl = self.gl ∧
      s'.m_pShaderManager.isSome = true := by
  obtain ⟨hsome, hb⟩ := hr
  obtain ⟨sh, hsh⟩ := Option.isSome_iff_exists.1 hsome
  obtain ⟨slot, hslot, -⟩ := FindTextureSlot_returns self tag hb
  exact ⟨_, SetShaderTexture_eq self sh tag slot hsh hslot, rfl, rfl, rfl, rfl, rfl, rfl⟩

theorem material_loop_congr (s1 s2 : SceneManager R) (tag : String)
    (h : s1.m_objectMaterials = s2.m_objectMaterials) :
    ∀ (fuel index : Nat) (b : Bool) (material : OBJECT_MATERIAL R),
      FindMaterial.loop s1 tag fuel index b material =
        FindMaterial.loop s2 tag fuel index b material := by
  intro fuel
  induction fuel with
  | zero => intro index b material; rfl
  | succ k ih =>
    intro index b material
    rw [FindMaterial.loop, FindMaterial.loop, h]
    simp only [ih]

theorem FindMaterial_congr (s1 s2 : SceneManager R) (tag : String)
    (material : OBJECT_MATERIAL R) (h : s1.m_objectMaterials = s2.m_objectMaterials) :
    FindMaterial s1 tag material = FindMaterial s2 tag material := by
  unfold FindMaterial
  rw [h, material_loop_congr s1 s2 tag h]

/-- With a shader manager present, `SetShaderMaterial` returns; it appends
itself to the trace and changes the shader uniforms only. -/
theorem SetShaderMaterial_frame (uninit : OBJECT_MATERIAL R) (self : SceneManager R)
    (tag : String) (hr : self.Ready) :
    ∃ s', SetShaderMaterial uninit self tag = some s' ∧
      s'.trace = self.trace ++ [Call.SetShaderMaterial tag] ∧
      s'.m_loadedTextures = self.m_loadedTextures ∧
      s'.m_textureIDs = self.m_textureIDs ∧
      s'.m_objectMaterials = self.m_objectMaterials ∧
      s'.gl = self.gl ∧
      s'.m_pShaderManager.isSome = true := by
  obtain ⟨hsome, hb⟩ := hr
  obtain ⟨sh, hsh⟩ := Option.isSome_iff_exists.1 hsome
  by_cases hne : self.m_objectMaterials = []
  · refine ⟨{ self with trace := self.trace ++ [Call.SetShaderMaterial tag] }, ?_,
      rfl, rfl, rfl, rfl, rfl, hsome⟩
    simp [SetShaderMaterial, hne]
  · have hpos : self.m_objectMaterials.length > 0 := List.length_pos.2 hne
    obtain ⟨out, hout⟩ := FindMaterial_nonempty self tag uninit hne
    have h : ∀ s : SceneManager R, s.m_objectMaterials = self.m_objectMaterials →
        FindMaterial s tag uninit = some (true, out) :=
      fun s hs => by rw [FindMaterial_congr s self tag uninit hs, hout]
    simp only [SetShaderMaterial, hpos, if_true, hsh]
    rw [h]
    · exact ⟨_, rfl, rfl, rfl, rfl, rfl, rfl, rfl⟩
    · rfl

theorem mesh_frame (self : SceneManager R) (c : Call R) :
    (self.mesh c).trace = self.trace ++ [c] ∧
      (self.mesh c).m_loadedTextures = self.m_loadedTextures ∧
      (self.mesh c).m_textureIDs = self.m_textureIDs ∧
      (self.mesh c).m_objectMaterials = self.m_objectMaterials ∧
      (self.mesh c).gl = self.gl ∧
      (self.mesh c).m_pShaderManager.isSome = self.m_pShaderManager.isSome :=
  ⟨rfl, rfl, rfl, rfl, rfl, rfl⟩

theorem Extends_refl (s : SceneManager R) : Extends s s [] :=
  ⟨by simp, rfl, rfl, rfl, rfl, rfl⟩

theorem Extends_trans {a b c : SceneManager R} {xs ys : List (Call R)}
    (h1 : Extends a b xs) (h2 : Extends b c ys) : Extends a c (xs ++ ys) := by
  obtain ⟨t1, n1, i1, m1, g1, p1⟩ := h1
  obtain ⟨t2, n2, i2, m2, g2, p2⟩ := h2
  exact ⟨by rw [t2, t1, List.append_assoc], by rw [n2, n1], by rw [i2, i1], by rw [m2, m1],
    by rw [g2, g1], by rw [p2, p1]⟩

theorem Extends_ready {a b : SceneManager R} {xs : List (Call R)}
    (h : Extends a b xs) (hr : a.Ready) : b.Ready := by
  obtain ⟨-, n1, i1, -, -, p1⟩ := h
  obtain ⟨hs, h0, hl⟩ := hr
  exact ⟨by rw [p1]; exact hs, by rw [n1]; exact h0, by rw [n1, i1]; exact hl⟩

theorem Extends_SetTransformations [Field R] (F : FloatOps R) {a b : SceneManager R}
    {xs : List (Call R)} (h : Extends a b xs) (s : vec3 R) (x y z : R) (p : vec3 R) :
    Extends a (SetTransformations F b s x y z p) (xs ++ [Call.SetTransformations s x y z p]) :=
  Extends_trans h (SetTransformations_frame F b s x y z p)

theorem Extends_SetShaderColor {a b : SceneManager R} {xs : List (Call R)}
    (h : Extends a b xs) (r g bl al : R) :
    Extends a (SetShaderColor b r g bl al) (xs ++ [Call.SetShaderColor r g bl al]) :=
  Extends_trans h (SetShaderColor_frame b r g bl al)

theorem Extends_SetTextureUVScale {a b : SceneManager R} {xs : List (Call R)}
    (h : Extends a b xs) (u v : R) :
    Extends a (SetTextureUVScale b u v) (xs ++ [Call.SetTextureUVScale u v]) :=
  Extends_trans h (SetTextureUVScale_frame b u v)

theorem Extends_mesh {a b : SceneManager R} {xs : List (Call R)}
    (h : Extends a b xs) (c : Call R) : Extends a (b.mesh c) (xs ++ [c]) :=
  Extends_trans h (mesh_frame b c)

theorem Returns_pure {α : Type} (a : α) (Q : α → Prop) (h : Q a) :
    Returns (pure a : Option α) Q :=
  ⟨a, rfl, h⟩

theorem Returns_bind {α β : Type} (m : Option α) (k : α → Option β) (Q : β → Prop)
    (h : Returns m (fun a => Returns (k a) Q)) : Returns (m >>= k) Q := by
  obtain ⟨a, ha, b, hb, hq⟩ := h
  exact ⟨b, by rw [ha]; exact hb, hq⟩

/-- Running `SetShaderTexture` and continuing with `k`. -/
theorem Returns_SetShaderTexture {β : Type} {a b : SceneManager R} {xs : List (Call R)}
    (tag : String) (k : SceneManager R → Option β) (Q : β → Prop)
    (hr : a.Ready) (h : Extends a b xs)
    (hk : ∀ s', Extends a s' (xs ++ [Call.SetShaderTexture tag]) → Returns (k s') Q) :
    Returns (SetShaderTexture b tag >>= k) Q := by
  obtain ⟨s', hs', hx⟩ := SetShaderTexture_frame b tag (Extends_ready h hr)
  apply Returns_bind
  refine ⟨s', hs', hk s' (Extends_trans h ?_)⟩
  obtain ⟨t, n, i, m, g, p⟩ := hx
  exact ⟨t, n, i, m, g, by rw [p, (Extends_ready h hr).1]⟩

/-- Running `SetShaderMaterial` and continuing with `k`. -/
theorem Returns_SetShaderMaterial {β : Type} {a b : SceneManager R} {xs : List (Call R)}
    (uninit : OBJECT_MATERIAL R) (tag : String) (k : SceneManager R → Option β) (Q : β → Prop)
    (hr : a.Ready) (h : Extends a b xs)
    (hk : ∀ s', Extends a s' (xs ++ [Call.SetShaderMaterial tag]) → Returns (k s') Q) :
    Returns (SetShaderMaterial uninit b tag >>= k) Q := by
  obtain ⟨s', hs', hx⟩ := SetShaderMaterial_frame uninit b tag (Extends_ready h hr)
  apply Returns_bind
  refine ⟨s', hs', hk s' (Extends_trans h ?_)⟩
  obtain ⟨t, n, i, m, g, p⟩ := hx
  exact ⟨t, n, i, m, g, by rw [p, (Extends_ready h hr).1]⟩

/-- The calls of the draw step `RenderScene.tablePlane` and the locals it leaves. -/
theorem tablePlane_run [Field R] (F : FloatOps R) (uninit : OBJECT_MATERIAL R)
    (l : RenderScene.Locals R) (self : SceneManager R) (hr : self.Ready) :
    Returns (RenderScene.tablePlane F uninit l self) (fun r =>
      r.1 = { scaleXYZ := { x := 25, y := 1, z := 25 }
              XrotationDegrees := 0
              YrotationDegrees := 0
              ZrotationDegrees := 0
              positionXYZ := { x := 0, y := 0, z := -10 } } ∧
      Extends self r.2
        [Call.SetTransformations { x := 25, y := 1, z := 25 } 0 0 0 { x := 0, y := 0, z := -10 },
         Call.SetShaderColor (1 / 10) (84 / 1000) (52 / 1000) 1,
         Call.SetShaderMaterial "table",
         Call.DrawPlaneMesh]) := by
  unfold RenderScene.tablePlane
  refine Returns_SetShaderMaterial _ _ _ _ hr
    (Extends_SetShaderColor (Extends_SetTransformations F (Extends_refl self) _ _ _ _ _) _ _ _ _)
    fun s1 h1 => ?_
  exact Returns_pure _ _ ⟨rfl, (Extends_mesh h1 _)⟩

/-- The calls of the draw step `RenderScene.saltBody` and the locals it leaves. -/
theorem saltBody_run [Field R] (F : FloatOps R) (uninit : OBJECT_MATERIAL R)
    (l : RenderScene.Locals R) (self : SceneManager R) (hr : self.Ready) :
    Returns (RenderScene.saltBody F uninit l self) (fun r =>
      r.1 = { scaleXYZ := { x := 14 / 10, y := 25 / 10, z := 14 / 10 }
              XrotationDegrees := 0
              YrotationDegrees := 55
              ZrotationDegrees := l.ZrotationDegrees
              positionXYZ := { x := 42 / 10, y := 12 / 10, z := 28 / 10 } } ∧
      Extends self r.2
        [Call.SetTransformations { x := 14 / 10, y := 25 / 10, z := 14 / 10 } 0 55 l.ZrotationDegrees { x := 42 / 10, y := 12 / 10, z := 28 / 10 },
         Call.SetTextureUVScale 2 1,
         Call.SetShaderTexture "customTexture",
         Call.SetShaderMaterial "design",
         Call.DrawCylinderMesh]) := by
  unfold RenderScene.saltBody
  refine Returns_SetShaderTexture _ _ _ hr
    (Extends_SetTextureUVScale (Extends_SetTransformations F (Extends_refl self) _ _ _ _ _) _ _)
    fun s1 h1 => ?_
  refine Returns_SetShaderMaterial _ _ _ _ hr
    h1
    fun s2 h2 => ?_
  exact Returns_pure _ _ ⟨rfl, (Extends_mesh h2 _)⟩

/-- The calls of the draw step `RenderScene.saltCap` and the locals it leaves. -/
theorem saltCap_run [Field R] (F : FloatOps R) (uninit : OBJECT_MATERIAL R)
    (l : RenderScene.Locals R) (self : SceneManager R) (hr : self.Ready) :
    Returns (RenderScene.saltCap F uninit l self) (fun r =>
      r.1 = { scaleXYZ := { x := 15 / 10, y := 1, z := 15 / 10 }
              XrotationDegrees := l.XrotationDegrees
              YrotationDegrees := l.YrotationDegrees
              ZrotationDegrees := l.ZrotationDegrees
              positionXYZ := { x := 42 / 10, y := 37 / 10, z := 28 / 10 } } ∧
      Extends self r.2
        [Call.SetTransformations { x := 15 / 10, y := 1, z := 15 / 10 } l.XrotationDegrees l.YrotationDegrees l.ZrotationDegrees { x := 42 / 10, y := 37 / 10, z := 28 / 10 },
         Call.SetTextureUVScale 4 3,
         Call.SetShaderTexture "customTexture2",
         Call.SetShaderMaterial "brown",
         Call.DrawHalfSphereMesh]) := by
  unfold RenderScene.saltCap
  refine Returns_SetShaderTexture _ _ _ hr
    (Extends_SetTextureUVScale (Extends_SetTransformations F (Extends_refl self) _ _ _ _ _) _ _)
    fun s1 h1 => ?_
  refine Returns_SetShaderMaterial _ _ _ _ hr
    h1
    fun s2 h2 => ?_
  exact Returns_pure _ _ ⟨rfl, (Extends_mesh h2 _)⟩

/-- The calls of the draw step `RenderScene.pepperBody` and the locals it leaves. -/
theorem pepperBody_run [Field R] (F : FloatOps R) (uninit : OBJECT_MATERIAL R)
    (l : RenderScene.Locals R) (self : SceneManager R) (hr : self.Ready) :
    Returns (RenderScene.pepperBody F uninit l self) (fun r =>
      r.1 = { scaleXYZ := { x := 14 / 10, y := 25 / 10, z := 14 / 10 }
              XrotationDegrees := l.XrotationDegrees
              YrotationDegrees := 85
              ZrotationDegrees := l.ZrotationDegrees
              positionXYZ := { x := -35 / 10, y := 12 / 10, z := 25 / 10 } } ∧
      Extends self r.2
        [Call.SetTransformations { x := 14 / 10, y := 25 / 10, z := 14 / 10 } l.XrotationDegrees 85 l.ZrotationDegrees { x := -35 / 10, y := 12 / 10, z := 25 / 10 },
         Call.SetTextureUVScale 2 1,
         Call.SetShaderTexture "customTexture",
         Call.SetShaderMaterial "design",
         Call.DrawCylinderMesh]) := by
  unfold RenderScene.pepperBody
  refine Returns_SetShaderTexture _ _ _ hr
    (Extends_SetTextureUVScale (Extends_SetTransformations F (Extends_refl self) _ _ _ _ _) _ _)
    fun s1 h1 => ?_
  refine Returns_SetShaderMaterial _ _ _ _ hr
    h1
    fun s2 h2 => ?_
  exact Returns_pure _ _ ⟨rfl, (Extends_mesh h2 _)⟩

/-- The calls of the draw step `RenderScene.pepperCap` and the locals it leaves. -/
theorem pepperCap_run [Field R] (F : FloatOps R) (uninit : OBJECT_MATERIAL R)
    (l : RenderScene.Locals R) (self : SceneManager R) (hr : self.Ready) :
    Returns (RenderScene.pepperCap F uninit l self) (fun r =>
      r.1 = { scaleXYZ := { x := 15 / 10, y := 1, z := 15 / 10 }
              XrotationDegrees := l.XrotationDegrees
              YrotationDegrees := l.YrotationDegrees
              ZrotationDegrees := l.ZrotationDegrees
              positionXYZ := { x := -35 / 10, y := 37 / 10, z := 25 / 10 } } ∧
      Extends self r.2
        [Call.SetTransformations { x := 15 / 10, y := 1, z := 15 / 10 } l.XrotationDegrees l.YrotationDegrees l.ZrotationDegrees { x := -35 / 10, y := 37 / 10, z := 25 / 10 },
         Call.SetTextureUVScale 4 3,
         Call.SetShaderTexture "customTexture2",
         Call.SetShaderMaterial "brown",
         Call.DrawHalfSphereMesh]) := by
  unfold RenderScene.pepperCap
  refine Returns_SetShaderTexture _ _ _ hr
    (Extends_SetTextureUVScale (Extends_SetTransformations F (Extends_refl self) _ _ _ _ _) _ _)
    fun s1 h1 => ?_
  refine Returns_SetShaderMaterial _ _ _ _ hr
    h1
    fun s2 h2 => ?_
  exact Returns_pure _ _ ⟨rfl, (Extends_mesh h2 _)⟩

/-- The calls of the draw step `RenderScene.tray` and the locals it leaves. -/
theorem tray_run [Field R] (F : FloatOps R) (uninit : OBJECT_MATERIAL R)
    (l : RenderScene.Locals R) (self : SceneManager R) (hr : self.Ready) :
    Returns (RenderScene.tray F uninit l self) (fun r =>
      r.1 = { scaleXYZ := { x := 7, y := 9 / 10, z := 7 }
              XrotationDegrees := l.XrotationDegrees
              YrotationDegrees := 0
              ZrotationDegrees := l.ZrotationDegrees
              positionXYZ := { x := 0, y := 3 / 10, z := 0 } } ∧
      Extends self r.2
        [Call.SetTransformations { x := 7, y := 9 / 10, z := 7 } l.XrotationDegrees 0 l.ZrotationDegrees { x := 0, y := 3 / 10, z := 0 },
         Call.SetShaderTexture "table_wood",
         Call.SetShaderMaterial "table",
         Call.DrawCylinderMesh]) := by
  unfold RenderScene.tray
  refine Returns_SetShaderTexture _ _ _ hr
    (Extends_SetTransformations F (Extends_refl self) _ _ _ _ _)
    fun s1 h1 => ?_
  refine Returns_SetShaderMaterial _ _ _ _ hr
    h1
    fun s2 h2 => ?_
  exact Returns_pure _ _ ⟨rfl, (Extends_mesh h2 _)⟩

/-- The calls of the draw step `RenderScene.trayRing` and the locals it leaves. -/
theorem trayRing_run [Field R] (F : FloatOps R)
    (l : RenderScene.Locals R) (self : SceneManager R) :
    Returns (RenderScene.trayRing F l self) (fun r =>
      r.1 = { scaleXYZ := { x := 682 / 100, y := 682 / 100, z := 682 / 100 }
              XrotationDegrees := 90
              YrotationDegrees := l.YrotationDegrees
              ZrotationDegrees := l.ZrotationDegrees
              positionXYZ := { x := 0, y := 11 / 10, z := 0 } } ∧
      Extends self r.2
        [Call.SetTransformations { x := 682 / 100, y := 682 / 100, z := 682 / 100 } 90 l.YrotationDegrees l.ZrotationDegrees { x := 0, y := 11 / 10, z := 0 },
         Call.LoadTorusMesh (some (3 / 100)),
         Call.DrawTorusMesh]) := by
  unfold RenderScene.trayRing
  exact Returns_pure _ _ ⟨rfl, (Extends_mesh (Extends_mesh (Extends_SetTransformations F (Extends_refl self) _ _ _ _ _) _) _)⟩

/-- The calls of the draw step `RenderScene.butterDish` and the locals it leaves. -/
theorem butterDish_run [Field R] (F : FloatOps R) (uninit : OBJECT_MATERIAL R)
    (l : RenderScene.Locals R) (self : SceneManager R) (hr : self.Ready) :
    Returns (RenderScene.butterDish F uninit l self) (fun r =>
      r.1 = { scaleXYZ := { x := 15 / 10, y := 2, z := 3 }
              XrotationDegrees := 0
              YrotationDegrees := 140
              ZrotationDegrees := l.ZrotationDegrees
              positionXYZ := { x := 0, y := 13 / 10, z := 33 / 10 } } ∧
      Extends self r.2
        [Call.SetTransformations { x := 15 / 10, y := 2, z := 3 } 0 140 l.ZrotationDegrees { x := 0, y := 13 / 10, z := 33 / 10 },
         Call.SetTextureUVScale 2 2,
         Call.SetShaderTexture "butter_tray",
         Call.SetShaderMaterial "design",
         Call.DrawHalfSphereMesh]) := by
  unfold RenderScene.butterDish
  refine Returns_SetShaderTexture _ _ _ hr
    (Extends_SetTextureUVScale (Extends_SetTransformations F (Extends_refl self) _ _ _ _ _) _ _)
    fun s1 h1 => ?_
  refine Returns_SetShaderMaterial _ _ _ _ hr
    h1
    fun s2 h2 => ?_
  exact Returns_pure _ _ ⟨rfl, (Extends_mesh h2 _)⟩

/-- The calls of the draw step `RenderScene.butterRing` and the locals it leaves. -/
theorem butterRing_run [Field R] (F : FloatOps R) (uninit : OBJECT_MATERIAL R)
    (l : RenderScene.Locals R) (self : SceneManager R) (hr : self.Ready) :
    Returns (RenderScene.butterRing F uninit l self) (fun r =>
      r.1 = { scaleXYZ := { x := 17 / 10, y := 32 / 10, z := 35 / 10 }
              XrotationDegrees := 90
              YrotationDegrees := 0
              ZrotationDegrees := 40
              positionXYZ := l.positionXYZ } ∧
      Extends self r.2
        [Call.SetTransformations { x := 17 / 10, y := 32 / 10, z := 35 / 10 } 90 0 40 l.positionXYZ,
         Call.SetTextureUVScale 4 3,
         Call.SetShaderTexture "customTexture2",
         Call.SetShaderMaterial "brown",
         Call.LoadTorusMesh (some (11 / 100)),
         Call.DrawTorusMesh]) := by
  unfold RenderScene.butterRing
  refine Returns_SetShaderTexture _ _ _ hr
    (Extends_SetTextureUVScale (Extends_SetTransformations F (Extends_refl self) _ _ _ _ _) _ _)
    fun s1 h1 => ?_
  refine Returns_SetShaderMaterial _ _ _ _ hr
    h1
    fun s2 h2 => ?_
  exact Returns_pure _ _ ⟨rfl, (Extends_mesh (Extends_mesh h2 _) _)⟩

/-- The calls of the draw step `RenderScene.holderBack` and the locals it leaves. -/
theorem holderBack_run [Field R] (F : FloatOps R) (uninit : OBJECT_MATERIAL R)
    (l : RenderScene.Locals R) (self : SceneManager R) (hr : self.Ready) :
    Returns (RenderScene.holderBack F uninit l self) (fun r =>
      r.1 = { scaleXYZ := { x := 5, y := 5, z := 5 / 10 }
              XrotationDegrees := 0
              YrotationDegrees := 20
              ZrotationDegrees := 0
              positionXYZ := { x := -17279404685 / 10000000000, y := 34 / 10, z := -2 } } ∧
      Extends self r.2
        [Call.SetTransformations { x := 5, y := 5, z := 5 / 10 } 0 20 0 { x := -17279404685 / 10000000000, y := 34 / 10, z := -2 },
         Call.SetTextureUVScale 1 1,
         Call.SetShaderTexture "napkin_holder",
         Call.SetShaderMaterial "design",
         Call.DrawBoxMesh]) := by
  unfold RenderScene.holderBack
  refine Returns_SetShaderTexture _ _ _ hr
    (Extends_SetTextureUVScale (Extends_SetTransformations F (Extends_refl self) _ _ _ _ _) _ _)
    fun s1 h1 => ?_
  refine Returns_SetShaderMaterial _ _ _ _ hr
    h1
    fun s2 h2 => ?_
  exact Returns_pure _ _ ⟨rfl, (Extends_mesh h2 _)⟩

/-- The calls of the draw step `RenderScene.holderFront` and the locals it leaves. -/
theorem holderFront_run [Field R] (F : FloatOps R)
    (l : RenderScene.Locals R) (self : SceneManager R) :
    Returns (RenderScene.holderFront F l self) (fun r =>
      r.1 = { scaleXYZ := l.scaleXYZ
              XrotationDegrees := l.XrotationDegrees
              YrotationDegrees := l.YrotationDegrees
              ZrotationDegrees := l.ZrotationDegrees
              positionXYZ := { x := -1, y := 34 / 10, z := 0 } } ∧
      Extends self r.2
        [Call.SetTransformations l.scaleXYZ l.XrotationDegrees l.YrotationDegrees l.ZrotationDegrees { x := -1, y := 34 / 10, z := 0 },
         Call.DrawBoxMesh]) := by
  unfold RenderScene.holderFront
  exact Returns_pure _ _ ⟨rfl, (Extends_mesh (Extends_SetTransformations F (Extends_refl self) _ _ _ _ _) _)⟩

/-- The calls of the draw step `RenderScene.holderBase` and the locals it leaves. -/
theorem holderBase_run [Field R] (F : FloatOps R)
    (l : RenderScene.Locals R) (self : SceneManager R) (hr : self.Ready) :
    Returns (RenderScene.holderBase F l self) (fun r =>
      r.1 = { scaleXYZ := { x := 5, y := 5 / 10, z := 2 }
              XrotationDegrees := l.XrotationDegrees
              YrotationDegrees := l.YrotationDegrees
              ZrotationDegrees := l.ZrotationDegrees
              positionXYZ := { x := -13639702343 / 10000000000, y := 115 / 100, z := -1 } } ∧
      Extends self r.2
        [Call.SetTransformations { x := 5, y := 5 / 10, z := 2 } l.XrotationDegrees l.YrotationDegrees l.ZrotationDegrees { x := -13639702343 / 10000000000, y := 115 / 100, z := -1 },
         Call.SetShaderTexture "",
         Call.SetShaderColor (596 / 1000) (708 / 1000) (780 / 1000) 1,
         Call.DrawBoxMesh]) := by
  unfold RenderScene.holderBase
  refine Returns_SetShaderTexture _ _ _ hr
    (Extends_SetTransformations F (Extends_refl self) _ _ _ _ _)
    fun s1 h1 => ?_
  exact Returns_pure _ _ ⟨rfl, (Extends_mesh (Extends_SetShaderColor h1 _ _ _ _) _)⟩


/-- The napkin loop over the indices `is`: two calls per index, with the
scale and rotation the loop was entered with. -/
theorem napkin_fold [Field R] (F : FloatOps R) (a : SceneManager R) (s : vec3 R) (x y z : R) :
    ∀ (is : List Nat) (p : vec3 R) (b : SceneManager R) (xs : List (Call R)),
      Extends a b xs →
      Extends a (is.foldl (RenderScene.napkin F)
          ({ scaleXYZ := s, XrotationDegrees := x, YrotationDegrees := y,
             ZrotationDegrees := z, positionXYZ := p }, b)).2
        (xs ++ is.flatMap (napkinCalls F s x y z)) := by
  intro is
  induction is with
  | nil => intro p b xs h; simpa using h
  | cons i is ih =>
    intro p b xs h
    have hcalls : xs ++ napkinCalls F s x y z i =
        xs ++ [Call.SetTransformations s x y z
          { x := -1 + F.tan (z * (314159 / 100000) / 180) * ((i : R) / 6)
            y := 4
            z := -((i : R) / 6) }] ++ [Call.DrawPlaneMesh] := by
      simp [napkinCalls]
    rw [List.foldl_cons, List.flatMap_cons, ← List.append_assoc, hcalls]
    exact ih _ _ _ (Extends_mesh (Extends_SetTransformations F h _ _ _ _ _) _)

/-- The calls of the last step of `RenderScene`, the ten napkins. -/
theorem napkins_run [Field R] (F : FloatOps R) (uninit : OBJECT_MATERIAL R)
    (l : RenderScene.Locals R) (self : SceneManager R) (hr : self.Ready) :
    Returns (RenderScene.napkins F uninit l self) (fun r =>
      Extends self r.2
        ([Call.SetShaderColor (85 / 100) (85 / 100) (85 / 100) 1,
          Call.SetShaderMaterial "napkin"] ++
         (List.range' 1 10).flatMap
           (napkinCalls F { x := 3, y := 3, z := 25 / 10 } 90 0 (-20)))) := by
  unfold RenderScene.napkins
  refine Returns_SetShaderMaterial _ _ _ _ hr
    (Extends_SetShaderColor (Extends_refl self) _ _ _ _)
    fun s1 h1 => ?_
  refine Returns_pure _ _ ?_
  exact napkin_fold F self { x := 3, y := 3, z := 25 / 10 } 90 0 (-20) (List.range' 1 10)
    l.positionXYZ s1 _ h1

/-- Running one draw step of `RenderScene` and continuing with `k`. -/
theorem Returns_step {β : Type} {a b : SceneManager R} {xs cs : List (Call R)}
    (m : Option (RenderScene.Locals R × SceneManager R))
    (k : RenderScene.Locals R × SceneManager R → Option β) (Q : β → Prop)
    (L : RenderScene.Locals R)
    (hm : Returns m (fun r => r.1 = L ∧ Extends b r.2 cs))
    (h : Extends a b xs)
    (hk : ∀ s', Extends a s' (xs ++ cs) → Returns (k (L, s')) Q) :
    Returns (m.bind k) Q := by
  obtain ⟨r, hr, hL, hx⟩ := hm
  obtain ⟨c, hc, hq⟩ := hk r.2 (Extends_trans h hx)
  refine ⟨c, ?_, hq⟩
  rw [hr, Option.bind, ← hc, ← hL]

/-- With a shader manager present and the texture count within the array,
`RenderScene` returns, and the calls it makes are those of `renderScript`. -/
theorem RenderScene_run [Field R] (F : FloatOps R) (uninit : OBJECT_MATERIAL R)
    (scaleXYZ0 positionXYZ0 : vec3 R) (self : SceneManager R) (hr : self.Ready) :
    Returns (RenderScene F uninit scaleXYZ0 positionXYZ0 self) (fun final =>
      Extends self final (renderScript F)) := by
  unfold RenderScene
  refine Returns_step _ _ _ _ (tablePlane_run F uninit _ self hr) (Extends_refl self)
    fun s1 h1 => ?_
  refine Returns_step _ _ _ _ (saltBody_run F uninit _ s1 (Extends_ready h1 hr)) h1
    fun s2 h2 => ?_
  refine Returns_step _ _ _ _ (saltCap_run F uninit _ s2 (Extends_ready h2 hr)) h2
    fun s3 h3 => ?_
  refine Returns_step _ _ _ _ (pepperBody_run F uninit _ s3 (Extends_ready h3 hr)) h3
    fun s4 h4 => ?_
  refine Returns_step _ _ _ _ (pepperCap_run F uninit _ s4 (Extends_ready h4 hr)) h4
    fun s5 h5 => ?_
  refine Returns_step _ _ _ _ (tray_run F uninit _ s5 (Extends_ready h5 hr)) h5
    fun s6 h6 => ?_
  refine Returns_step _ _ _ _ (trayRing_run F _ s6) h6
    fun s7 h7 => ?_
  refine Returns_step _ _ _ _ (butterDish_run F uninit _ s7 (Extends_ready h7 hr)) h7
    fun s8 h8 => ?_
  refine Returns_step _ _ _ _ (butterRing_run F uninit _ s8 (Extends_ready h8 hr)) h8
    fun s9 h9 => ?_
  refine Returns_step _ _ _ _ (holderBack_run F uninit _ s9 (Extends_ready h9 hr)) h9
    fun s10 h10 => ?_
  refine Returns_step _ _ _ _ (holderFront_run F _ s10) h10
    fun s11 h11 => ?_
  refine Returns_step _ _ _ _ (holderBase_run F _ s11 (Extends_ready h11 hr)) h11
    fun s12 h12 => ?_
  obtain ⟨r, hr13, hx13⟩ := napkins_run F uninit _ s12 (Extends_ready h12 hr)
  refine ⟨r.2, ?_, ?_⟩
  · show (RenderScene.napkins F uninit _ s12).bind _ = _
    rw [hr13]
    rfl
  · have h := Extends_trans h12 hx13
    unfold renderScript
    simpa only [List.nil_append, List.append_assoc, List.cons_append] using h

/-! ## Scene preparation -/

/-- Any `CreateGLTexture` call on a registry with a free slot returns; the
count grows by at most one and nothing outside the registry and the OpenGL
context changes. -/
theorem CreateGLTexture_any (stbi_load : String → Option StbImage) (self : SceneManager R)
    (filename tag : String) (h0 : 0 ≤ self.m_loadedTextures)
    (hcap : self.m_loadedTextures < self.m_textureIDs.length) :
    ∃ b self', CreateGLTexture stbi_load self filename tag = some (b, self') ∧
      self.m_loadedTextures ≤ self'.m_loadedTextures ∧
      self'.m_loadedTextures ≤ self.m_loadedTextures + 1 ∧
      self'.m_textureIDs.length = self.m_textureIDs.length ∧
      self'.m_pShaderManager = self.m_pShaderManager ∧
      self'.m_objectMaterials = self.m_objectMaterials ∧
      self'.trace = self.trace := by
  cases hl : stbi_load filename with
  | none =>
    obtain ⟨s', hc, hn, ha, hp, hm, ht⟩ :=
      CreateGLTexture_fail stbi_load self filename tag (Or.inl hl)
    exact ⟨false, s', hc, by omega, by omega, by rw [ha], hp, hm, ht⟩
  | some image =>
    by_cases hch : image.colorChannels = 3 ∨ image.colorChannels = 4
    · obtain ⟨s', hc, hn, ha, hp, hm, ht, -⟩ :=
        CreateGLTexture_ok stbi_load self filename tag image h0 hcap hl hch
      exact ⟨true, s', hc, by omega, by omega, by rw [ha, List.length_set], hp, hm, ht⟩
    · obtain ⟨s', hc, hn, ha, hp, hm, ht⟩ :=
        CreateGLTexture_fail stbi_load self filename tag
          (Or.inr ⟨image, hl, fun h => hch (Or.inl h), fun h => hch (Or.inr h)⟩)
      exact ⟨false, s', hc, by omega, by omega, by rw [ha], hp, hm, ht⟩

/-- With room for five more textures, `LoadSceneTextures` returns, leaving the
registry within its bounds. -/
theorem LoadSceneTextures_run (stbi_load : String → Option StbImage) (self : SceneManager R)
    (h0 : 0 ≤ self.m_loadedTextures)
    (hroom : self.m_loadedTextures + 5 ≤ self.m_textureIDs.length) :
    Returns (LoadSceneTextures stbi_load self) (fun s =>
      s.InBounds ∧ s.m_pShaderManager = self.m_pShaderManager ∧
      s.m_objectMaterials = self.m_objectMaterials ∧ s.trace = self.trace) := by
  obtain ⟨b1, s1, e1, l1, u1, c1, p1, m1, t1⟩ :=
    CreateGLTexture_any stbi_load self "../../Utilities/textures/customTexture.jpg"
      "customTexture" h0 (by omega)
  obtain ⟨b2, s2, e2, l2, u2, c2, p2, m2, t2⟩ :=
    CreateGLTexture_any stbi_load s1 "../../Utilities/textures/customTexture2.jpg"
      "customTexture2" (by omega) (by omega)
  obtain ⟨b3, s3, e3, l3, u3, c3, p3, m3, t3⟩ :=
    CreateGLTexture_any stbi_load s2 "../../Utilities/textures/table_wood.jpg"
      "table_wood" (by omega) (by omega)
  obtain ⟨b4, s4, e4, l4, u4, c4, p4, m4, t4⟩ :=
    CreateGLTexture_any stbi_load s3 "../../Utilities/textures/butter_tray.jpg"
      "butter_tray" (by omega) (by omega)
  obtain ⟨b5, s5, e5, l5, u5, c5, p5, m5, t5⟩ :=
    CreateGLTexture_any stbi_load s4 "../../Utilities/textures/napkin_holder.jpg"
      "napkin_holder" (by omega) (by omega)
  have hb : s5.InBounds := ⟨by omega, by omega⟩
  obtain ⟨s6, e6, a6, n6, p6, m6, t6, -⟩ := BindGLTextures_spec s5 hb
  refine ⟨s6, ?_, ⟨by rw [n6]; exact hb.1, by rw [n6, a6]; exact hb.2⟩, ?_, ?_, ?_⟩
  · simp only [LoadSceneTextures, e1, e2, e3, e4, e5, e6, Option.bind_eq_bind,
      Option.some_bind]
  · rw [p6, p5, p4, p3, p2, p1]
  · rw [m6, m5, m4, m3, m2, m1]
  · rw [t6, t5, t4, t3, t2, t1]

/-- With a shader manager present and room for five more textures,
`PrepareScene` returns a scene manager that can run the render script; the
only calls it records are the five mesh loads. -/
theorem PrepareScene_run [Field R] (stbi_load : String → Option StbImage)
    (self : SceneManager R) (hsh : self.m_pShaderManager.isSome = true)
    (h0 : 0 ≤ self.m_loadedTextures)
    (hroom : self.m_loadedTextures + 5 ≤ self.m_textureIDs.length) :
    Returns (PrepareScene stbi_load self) (fun s =>
      s.Ready ∧
      s.m_objectMaterials = (DefineObjectMaterials self).m_objectMaterials ∧
      s.trace = self.trace ++ [Call.LoadPlaneMesh, Call.LoadCylinderMesh, Call.LoadSphereMesh,
        Call.LoadTorusMesh none, Call.LoadBoxMesh]) := by
  obtain ⟨s1, e1, hb1, p1, m1, t1⟩ := LoadSceneTextures_run stbi_load self h0 hroom
  obtain ⟨sh, hsh'⟩ := Option.isSome_iff_exists.1 hsh
  have hp : (DefineObjectMaterials s1).m_pShaderManager = some sh := by
    rw [← hsh', ← p1]; rfl
  unfold Returns
  simp only [PrepareScene, e1, Option.bind_eq_bind, Option.some_bind, SetupSceneLights, hp,
    Option.pure_def]
  refine ⟨_, rfl, ⟨rfl, hb1⟩, ?_, ?_⟩
  · simp [mesh, DefineObjectMaterials, m1]
  · simp [mesh, DefineObjectMaterials, t1]

/-! ## Draw calls of one frame -/

/-- The draw calls of `renderScript`, by mesh. -/
theorem renderScript_counts [Field R] (F : FloatOps R) :
    (renderScript F).countP Call.isDraw = 22 ∧
    (renderScript F).countP Call.isDrawPlane = 11 ∧
    (renderScript F).countP Call.isDrawCylinder = 3 ∧
    (renderScript F).countP Call.isDrawHalfSphere = 3 ∧
    (renderScript F).countP Call.isDrawTorus = 2 ∧
    (renderScript F).countP Call.isDrawBox = 3 ∧
    ((List.range' 1 10).flatMap
      (napkinCalls F { x := 3, y := 3, z := 25 / 10 } 90 0 (-20))).countP
        Call.isDrawPlane = 10 := by
  have hrange : List.range' 1 10 = [1, 2, 3, 4, 5, 6, 7, 8, 9, 10] := by decide
  refine ⟨?_, ?_, ?_, ?_, ?_, ?_, ?_⟩ <;>
    simp [renderScript, hrange, napkinCalls, List.countP_cons, Call.isDraw, Call.isDrawPlane,
      Call.isDrawCylinder, Call.isDrawHalfSphere, Call.isDrawTorus, Call.isDrawBox]

/-- `PrepareScene` followed by `RenderScene`, started with a shader manager
and an empty registry of capacity 16: both return, and the trace grows by the
five mesh loads and then the calls of `renderScript`. -/
theorem prepare_then_render [Field R] (F : FloatOps R) (uninit : OBJECT_MATERIAL R)
    (stbi_load : String → Option StbImage) (scaleXYZ0 positionXYZ0 : vec3 R)
    (self : SceneManager R) (hsh : self.m_pShaderManager.isSome = true)
    (hempty : self.m_loadedTextures = 0) (hcap : self.m_textureIDs.length = 16) :
    ∃ prepared final, PrepareScene stbi_load self = some prepared ∧
      RenderScene F uninit scaleXYZ0 positionXYZ0 prepared = some final ∧
      final.trace = self.trace ++
        [Call.LoadPlaneMesh, Call.LoadCylinderMesh, Call.LoadSphereMesh,
          Call.LoadTorusMesh none, Call.LoadBoxMesh] ++ renderScript F := by
  obtain ⟨prepared, hp, hready, -, htrace⟩ :=
    PrepareScene_run stbi_load self hsh (by omega) (by rw [hempty, hcap]; omega)
  obtain ⟨final, hf, hx⟩ := RenderScene_run F uninit scaleXYZ0 positionXYZ0 prepared hready
  exact ⟨prepared, final, hp, hf, by rw [hx.1, htrace]⟩

/-- C8 (as stated, refuted). On a fresh scene manager, with every texture file
decoding, `PrepareScene` followed by one `RenderScene` issues 22 mesh draw
calls, not 24: 3 cylinder draws and 3 half-sphere draws, not 4 and 4. -/
theorem one_frame_has_22_draw_calls :
    ∃ prepared final, PrepareScene (decodeAll 3) (freshScene ℚ) = some prepared ∧
      RenderScene rationalOps (blankMaterial ℚ) { x := 0, y := 0, z := 0 }
        { x := 0, y := 0, z := 0 } prepared = some final ∧
      final.trace.countP Call.isDraw = 22 ∧
      final.trace.countP Call.isDrawCylinder = 3 ∧
      final.trace.countP Call.isDrawHalfSphere = 3 := by
  obtain ⟨prepared, final, hp, hf, ht⟩ := prepare_then_render rationalOps (blankMaterial ℚ)
    (decodeAll 3) { x := 0, y := 0, z := 0 } { x := 0, y := 0, z := 0 } (freshScene ℚ)
    rfl rfl rfl
  refine ⟨prepared, final, hp, hf, ?_, ?_, ?_⟩ <;>
    simp only [ht, List.countP_append, renderScript_counts] <;> rfl

/-- C8 (amended). Started with a shader manager and an empty registry of
capacity 16, whatever the texture files decode to, `PrepareScene` followed
by one `RenderScene` issues exactly 22 mesh draw calls: 11 plane draws (1 for
the table, 10 in the napkin loop), 3 cylinder draws, 3 half-sphere draws,
2 torus draws and 3 box draws. -/
theorem one_frame_draw_calls [Field R] (F : FloatOps R) (uninit : OBJECT_MATERIAL R)
    (stbi_load : String → Option StbImage) (scaleXYZ0 positionXYZ0 : vec3 R)
    (self : SceneManager R) (hsh : self.m_pShaderManager.isSome = true)
    (hempty : self.m_loadedTextures = 0) (hcap : self.m_textureIDs.length = 16) :
    ∃ prepared final calls, PrepareScene stbi_load self = some prepared ∧
      RenderScene F uninit scaleXYZ0 positionXYZ0 prepared = some final ∧
      final.trace = self.trace ++ calls ∧
      calls.countP Call.isDraw = 22 ∧
      calls.countP Call.isDrawPlane = 11 ∧
      ((List.range' 1 10).flatMap
        (napkinCalls F { x := 3, y := 3, z := 25 / 10 } 90 0 (-20))).countP
          Call.isDrawPlane = 10 ∧
      calls.countP Call.isDrawCylinder = 3 ∧
      calls.countP Call.isDrawHalfSphere = 3 ∧
      calls.countP Call.isDrawTorus = 2 ∧
      calls.countP Call.isDrawBox = 3 := by
  obtain ⟨prepared, final, hp, hf, ht⟩ :=
    prepare_then_render F uninit stbi_load scaleXYZ0 positionXYZ0 self hsh hempty hcap
  obtain ⟨c1, c2, c3, c4, c5, c6, c7⟩ := renderScript_counts F
  refine ⟨prepared, final, _, hp, hf, by rw [ht, List.append_assoc], ?_, ?_, c7, ?_, ?_, ?_, ?_⟩
  · rw [List.countP_append, c1]; rfl
  · rw [List.countP_append, c2]; rfl
  · rw [List.countP_append, c3]; rfl
  · rw [List.countP_append, c4]; rfl
  · rw [List.countP_append, c5]; rfl
  · rw [List.countP_append, c6]; rfl

theorem one_frame_draw_calls_witness :
    (freshScene ℚ).m_pShaderManager.isSome = true ∧ (freshScene ℚ).m_loadedTextures = 0 ∧
    (freshScene ℚ).m_textureIDs.length = 16 ∧
    ∃ prepared final calls, PrepareScene decodeNone (freshScene ℚ) = some prepared ∧
      RenderScene rationalOps (blankMaterial ℚ) { x := 1, y := 1, z := 1 }
        { x := 0, y := 0, z := 0 } prepared = some final ∧
      final.trace = (freshScene ℚ).trace ++ calls ∧
      calls.countP Call.isDraw = 22 :=
  ⟨rfl, rfl, rfl,
    (one_frame_draw_calls rationalOps (blankMaterial ℚ) decodeNone { x := 1, y := 1, z := 1 }
      { x := 0, y := 0, z := 0 } (freshScene ℚ) rfl rfl rfl).imp
      (fun _ h => h.imp (fun _ h => h.imp (fun _ h => ⟨h.1, h.2.1, h.2.2.1, h.2.2.2.1⟩)))⟩

/-! ## Material uniforms -/

/-- The uniform table after the five uploads of `SetShaderMaterial`. -/
theorem pushMaterial_uniforms (sh : ShaderManager R) (m : OBJECT_MATERIAL R) :
    (pushMaterial sh m).uniforms "material.ambientColor" =
        some (UniformValue.vec3 m.ambientColor) ∧
      (pushMaterial sh m).uniforms "material.ambientStrength" =
        some (UniformValue.float m.ambientStrength) ∧
      (pushMaterial sh m).uniforms "material.diffuseColor" =
        some (UniformValue.vec3 m.diffuseColor) ∧
      (pushMaterial sh m).uniforms "material.specularColor" =
        some (UniformValue.vec3 m.specularColor) ∧
      (pushMaterial sh m).uniforms "material.shininess" =
        some (UniformValue.float m.shininess) ∧
      ∀ name, isMaterialUniform name = false →
        (pushMaterial sh m).uniforms name = sh.uniforms name := by
  refine ⟨?_, ?_, ?_, ?_, ?_, ?_⟩
  · simp [pushMaterial, ShaderManager.setVec3Value, ShaderManager.setFloatValue,
      ShaderManager.set]
  · simp [pushMaterial, ShaderManager.setVec3Value, ShaderManager.setFloatValue,
      ShaderManager.set]
  · simp [pushMaterial, ShaderManager.setVec3Value, ShaderManager.setFloatValue,
      ShaderManager.set]
  · simp [pushMaterial, ShaderManager.setVec3Value, ShaderManager.setFloatValue,
      ShaderManager.set]
  · simp [pushMaterial, ShaderManager.setVec3Value, ShaderManager.setFloatValue,
      ShaderManager.set]
  · intro name hname
    simp only [isMaterialUniform, Bool.or_eq_false_iff, decide_eq_false_iff_not] at hname
    obtain ⟨⟨⟨⟨h1, h2⟩, h3⟩, h4⟩, h5⟩ := hname
    simp [pushMaterial, ShaderManager.setVec3Value, ShaderManager.setFloatValue,
      ShaderManager.set, h1, h2, h3, h4, h5]

/-- `SetShaderMaterial` with a shader manager present, in terms of what
`FindMaterial` returns. -/
theorem SetShaderMaterial_eq (uninit : OBJECT_MATERIAL R) (self : SceneManager R)
    (sh : ShaderManager R) (tag : String) (out : OBJECT_MATERIAL R)
    (hsh : self.m_pShaderManager = some sh) (hne : self.m_objectMaterials ≠ [])
    (hfind : FindMaterial self tag uninit = some (true, out)) :
    SetShaderMaterial uninit self tag = some
      { self with
        trace := self.trace ++ [Call.SetShaderMaterial tag]
        m_pShaderManager := some (pushMaterial sh out) } := by
  have hpos : self.m_objectMaterials.length > 0 := List.length_pos.2 hne
  have h : ∀ s : SceneManager R, s.m_objectMaterials = self.m_objectMaterials →
      FindMaterial s tag uninit = some (true, out) :=
    fun s hs => by rw [FindMaterial_congr s self tag uninit hs, hfind]
  simp only [SetShaderMaterial, hpos, if_true, hsh]
  rw [h]
  · rfl
  · rfl

/-- C11. With a shader manager present, for every material list and every tag
carried by some material of the list, `SetShaderMaterial` uploads to
`material.ambientColor`, `material.ambientStrength`, `material.diffuseColor`,
`material.specularColor` and `material.shininess` the five fields of the first
material of the list whose tag equals the given tag, whatever the local
record held before, and leaves every other uniform as it was. -/
theorem SetShaderMaterial_pushes_first_match (uninit : OBJECT_MATERIAL R)
    (self : SceneManager R) (sh : ShaderManager R) (tag : String)
    (k : Nat) (mk : OBJECT_MATERIAL R)
    (hsh : self.m_pShaderManager = some sh)
    (hk : self.m_objectMaterials[k]? = some mk) (hktag : mk.tag = tag)
    (hfirst : ∀ (i : Nat) (m : OBJECT_MATERIAL R), i < k →
      self.m_objectMaterials[i]? = some m → m.tag ≠ tag) :
    ∃ s' sh', SetShaderMaterial uninit self tag = some s' ∧
      s'.m_pShaderManager = some sh' ∧
      sh'.uniforms "material.ambientColor" = some (UniformValue.vec3 mk.ambientColor) ∧
      sh'.uniforms "material.ambientStrength" = some (UniformValue.float mk.ambientStrength) ∧
      sh'.uniforms "material.diffuseColor" = some (UniformValue.vec3 mk.diffuseColor) ∧
      sh'.uniforms "material.specularColor" = some (UniformValue.vec3 mk.specularColor) ∧
      sh'.uniforms "material.shininess" = some (UniformValue.float mk.shininess) ∧
      ∀ name, isMaterialUniform name = false → sh'.uniforms name = sh.uniforms name := by
  have hne : self.m_objectMaterials ≠ [] := by
    intro h; rw [h] at hk; simp at hk
  have hfind := FindMaterial_hit self tag uninit k mk hk hktag hfirst
  obtain ⟨u1, u2, u3, u4, u5, u6⟩ := pushMaterial_uniforms sh (copyMaterial uninit mk)
  exact ⟨_, _, SetShaderMaterial_eq uninit self sh tag _ hsh hne hfind, rfl,
    u1, u2, u3, u4, u5, u6⟩

theorem SetShaderMaterial_pushes_first_match_witness :
    ∃ s' sh', SetShaderMaterial garbageMaterial (DefineObjectMaterials (freshScene ℚ))
        "brown" = some s' ∧
      s'.m_pShaderManager = some sh' ∧
      sh'.uniforms "material.ambientColor" =
        some (UniformValue.vec3 ({ x := 1, y := 1, z := 1 } : vec3 ℚ)) :=
  (SetShaderMaterial_pushes_first_match garbageMaterial (DefineObjectMaterials (freshScene ℚ))
    { uniforms := fun _ => none } "brown" 1
    { ambientColor := { x := 1, y := 1, z := 1 }
      ambientStrength := 1 / 100
      diffuseColor := { x := 0, y := 0, z := 0 }
      specularColor := { x := 5 / 100, y := 5 / 100, z := 5 / 100 }
      shininess := 20
      tag := "brown" } rfl rfl rfl
    (by
      intro i m hi hm
      have hi0 : i = 0 := by omega
      subst hi0
      simp [DefineObjectMaterials, freshScene] at hm
      subst hm
      decide)).imp (fun _ h => h.imp (fun _ h => ⟨h.1, h.2.1, h.2.2.1⟩))

/-- C12 (the code at the failing input). With the four materials of
`DefineObjectMaterials` registered, after `SetShaderMaterial "table"` has set
`material.shininess` to 30, `SetShaderMaterial "missing"` (a tag none of the
four carries) overwrites the five `material.*` uniforms with the contents of
its uninitialised local record: `material.shininess` no longer is 30. -/
theorem SetShaderMaterial_overwrites_on_miss :
    ∃ s1 sh1 s2 sh2,
      SetShaderMaterial garbageMaterial (DefineObjectMaterials (freshScene ℚ)) "table" =
        some s1 ∧
      s1.m_pShaderManager = some sh1 ∧
      sh1.uniforms "material.shininess" = some (UniformValue.float 30) ∧
      SetShaderMaterial garbageMaterial s1 "missing" = some s2 ∧
      s2.m_pShaderManager = some sh2 ∧
      sh2.uniforms "material.shininess" = some (UniformValue.float garbageMaterial.shininess) ∧
      sh2.uniforms "material.ambientColor" =
        some (UniformValue.vec3 garbageMaterial.ambientColor) ∧
      sh2.uniforms "material.shininess" ≠ sh1.uniforms "material.shininess" := by
  have hmiss : ∀ (i : Nat) (m : OBJECT_MATERIAL ℚ),
      (DefineObjectMaterials (freshScene ℚ)).m_objectMaterials[i]? = some m →
      m.tag ≠ "missing" := by
    intro i m hm
    have h4 : i < 4 := (List.getElem?_eq_some.1 hm).1
    interval_cases i <;> simp [DefineObjectMaterials, freshScene] at hm <;> subst hm <;> decide
  have hne : (DefineObjectMaterials (freshScene ℚ)).m_objectMaterials ≠ [] := by
    simp [DefineObjectMaterials]
  have hfirst : ∀ (i : Nat) (m : OBJECT_MATERIAL ℚ), i < 2 →
      (DefineObjectMaterials (freshScene ℚ)).m_objectMaterials[i]? = some m →
      m.tag ≠ "table" := by
    intro i m hi hm
    interval_cases i <;> simp [DefineObjectMaterials, freshScene] at hm <;> subst hm <;> decide
  have h1 := SetShaderMaterial_eq garbageMaterial (DefineObjectMaterials (freshScene ℚ))
    { uniforms := fun _ => none } "table" _ rfl hne
    (FindMaterial_hit _ "table" garbageMaterial 2 _ rfl rfl hfirst)
  obtain ⟨s1, hs1, hsh1, hm1⟩ : ∃ s1 : SceneManager ℚ,
      SetShaderMaterial garbageMaterial (DefineObjectMaterials (freshScene ℚ)) "table" =
        some s1 ∧
      s1.m_pShaderManager = some (pushMaterial { uniforms := fun _ => none }
        (copyMaterial garbageMaterial
          { ambientColor := { x := 1, y := 1, z := 1 }
            ambientStrength := 1 / 100
            diffuseColor := { x := 1 / 10, y := 1 / 10, z := 1 / 10 }
            specularColor := { x := 2 / 10, y := 2 / 10, z := 2 / 10 }
            shininess := 30
            tag := "table" })) ∧
      s1.m_objectMaterials = (DefineObjectMaterials (freshScene ℚ)).m_objectMaterials :=
    ⟨_, h1, rfl, rfl⟩
  have hne1 : s1.m_objectMaterials ≠ [] := by rw [hm1]; exact hne
  have h2 := SetShaderMaterial_eq garbageMaterial s1 _ "missing" _ hsh1 hne1
    (FindMaterial_miss s1 "missing" garbageMaterial hne1 (by rw [hm1]; exact hmiss))
  refine ⟨s1, _, _, _, hs1, hsh1, ?_, h2, rfl, ?_, ?_, ?_⟩
  · exact (pushMaterial_uniforms _ _).2.2.2.2.1
  · exact (pushMaterial_uniforms _ _).2.2.2.2.1
  · exact (pushMaterial_uniforms _ _).1
  · rw [(pushMaterial_uniforms _ _).2.2.2.2.1, (pushMaterial_uniforms _ _).2.2.2.2.1]
    simp [garbageMaterial, copyMaterial]

/-! ## The shape of the draw steps -/

/-- The calls of `renderScript`, numeric arguments erased. -/
theorem renderScript_shape [Field R] (F : FloatOps R) :
    (renderScript F).map Call.shape = renderShape := by
  have hrange : List.range' 1 10 = [1, 2, 3, 4, 5, 6, 7, 8, 9, 10] := by decide
  simp only [renderScript, hrange, napkinCalls, List.flatMap_cons, List.flatMap_nil,
    List.map_append, List.map_cons, List.map_nil, Call.shape, Option.isSome,
    List.append_assoc, List.cons_append, List.nil_append, renderShape]

/-- The draw steps of the render script: there are 22; each has exactly one
`SetTransformations` call and ends with its only draw call; the sequence
transform, colour-or-texture, material, draw is present in steps 1 to 6 and
8 to 10 and absent from the other thirteen. -/
theorem renderShape_steps :
    (drawSteps renderShape).length = 22 ∧
    (drawSteps renderShape).all transformThenDraw = true ∧
    (drawSteps renderShape).map inSequence =
      [true, true, true, true, true, true, false, true, true, true, false, false,
       false, false, false, false, false, false, false, false, false, false] ∧
    (drawSteps renderShape)[6]? =
      some [CallShape.SetTransformations, CallShape.LoadTorusMesh true,
        CallShape.DrawTorusMesh] := by
  refine ⟨?_, ?_, ?_, ?_⟩ <;> decide

theorem freshScene_ready (R : Type) : (freshScene R).Ready :=
  ⟨rfl, by unfold InBounds freshScene; simp [blankTextures]⟩

/-- The torus calls of the render script: a load with thickness 0.03 directly
followed by a draw, a load with thickness 0.11 directly followed by a draw,
and no other torus draw. -/
theorem renderScript_torus [Field R] (F : FloatOps R) :
    ∃ A B C : List (Call R),
      renderScript F =
        A ++ [Call.LoadTorusMesh (some (3 / 100)), Call.DrawTorusMesh] ++ B ++
          [Call.LoadTorusMesh (some (11 / 100)), Call.DrawTorusMesh] ++ C ∧
      A.countP Call.isDrawTorus = 0 ∧ B.countP Call.isDrawTorus = 0 ∧
      C.countP Call.isDrawTorus = 0 := by
  have hrange : List.range' 1 10 = [1, 2, 3, 4, 5, 6, 7, 8, 9, 10] := by decide
  refine ⟨(renderScript F).take 29, ((renderScript F).drop 31).take 9,
    (renderScript F).drop 42, ?_, ?_, ?_, ?_⟩
  · simp [renderScript]
  · simp [renderScript, List.countP_cons, Call.isDrawTorus]
  · simp [renderScript, List.countP_cons, Call.isDrawTorus]
  · simp [renderScript, hrange, napkinCalls, List.countP_cons, Call.isDrawTorus]

/-- C14 (as stated, refuted). In the trace of `RenderScene` on a fresh scene
manager, the seventh draw step (the tray ring) consists of `SetTransformations`,
`LoadTorusMesh` and `DrawTorusMesh`: it has no colour-or-texture call and no
`SetShaderMaterial` call between the previous draw call and its own. -/
theorem tray_ring_step_has_no_colour_or_material :
    ∃ final, RenderScene rationalOps (blankMaterial ℚ) { x := 0, y := 0, z := 0 }
        { x := 0, y := 0, z := 0 } (freshScene ℚ) = some final ∧
      (drawSteps (final.trace.map Call.shape))[6]? =
        some [CallShape.SetTransformations, CallShape.LoadTorusMesh true,
          CallShape.DrawTorusMesh] ∧
      inSequence [CallShape.SetTransformations, CallShape.LoadTorusMesh true,
        CallShape.DrawTorusMesh] = false := by
  obtain ⟨final, hf, hx⟩ := RenderScene_run rationalOps (blankMaterial ℚ)
    { x := 0, y := 0, z := 0 } { x := 0, y := 0, z := 0 } (freshScene ℚ) (freshScene_ready ℚ)
  refine ⟨final, hf, ?_, by decide⟩
  have ht : final.trace = renderScript rationalOps := by
    rw [hx.1]; rfl
  rw [ht, renderScript_shape]
  exact renderShape_steps.2.2.2

/-- C14 (amended). With a shader manager present and the texture count within
the array, `RenderScene` returns and its trace has 22 draw steps. In every
step there is exactly one `SetTransformations` call between the previous mesh
draw call (or the start) and the draw call, which ends the step. In steps 1
to 6 and 8 to 10 (table plane, shaker bodies and caps, tray, butter dish,
butter-dish ring, first holder box) the step contains, in this order, the
`SetTransformations` call, a colour-or-texture call, a `SetShaderMaterial`
call and then the draw call; the other thirteen steps (tray ring, second and
third holder box, the ten napkins) do not contain that sequence. -/
theorem draw_steps_of_RenderScene [Field R] (F : FloatOps R) (uninit : OBJECT_MATERIAL R)
    (scaleXYZ0 positionXYZ0 : vec3 R) (self : SceneManager R) (hr : self.Ready) :
    ∃ final calls, RenderScene F uninit scaleXYZ0 positionXYZ0 self = some final ∧
      final.trace = self.trace ++ calls ∧
      (drawSteps (calls.map Call.shape)).length = 22 ∧
      (drawSteps (calls.map Call.shape)).all transformThenDraw = true ∧
      (drawSteps (calls.map Call.shape)).map inSequence =
        [true, true, true, true, true, true, false, true, true, true, false, false,
         false, false, false, false, false, false, false, false, false, false] := by
  obtain ⟨final, hf, hx⟩ := RenderScene_run F uninit scaleXYZ0 positionXYZ0 self hr
  refine ⟨final, renderScript F, hf, hx.1, ?_, ?_, ?_⟩
  · rw [renderScript_shape]; exact renderShape_steps.1
  · rw [renderScript_shape]; exact renderShape_steps.2.1
  · rw [renderScript_shape]; exact renderShape_steps.2.2.1

theorem draw_steps_of_RenderScene_witness :
    (freshScene ℚ).Ready ∧
    ∃ final calls, RenderScene rationalOps (blankMaterial ℚ) { x := 0, y := 0, z := 0 }
        { x := 0, y := 0, z := 0 } (freshScene ℚ) = some final ∧
      final.trace = (freshScene ℚ).trace ++ calls ∧
      (drawSteps (calls.map Call.shape)).length = 22 :=
  ⟨⟨rfl, by decide⟩,
    (draw_steps_of_RenderScene rationalOps (blankMaterial ℚ) { x := 0, y := 0, z := 0 }
      { x := 0, y := 0, z := 0 } (freshScene ℚ) ⟨rfl, by decide⟩).imp
      (fun _ h => h.imp (fun _ h => ⟨h.1, h.2.1, h.2.2.1⟩))⟩

/-- C15. With a shader manager present and the texture count within the
array, the calls `RenderScene` makes contain exactly two `DrawTorusMesh`
calls; each directly follows a `LoadTorusMesh` call with an explicit
thickness (so no other mesh call, and no draw call, lies between the load and
the draw), and the thickness is 0.03 for the first and 0.11 for the second,
which differ. -/
theorem torus_reloaded_before_each_draw [Field R] [CharZero R] (F : FloatOps R)
    (uninit : OBJECT_MATERIAL R) (scaleXYZ0 positionXYZ0 : vec3 R) (self : SceneManager R)
    (hr : self.Ready) :
    ∃ (final : SceneManager R) (A B C : List (Call R)),
      RenderScene F uninit scaleXYZ0 positionXYZ0 self = some final ∧
      final.trace = self.trace ++
        (A ++ [Call.LoadTorusMesh (some (3 / 100)), Call.DrawTorusMesh] ++ B ++
          [Call.LoadTorusMesh (some (11 / 100)), Call.DrawTorusMesh] ++ C) ∧
      A.countP Call.isDrawTorus = 0 ∧ B.countP Call.isDrawTorus = 0 ∧
      C.countP Call.isDrawTorus = 0 ∧
      (A ++ [Call.LoadTorusMesh (some (3 / 100)), Call.DrawTorusMesh] ++ B ++
          [Call.LoadTorusMesh (some (11 / 100)), Call.DrawTorusMesh] ++ C).countP
        Call.isDrawTorus = 2 ∧
      (3 / 100 : R) ≠ 11 / 100 := by
  obtain ⟨final, hf, hx⟩ := RenderScene_run F uninit scaleXYZ0 positionXYZ0 self hr
  obtain ⟨A, B, C, hABC, hA, hB, hC⟩ := renderScript_torus F
  refine ⟨final, A, B, C, hf, by rw [hx.1, hABC], hA, hB, hC, ?_, ?_⟩
  · rw [← hABC]; exact (renderScript_counts F).2.2.2.2.1
  · intro h
    have h2 : (3 : R) = 11 := by
      have h100 : (100 : R) ≠ 0 := by norm_num
      field_simp at h
      linarith
    norm_num at h2

theorem torus_reloaded_before_each_draw_witness :
    (freshScene ℚ).Ready ∧
    ∃ (final : SceneManager ℚ) (A B C : List (Call ℚ)),
      RenderScene rationalOps (blankMaterial ℚ) { x := 0, y := 0, z := 0 }
        { x := 0, y := 0, z := 0 } (freshScene ℚ) = some final ∧
      final.trace = (freshScene ℚ).trace ++
        (A ++ [Call.LoadTorusMesh (some (3 / 100)), Call.DrawTorusMesh] ++ B ++
          [Call.LoadTorusMesh (some (11 / 100)), Call.DrawTorusMesh] ++ C) :=
  ⟨⟨rfl, by decide⟩,
    (torus_reloaded_before_each_draw rationalOps (blankMaterial ℚ) { x := 0, y := 0, z := 0 }
      { x := 0, y := 0, z := 0 } (freshScene ℚ) ⟨rfl, by decide⟩).imp
      (fun _ h => h.imp (fun _ h => h.imp (fun _ h => h.imp (fun _ h => ⟨h.1, h.2.1⟩))))⟩

/-! ## Lookups of one frame -/

/-- An accepted file decodes to an image with 3 or 4 channels. -/
theorem accepts_image (stbi_load : String → Option StbImage) (filename : String)
    (h : accepts stbi_load filename = true) :
    ∃ image, stbi_load filename = some image ∧
      (image.colorChannels = 3 ∨ image.colorChannels = 4) := by
  unfold accepts at h
  cases hl : stbi_load filename with
  | none => rw [hl] at h; cases h
  | some image =>
    rw [hl] at h
    exact ⟨image, rfl, of_decide_eq_true h⟩

/-- On an empty registry of capacity 16, with the five files accepted,
`LoadSceneTextures` stores the five tags at the indices 0 to 4, in the order
of its calls. -/
theorem LoadSceneTextures_registry (stbi_load : String → Option StbImage)
    (self : SceneManager R)
    (hn : self.m_loadedTextures = 0) (hlen : self.m_textureIDs.length = 16)
    (h1 : accepts stbi_load "../../Utilities/textures/customTexture.jpg" = true)
    (h2 : accepts stbi_load "../../Utilities/textures/customTexture2.jpg" = true)
    (h3 : accepts stbi_load "../../Utilities/textures/table_wood.jpg" = true)
    (h4 : accepts stbi_load "../../Utilities/textures/butter_tray.jpg" = true)
    (h5 : accepts stbi_load "../../Utilities/textures/napkin_holder.jpg" = true) :
    ∃ (s : SceneManager R) (a b c d e : Nat), LoadSceneTextures stbi_load self = some s ∧
      s.m_loadedTextures = 5 ∧ s.m_textureIDs.length = 16 ∧
      s.m_textureIDs[0]? = some { tag := "customTexture", ID := a } ∧
      s.m_textureIDs[1]? = some { tag := "customTexture2", ID := b } ∧
      s.m_textureIDs[2]? = some { tag := "table_wood", ID := c } ∧
      s.m_textureIDs[3]? = some { tag := "butter_tray", ID := d } ∧
      s.m_textureIDs[4]? = some { tag := "napkin_holder", ID := e } ∧
      s.m_pShaderManager = self.m_pShaderManager ∧
      s.m_objectMaterials = self.m_objectMaterials ∧ s.trace = self.trace := by
  obtain ⟨i1, l1, c1⟩ := accepts_image stbi_load _ h1
  obtain ⟨i2, l2, c2⟩ := accepts_image stbi_load _ h2
  obtain ⟨i3, l3, c3⟩ := accepts_image stbi_load _ h3
  obtain ⟨i4, l4, c4⟩ := accepts_image stbi_load _ h4
  obtain ⟨i5, l5, c5⟩ := accepts_image stbi_load _ h5
  obtain ⟨s1, e1, n1, a1, p1, m1, t1, -⟩ :=
    CreateGLTexture_ok stbi_load self _ "customTexture" i1 (by omega) (by omega) l1 c1
  obtain ⟨s2, e2, n2, a2, p2, m2, t2, -⟩ :=
    CreateGLTexture_ok stbi_load s1 _ "customTexture2" i2 (by omega)
      (by rw [a1, List.length_set]; omega) l2 c2
  obtain ⟨s3, e3, n3, a3, p3, m3, t3, -⟩ :=
    CreateGLTexture_ok stbi_load s2 _ "table_wood" i3 (by omega)
      (by rw [a2, List.length_set, a1, List.length_set]; omega) l3 c3
  obtain ⟨s4, e4, n4, a4, p4, m4, t4, -⟩ :=
    CreateGLTexture_ok stbi_load s3 _ "butter_tray" i4 (by omega)
      (by rw [a3, List.length_set, a2, List.length_set, a1, List.length_set]; omega) l4 c4
  obtain ⟨s5, e5, n5, a5, p5, m5, t5, -⟩ :=
    CreateGLTexture_ok stbi_load s4 _ "napkin_holder" i5 (by omega)
      (by rw [a4, List.length_set, a3, List.length_set, a2, List.length_set, a1,
        List.length_set]; omega) l5 c5
  have k1 : self.m_loadedTextures.toNat = 0 := by omega
  have k2 : s1.m_loadedTextures.toNat = 1 := by omega
  have k3 : s2.m_loadedTextures.toNat = 2 := by omega
  have k4 : s3.m_loadedTextures.toNat = 3 := by omega
  have k5 : s4.m_loadedTextures.toNat = 4 := by omega
  rw [k1] at a1
  rw [k2, a1] at a2
  rw [k3, a2] at a3
  rw [k4, a3] at a4
  rw [k5, a4] at a5
  have hlen5 : s5.m_textureIDs.length = 16 := by
    rw [a5]; simp only [List.length_set]; exact hlen
  have hb : s5.InBounds := ⟨by omega, by omega⟩
  obtain ⟨s6, e6, a6, n6, p6, m6, t6, -⟩ := BindGLTextures_spec s5 hb
  refine ⟨s6, self.gl.glGenTextures.1, s1.gl.glGenTextures.1, s2.gl.glGenTextures.1,
    s3.gl.glGenTextures.1, s4.gl.glGenTextures.1, ?_, by omega, by rw [a6]; exact hlen5, ?_, ?_, ?_, ?_, ?_,
    by rw [p6, p5, p4, p3, p2, p1], by rw [m6, m5, m4, m3, m2, m1],
    by rw [t6, t5, t4, t3, t2, t1]⟩
  · simp only [LoadSceneTextures, e1, e2, e3, e4, e5, e6, Option.bind_eq_bind,
      Option.some_bind]
  all_goals
    rw [a6, a5]
    simp [List.getElem?_set, hlen]

/-- The tags of the lookups of the render script: six texture tags (the empty
one among them) and four material tags. -/
theorem renderShape_tags :
    (∀ tag ∈ textureTags renderShape, tag ∈ ["customTexture", "customTexture2",
      "table_wood", "butter_tray", "napkin_holder", ""]) ∧
    (∀ tag ∈ ["customTexture", "customTexture2", "table_wood", "butter_tray",
      "napkin_holder", ""], tag ∈ textureTags renderShape) ∧
    (∀ tag ∈ materialTags renderShape, tag ∈ ["table", "design", "brown", "napkin"]) ∧
    (∀ tag ∈ ["table", "design", "brown", "napkin"], tag ∈ materialTags renderShape) := by
  refine ⟨?_, ?_, ?_, ?_⟩ <;> decide

/-- A `SetShaderTexture` call of the render script has its tag among the
texture tags of `renderShape`. -/
theorem textureTag_of_renderScript [Field R] (F : FloatOps R) (tag : String) :
    Call.SetShaderTexture tag ∈ renderScript F ↔ tag ∈ textureTags renderShape := by
  rw [← renderScript_shape F]
  unfold textureTags
  simp only [List.mem_filterMap, List.mem_map]
  constructor
  · intro h
    exact ⟨_, ⟨_, h, rfl⟩, rfl⟩
  · rintro ⟨c, ⟨a, ha, rfl⟩, hc⟩
    cases a <;> simp [Call.shape] at hc
    subst hc
    exact ha

/-- A `SetShaderMaterial` call of the render script has its tag among the
material tags of `renderShape`. -/
theorem materialTag_of_renderScript [Field R] (F : FloatOps R) (tag : String) :
    Call.SetShaderMaterial tag ∈ renderScript F ↔ tag ∈ materialTags renderShape := by
  rw [← renderScript_shape F]
  unfold materialTags
  simp only [List.mem_filterMap, List.mem_map]
  constructor
  · intro h
    exact ⟨_, ⟨_, h, rfl⟩, rfl⟩
  · rintro ⟨c, ⟨a, ha, rfl⟩, hc⟩
    cases a <;> simp [Call.shape] at hc
    subst hc
    exact ha

/-- The slots found in a registry that holds the five tags at the indices 0 to 4. -/
theorem FindTextureSlot_five (s : SceneManager R) (a b c d e : Nat)
    (hn : s.m_loadedTextures = 5) (hlen : s.m_textureIDs.length = 16)
    (e0 : s.m_textureIDs[0]? = some { tag := "customTexture", ID := a })
    (e1 : s.m_textureIDs[1]? = some { tag := "customTexture2", ID := b })
    (e2 : s.m_textureIDs[2]? = some { tag := "table_wood", ID := c })
    (e3 : s.m_textureIDs[3]? = some { tag := "butter_tray", ID := d })
    (e4 : s.m_textureIDs[4]? = some { tag := "napkin_holder", ID := e }) :
    FindTextureSlot s "customTexture" = some 0 ∧
    FindTextureSlot s "customTexture2" = some 1 ∧
    FindTextureSlot s "table_wood" = some 2 ∧
    FindTextureSlot s "butter_tray" = some 3 ∧
    FindTextureSlot s "napkin_holder" = some 4 ∧
    FindTextureSlot s "" = some (-1) := by
  have hcap : s.m_loadedTextures ≤ s.m_textureIDs.length := by omega
  have htags : ∀ (i : Nat) (e' : TEXTURE_INFO), s.entryAt i = some e' →
      (i = 0 ∧ e'.tag = "customTexture") ∨ (i = 1 ∧ e'.tag = "customTexture2") ∨
      (i = 2 ∧ e'.tag = "table_wood") ∨ (i = 3 ∧ e'.tag = "butter_tray") ∨
      (i = 4 ∧ e'.tag = "napkin_holder") := by
    intro i e' h
    obtain ⟨hi, hget⟩ := entryAt_some h
    have hi5 : i < 5 := by omega
    interval_cases i
    · rw [e0] at hget; cases hget; simp
    · rw [e1] at hget; cases hget; simp
    · rw [e2] at hget; cases hget; simp
    · rw [e3] at hget; cases hget; simp
    · rw [e4] at hget; cases hget; simp
  have hentry : ∀ (i : Nat) (x : TEXTURE_INFO), i < 5 → s.m_textureIDs[i]? = some x →
      s.entryAt i = some x := by
    intro i x hi hx
    have : (i : Int) < s.m_loadedTextures := by omega
    simp [entryAt, this, hx]
  refine ⟨?_, ?_, ?_, ?_, ?_, ?_⟩
  · refine FindTextureSlot_hit s _ 0 _ hcap (hentry 0 _ (by omega) e0) rfl ?_
    intro i e' hi; omega
  · refine FindTextureSlot_hit s _ 1 _ hcap (hentry 1 _ (by omega) e1) rfl ?_
    intro i e' hi h
    rcases htags i e' h with ⟨h1, h2⟩ | ⟨h1, h2⟩ | ⟨h1, h2⟩ | ⟨h1, h2⟩ | ⟨h1, h2⟩ <;>
      first | omega | (rw [h2]; decide)
  · refine FindTextureSlot_hit s _ 2 _ hcap (hentry 2 _ (by omega) e2) rfl ?_
    intro i e' hi h
    rcases htags i e' h with ⟨h1, h2⟩ | ⟨h1, h2⟩ | ⟨h1, h2⟩ | ⟨h1, h2⟩ | ⟨h1, h2⟩ <;>
      first | omega | (rw [h2]; decide)
  · refine FindTextureSlot_hit s _ 3 _ hcap (hentry 3 _ (by omega) e3) rfl ?_
    intro i e' hi h
    rcases htags i e' h with ⟨h1, h2⟩ | ⟨h1, h2⟩ | ⟨h1, h2⟩ | ⟨h1, h2⟩ | ⟨h1, h2⟩ <;>
      first | omega | (rw [h2]; decide)
  · refine FindTextureSlot_hit s _ 4 _ hcap (hentry 4 _ (by omega) e4) rfl ?_
    intro i e' hi h
    rcases htags i e' h with ⟨h1, h2⟩ | ⟨h1, h2⟩ | ⟨h1, h2⟩ | ⟨h1, h2⟩ | ⟨h1, h2⟩ <;>
      first | omega | (rw [h2]; decide)
  · refine FindTextureSlot_miss s _ hcap ?_
    intro i e' h
    rcases htags i e' h with ⟨h1, h2⟩ | ⟨h1, h2⟩ | ⟨h1, h2⟩ | ⟨h1, h2⟩ | ⟨h1, h2⟩ <;>
      (rw [h2]; decide)

/-- On the four materials of `DefineObjectMaterials`, and nothing before them,
each of the four tags is found at its own index. -/
theorem FindMaterial_defined [Field R] (s0 : SceneManager R) (hmat : s0.m_objectMaterials = [])
    (material : OBJECT_MATERIAL R) (tag : String)
    (htag : tag ∈ ["table", "design", "brown", "napkin"]) :
    ∃ (k : Nat) (mk : OBJECT_MATERIAL R),
      (DefineObjectMaterials s0).m_objectMaterials[k]? = some mk ∧ mk.tag = tag ∧
      FindMaterial (DefineObjectMaterials s0) tag material =
        some (true, copyMaterial material mk) := by
  have hlist : (DefineObjectMaterials s0).m_objectMaterials.map (fun m => m.tag) =
      ["design", "brown", "table", "napkin"] := by
    simp [DefineObjectMaterials, hmat]
  have hlen : (DefineObjectMaterials s0).m_objectMaterials.length = 4 := by
    simp [DefineObjectMaterials, hmat]
  have htagAt : ∀ (i : Nat) (m : OBJECT_MATERIAL R),
      (DefineObjectMaterials s0).m_objectMaterials[i]? = some m →
      ["design", "brown", "table", "napkin"][i]? = some m.tag := by
    intro i m h
    rw [← hlist, List.getElem?_map, h]; rfl
  have hex : ∀ i : Nat, i < 4 → ∃ m, (DefineObjectMaterials s0).m_objectMaterials[i]? = some m :=
    fun i hi => ⟨_, List.getElem?_eq_getElem (by omega)⟩
  have key : ∀ (k : Nat), k < 4 → ["design", "brown", "table", "napkin"][k]? = some tag →
      (∀ i : Nat, i < k → ["design", "brown", "table", "napkin"][i]? ≠ some tag) →
      ∃ (k : Nat) (mk : OBJECT_MATERIAL R),
        (DefineObjectMaterials s0).m_objectMaterials[k]? = some mk ∧ mk.tag = tag ∧
        FindMaterial (DefineObjectMaterials s0) tag material =
          some (true, copyMaterial material mk) := by
    intro k hk hkt hfirst
    obtain ⟨mk, hmk⟩ := hex k hk
    have ht : mk.tag = tag := by
      have := htagAt k mk hmk
      rw [hkt] at this
      exact (Option.some.inj this).symm
    refine ⟨k, mk, hmk, ht, FindMaterial_hit _ tag material k mk hmk ht ?_⟩
    intro i m hi hm hmt
    exact hfirst i hi (by rw [htagAt i m hm, hmt])
  simp only [List.mem_cons, List.mem_singleton, List.not_mem_nil, or_false] at htag
  rcases htag with rfl | rfl | rfl | rfl
  · exact key 2 (by omega) rfl (by decide)
  · exact key 0 (by omega) rfl (by decide)
  · exact key 1 (by omega) rfl (by decide)
  · exact key 3 (by omega) rfl (by decide)

/-- C18. Start from an empty registry of capacity 16 and an empty material
list, with the five image files accepted. After `LoadSceneTextures` and
`DefineObjectMaterials` the five texture tags resolve to the slots 0 to 4 in
the order customTexture, customTexture2, table_wood, butter_tray,
napkin_holder; every texture tag that the calls of `RenderScene` pass to
`SetShaderTexture` is the empty tag, which resolves to no slot (-1), or
resolves to a slot from 0 to 4, below the capacity 16; every material tag
that they pass to `SetShaderMaterial` is one of table, design, brown, napkin
and is found among the defined materials; and with a shader manager present
`RenderScene` returns having issued exactly the calls of `renderScript`. -/
theorem RenderScene_lookups_resolve [Field R] (F : FloatOps R) (uninit : OBJECT_MATERIAL R)
    (stbi_load : String → Option StbImage) (scaleXYZ0 positionXYZ0 : vec3 R)
    (self : SceneManager R)
    (hn : self.m_loadedTextures = 0) (hlen : self.m_textureIDs.length = 16)
    (hmat : self.m_objectMaterials = [])
    (h1 : accepts stbi_load "../../Utilities/textures/customTexture.jpg" = true)
    (h2 : accepts stbi_load "../../Utilities/textures/customTexture2.jpg" = true)
    (h3 : accepts stbi_load "../../Utilities/textures/table_wood.jpg" = true)
    (h4 : accepts stbi_load "../../Utilities/textures/butter_tray.jpg" = true)
    (h5 : accepts stbi_load "../../Utilities/textures/napkin_holder.jpg" = true) :
    ∃ s0 s : SceneManager R, LoadSceneTextures stbi_load self = some s0 ∧
      s = DefineObjectMaterials s0 ∧
      FindTextureSlot s "customTexture" = some 0 ∧
      FindTextureSlot s "customTexture2" = some 1 ∧
      FindTextureSlot s "table_wood" = some 2 ∧
      FindTextureSlot s "butter_tray" = some 3 ∧
      FindTextureSlot s "napkin_holder" = some 4 ∧
      FindTextureSlot s "" = some (-1) ∧
      Call.SetShaderTexture "" ∈ renderScript F ∧
      (∀ tag : String, Call.SetShaderTexture tag ∈ renderScript F → tag ≠ "" →
        ∃ slot : Int, FindTextureSlot s tag = some slot ∧ 0 ≤ slot ∧ slot ≤ 4 ∧
          slot < s.m_textureIDs.length ∧ s.m_textureIDs.length = 16) ∧
      (∀ tag : String, Call.SetShaderMaterial tag ∈ renderScript F →
        tag ∈ ["table", "design", "brown", "napkin"] ∧
        ∃ (k : Nat) (mk : OBJECT_MATERIAL R), s.m_objectMaterials[k]? = some mk ∧
          mk.tag = tag ∧ FindMaterial s tag uninit = some (true, copyMaterial uninit mk)) ∧
      (∀ tag ∈ ["table", "design", "brown", "napkin"],
        Call.SetShaderMaterial tag ∈ renderScript F) ∧
      (self.m_pShaderManager.isSome = true →
        Returns (RenderScene F uninit scaleXYZ0 positionXYZ0 s) (fun final =>
          final.trace = s.trace ++ renderScript F ∧
          final.m_loadedTextures = s.m_loadedTextures ∧
          final.m_textureIDs = s.m_textureIDs ∧
          final.m_objectMaterials = s.m_objectMaterials)) := by
  obtain ⟨s0, a, b, c, d, e, hs0, n0, l0, e0, e1, e2, e3, e4, p0, m0, -⟩ :=
    LoadSceneTextures_registry stbi_load self hn hlen h1 h2 h3 h4 h5
  have hm0 : s0.m_objectMaterials = [] := by rw [m0, hmat]
  obtain ⟨f0, f1, f2, f3, f4, f5⟩ :=
    FindTextureSlot_five (DefineObjectMaterials s0) a b c d e n0 l0 e0 e1 e2 e3 e4
  obtain ⟨t1, t2, t3, t4⟩ := renderShape_tags
  refine ⟨s0, DefineObjectMaterials s0, hs0, rfl, f0, f1, f2, f3, f4, f5, ?_, ?_, ?_, ?_, ?_⟩
  · exact (textureTag_of_renderScript F "").2 (t2 "" (by decide))
  · intro tag htag hne
    have hmem := t1 tag ((textureTag_of_renderScript F tag).1 htag)
    have hl : ((DefineObjectMaterials s0).m_textureIDs.length : Int) = 16 := by
      have : (DefineObjectMaterials s0).m_textureIDs.length = 16 := l0
      omega
    simp only [List.mem_cons, List.mem_singleton, List.not_mem_nil, or_false] at hmem
    rcases hmem with rfl | rfl | rfl | rfl | rfl | rfl
    · exact ⟨0, f0, by omega, by omega, by omega, l0⟩
    · exact ⟨1, f1, by omega, by omega, by omega, l0⟩
    · exact ⟨2, f2, by omega, by omega, by omega, l0⟩
    · exact ⟨3, f3, by omega, by omega, by omega, l0⟩
    · exact ⟨4, f4, by omega, by omega, by omega, l0⟩
    · exact absurd rfl hne
  · intro tag htag
    have hmem := t3 tag ((materialTag_of_renderScript F tag).1 htag)
    exact ⟨hmem, FindMaterial_defined s0 hm0 uninit tag hmem⟩
  · intro tag htag
    exact (materialTag_of_renderScript F tag).2 (t4 tag htag)
  · intro hsh
    have hr : (DefineObjectMaterials s0).Ready :=
      ⟨by rw [← p0] at hsh; exact hsh, ⟨by rw [show (DefineObjectMaterials s0).m_loadedTextures = 5 from n0]; omega,
        by rw [show (DefineObjectMaterials s0).m_loadedTextures = 5 from n0,
          show (DefineObjectMaterials s0).m_textureIDs.length = 16 from l0]; omega⟩⟩
    obtain ⟨final, hf, hx⟩ :=
      RenderScene_run F uninit scaleXYZ0 positionXYZ0 (DefineObjectMaterials s0) hr
    exact ⟨final, hf, hx.1, hx.2.1, hx.2.2.1, hx.2.2.2.1⟩

theorem RenderScene_lookups_resolve_witness :
    (freshScene ℚ).m_loadedTextures = 0 ∧ (freshScene ℚ).m_textureIDs.length = 16 ∧
    (freshScene ℚ).m_objectMaterials = [] ∧
    accepts (decodeAll 3) "../../Utilities/textures/customTexture.jpg" = true ∧
    accepts (decodeAll 3) "../../Utilities/textures/customTexture2.jpg" = true ∧
    accepts (decodeAll 3) "../../Utilities/textures/table_wood.jpg" = true ∧
    accepts (decodeAll 3) "../../Utilities/textures/butter_tray.jpg" = true ∧
    accepts (decodeAll 3) "../../Utilities/textures/napkin_holder.jpg" = true ∧
    ∃ s0 s : SceneManager ℚ, LoadSceneTextures (decodeAll 3) (freshScene ℚ) = some s0 ∧
      s = DefineObjectMaterials s0 ∧
      FindTextureSlot s "table_wood" = some 2 ∧
      FindTextureSlot s "" = some (-1) :=
  ⟨rfl, rfl, rfl, rfl, rfl, rfl, rfl, rfl,
    (RenderScene_lookups_resolve rationalOps (blankMaterial ℚ) (decodeAll 3)
      { x := 1, y := 1, z := 1 } { x := 0, y := 0, z := 0 } (freshScene ℚ)
      rfl rfl rfl rfl rfl rfl rfl rfl).imp
      (fun _ h => h.imp (fun _ h => ⟨h.1, h.2.1, h.2.2.2.2.1, h.2.2.2.2.2.2.2.1⟩))⟩

/-! ## The napkin positions -/

/-- The cosine of 20 degrees lies between 0.9395 and 0.9399. -/
theorem cos_twenty_degrees :
    9395 / 10000 < Real.cos (Real.pi / 9) ∧ Real.cos (Real.pi / 9) < 9399 / 10000 := by
  have h3 : Real.cos (3 * (Real.pi / 9)) = 1 / 2 := by
    rw [show 3 * (Real.pi / 9) = Real.pi / 3 by ring]
    exact Real.cos_pi_div_three
  rw [Real.cos_three_mul] at h3
  have hpi : Real.pi < 3141593 / 1000000 := by
    have := Real.pi_lt_d6; norm_num at this; linarith
  have hpi0 : 0 < Real.pi := Real.pi_pos
  have hlow : 1 - (Real.pi / 9) ^ 2 / 2 ≤ Real.cos (Real.pi / 9) :=
    Real.one_sub_sq_div_two_le_cos
  have hx : Real.pi / 9 < 35 / 100 := by linarith
  have hx0 : 0 < Real.pi / 9 := by positivity
  have hc : 9 / 10 < Real.cos (Real.pi / 9) := by nlinarith
  have hc1 : Real.cos (Real.pi / 9) ≤ 1 := Real.cos_le_one _
  constructor
  · by_contra hcon
    push_neg at hcon
    nlinarith [mul_pos (sub_pos.2 hc) (sub_pos.2 hc), sq_nonneg (Real.cos (Real.pi / 9))]
  · by_contra hcon
    push_neg at hcon
    nlinarith [mul_pos (sub_pos.2 hc) (sub_pos.2 hc), sq_nonneg (Real.cos (Real.pi / 9))]

/-- The tangent of 20 degrees lies between 0.3631 and 0.3649. -/
theorem tan_twenty_degrees :
    3631 / 10000 < Real.tan (Real.pi / 9) ∧ Real.tan (Real.pi / 9) < 3649 / 10000 := by
  obtain ⟨hc1, hc2⟩ := cos_twenty_degrees
  have hcpos : 0 < Real.cos (Real.pi / 9) := by linarith
  have hpi : Real.pi < 3141593 / 1000000 := by
    have := Real.pi_lt_d6; norm_num at this; linarith
  have hs : 0 ≤ Real.sin (Real.pi / 9) :=
    Real.sin_nonneg_of_nonneg_of_le_pi (by positivity) (by linarith [Real.pi_pos])
  have hsc := Real.sin_sq_add_cos_sq (Real.pi / 9)
  rw [Real.tan_eq_sin_div_cos, lt_div_iff₀ hcpos, div_lt_iff₀ hcpos]
  constructor <;> nlinarith

/-- Between 0 and 0.35 the tangent grows, by at most twice the distance. -/
theorem tan_sub_bounds (a b : ℝ) (ha0 : 0 < a) (hab : a ≤ b) (hb1 : b < 35 / 100) :
    0 ≤ Real.tan b - Real.tan a ∧ Real.tan b - Real.tan a ≤ 2 * (b - a) := by
  have hab0 : 0 ≤ b - a := by linarith
  have hca : 9 / 10 < Real.cos a := by
    have := @Real.one_sub_sq_div_two_le_cos a
    nlinarith
  have hcb : 9 / 10 < Real.cos b := by
    have := @Real.one_sub_sq_div_two_le_cos b
    nlinarith
  have hs0 : 0 ≤ Real.sin (b - a) :=
    Real.sin_nonneg_of_nonneg_of_le_pi hab0 (by linarith [Real.pi_gt_three])
  have hs1 : Real.sin (b - a) ≤ b - a := Real.sin_le hab0
  have hcapos : 0 < Real.cos a := by linarith
  have hcbpos : 0 < Real.cos b := by linarith
  have hdiff : Real.tan b - Real.tan a = Real.sin (b - a) / (Real.cos a * Real.cos b) := by
    rw [Real.tan_eq_sin_div_cos, Real.tan_eq_sin_div_cos, Real.sin_sub,
      div_sub_div _ _ hcbpos.ne' hcapos.ne']
    congr 1
    ring
  have hprod : 81 / 100 < Real.cos a * Real.cos b := by nlinarith
  rw [hdiff]
  constructor
  · exact div_nonneg hs0 (by linarith)
  · rw [div_le_iff₀ (by linarith)]
    nlinarith

/-- The tangent at the code's angle, 20 * 3.14159 / 180, is below the tangent
of 20 degrees by at most 0.000004. -/
theorem tan_code_angle :
    0 ≤ Real.tan (Real.pi / 9) - Real.tan (20 * (314159 / 100000) / 180) ∧
    Real.tan (Real.pi / 9) - Real.tan (20 * (314159 / 100000) / 180) ≤ 4 / 1000000 := by
  have hpi1 : (3141592 : ℝ) / 1000000 < Real.pi := by
    have := Real.pi_gt_d6; norm_num at this; linarith
  have hpi2 : Real.pi < 3141593 / 1000000 := by
    have := Real.pi_lt_d6; norm_num at this; linarith
  obtain ⟨h0, h1⟩ := tan_sub_bounds (20 * (314159 / 100000) / 180) (Real.pi / 9)
    (by norm_num) (by linarith) (by linarith)
  exact ⟨h0, by linarith⟩

/-- C13. Over the reals, with a shader manager present and the texture count
within the array, `RenderScene` returns and its last twenty calls are the ten
napkin steps: for every index `i` from 1 to 10 a `SetTransformations` with
scale (3, 3, 2.5), rotations 90, 0, -20 and position `(Xpos_i, 4, -Zpos_i)`,
followed by a plane draw, where `Zpos_i = i / 6` and `Xpos_i`, computed by the
code as `-1 + tan(-20 * 3.14159 / 180) * Zpos_i`, is within 0.001 of
`-1 + tan(-20 * pi / 180) * Zpos_i`; for `i = 6`, `Zpos = 1` and `Xpos` is
within 0.001 of -1.364. -/
theorem napkin_positions (F : FloatOps ℝ) (uninit : OBJECT_MATERIAL ℝ)
    (scaleXYZ0 positionXYZ0 : vec3 ℝ) (self : SceneManager ℝ)
    (hF : F = { cos := Real.cos, sin := Real.sin, tan := Real.tan, sqrt := Real.sqrt,
                pi := Real.pi })
    (hr : self.Ready) :
    ∃ (final : SceneManager ℝ) (before : List (Call ℝ)) (Xpos Zpos : Nat → ℝ),
      RenderScene F uninit scaleXYZ0 positionXYZ0 self = some final ∧
      final.trace = before ++ (List.range' 1 10).flatMap (fun i =>
        ([Call.SetTransformations { x := 3, y := 3, z := 25 / 10 } 90 0 (-20)
            { x := Xpos i, y := 4, z := -Zpos i },
          Call.DrawPlaneMesh] : List (Call ℝ))) ∧
      (∀ i : Nat, Zpos i = (i : ℝ) / 6 ∧
        Xpos i = -1 + F.tan (-20 * (314159 / 100000) / 180) * Zpos i) ∧
      (∀ i : Nat, 1 ≤ i → i ≤ 10 →
        |Xpos i - (-1 + Real.tan (-20 * Real.pi / 180) * Zpos i)| ≤ 1 / 1000) ∧
      Zpos 6 = 1 ∧ |Xpos 6 - (-1364 / 1000)| ≤ 1 / 1000 := by
  obtain ⟨final, hfinal, hx⟩ := RenderScene_run F uninit scaleXYZ0 positionXYZ0 self hr
  obtain ⟨h0, h1⟩ := tan_code_angle
  obtain ⟨t0, t1⟩ := tan_twenty_degrees
  have hcode : F.tan (-20 * (314159 / 100000) / 180) =
      -Real.tan (20 * (314159 / 100000) / 180) := by
    rw [hF]
    show Real.tan (-20 * (314159 / 100000) / 180) = _
    rw [show (-20 * (314159 / 100000) / 180 : ℝ) = -(20 * (314159 / 100000) / 180) by ring,
      Real.tan_neg]
  have hideal : Real.tan (-20 * Real.pi / 180) = -Real.tan (Real.pi / 9) := by
    rw [show (-20 * Real.pi / 180 : ℝ) = -(Real.pi / 9) by ring, Real.tan_neg]
  have htrace : ∃ before : List (Call ℝ), final.trace = before ++
      (List.range' 1 10).flatMap (napkinCalls F { x := 3, y := 3, z := 25 / 10 } 90 0 (-20)) := by
    exact ⟨_, by rw [hx.1]; unfold renderScript; exact (List.append_assoc _ _ _).symm⟩
  obtain ⟨before, hbefore⟩ := htrace
  refine ⟨final, before, fun i => -1 + F.tan (-20 * (314159 / 100000) / 180) * ((i : ℝ) / 6),
    fun i => (i : ℝ) / 6, hfinal, hbefore, fun i => ⟨rfl, rfl⟩, ?_, by norm_num, ?_⟩
  · intro i hi1 hi10
    have hi : (0 : ℝ) ≤ (i : ℝ) / 6 := by positivity
    have hi' : (i : ℝ) / 6 ≤ 10 / 6 := by
      have : (i : ℝ) ≤ 10 := by exact_mod_cast hi10
      linarith
    rw [hcode, hideal, abs_le]
    constructor <;> nlinarith
  · show |(-1 + F.tan (-20 * (314159 / 100000) / 180) * (((6 : Nat) : ℝ) / 6)) -
      (-1364 / 1000)| ≤ 1 / 1000
    rw [hcode, abs_le]
    norm_num
    constructor <;> linarith

theorem napkin_positions_witness :
    (freshScene ℝ).Ready ∧
    ∃ (final : SceneManager ℝ) (Xpos : Nat → ℝ),
      RenderScene
        { cos := Real.cos, sin := Real.sin, tan := Real.tan, sqrt := Real.sqrt, pi := Real.pi }
        (blankMaterial ℝ) { x := 0, y := 0, z := 0 }
        { x := 0, y := 0, z := 0 } (freshScene ℝ) = some final ∧
      |Xpos 6 - (-1364 / 1000)| ≤ 1 / 1000 :=
  ⟨freshScene_ready ℝ,
    (napkin_positions _ (blankMaterial ℝ) { x := 0, y := 0, z := 0 }
      { x := 0, y := 0, z := 0 } (freshScene ℝ) rfl (freshScene_ready ℝ)).elim
      (fun final h => h.elim (fun _ h => h.elim (fun Xpos h => h.elim (fun _ h =>
        ⟨final, Xpos, h.1, h.2.2.2.2.2⟩))))⟩

/-! ## Uniforms carried from one draw step to the next -/

/-- `RenderScene` is its draw steps up to the pepper shaker cap, the tray, the
tray ring and the draw steps after it, run in this order. -/
theorem RenderScene_split [Field R] (F : FloatOps R) (uninit : OBJECT_MATERIAL R)
    (scaleXYZ0 positionXYZ0 : vec3 R) (self : SceneManager R) :
    RenderScene F uninit scaleXYZ0 positionXYZ0 self =
      (RenderScene.throughPepperCap F uninit
        { scaleXYZ := scaleXYZ0, XrotationDegrees := 0, YrotationDegrees := 0,
          ZrotationDegrees := 0, positionXYZ := positionXYZ0 } self).bind fun cap =>
      (RenderScene.tray F uninit cap.1 cap.2).bind fun cylinder =>
      (RenderScene.trayRing F cylinder.1 cylinder.2).bind fun torus =>
      RenderScene.afterTrayRing F uninit torus.1 torus.2 := by
  simp only [RenderScene, RenderScene.throughPepperCap, RenderScene.afterTrayRing,
    Option.bind_assoc]

/-- With a shader manager present, `SetTransformations` writes the uniform
`model` and no other. -/
theorem SetTransformations_uniforms [Field R] (F : FloatOps R) (self : SceneManager R)
    (sh : ShaderManager R) (s : vec3 R) (x y z : R) (p : vec3 R)
    (hsh : self.m_pShaderManager = some sh) :
    ∃ sh', (SetTransformations F self s x y z p).m_pShaderManager = some sh' ∧
      ∀ name, name ≠ g_ModelName → sh'.uniforms name = sh.uniforms name := by
  rw [SetTransformations_eq F self sh s x y z p hsh]
  exact ⟨_, rfl, fun name hne => by simp [ShaderManager.setMat4Value, ShaderManager.set, hne]⟩

/-- With a shader manager present, `SetTextureUVScale` writes the uniform
`UVscale` and no other. -/
theorem SetTextureUVScale_uniforms (self : SceneManager R) (sh : ShaderManager R) (u v : R)
    (hsh : self.m_pShaderManager = some sh) :
    ∃ sh', (SetTextureUVScale self u v).m_pShaderManager = some sh' ∧
      sh'.uniforms "UVscale" = some (UniformValue.vec2 { x := u, y := v }) ∧
      ∀ name, name ≠ "UVscale" → sh'.uniforms name = sh.uniforms name := by
  simp only [SetTextureUVScale, hsh]
  exact ⟨_, rfl, by simp [ShaderManager.setVec2Value, ShaderManager.set],
    fun name hne => by simp [ShaderManager.setVec2Value, ShaderManager.set, hne]⟩

/-- With a shader manager present and the registry within its bounds,
`SetShaderTexture` returns, having written `bUseTexture` and `objectTexture`
and no other uniform. -/
theorem SetShaderTexture_uniforms (self : SceneManager R) (sh : ShaderManager R)
    (tag : String) (hsh : self.m_pShaderManager = some sh) (hb : self.InBounds) :
    ∃ s' sh' slot, SetShaderTexture self tag = some s' ∧
      FindTextureSlot self tag = some slot ∧
      s'.m_pShaderManager = some sh' ∧
      sh'.uniforms g_UseTextureName = some (UniformValue.int 1) ∧
      sh'.uniforms g_TextureValueName = some (UniformValue.sampler2D slot) ∧
      (∀ name, name ≠ g_UseTextureName → name ≠ g_TextureValueName →
        sh'.uniforms name = sh.uniforms name) ∧
      Extends self s' [Call.SetShaderTexture tag] := by
  obtain ⟨slot, hslot, -⟩ := FindTextureSlot_returns self tag hb
  refine ⟨_, _, slot, SetShaderTexture_eq self sh tag slot hsh hslot, hslot, rfl, ?_, ?_, ?_,
    ⟨rfl, rfl, rfl, rfl, rfl, by simp [hsh]⟩⟩
  · simp [ShaderManager.setSampler2DValue, ShaderManager.setIntValue, ShaderManager.set,
      g_UseTextureName, g_TextureValueName]
  · simp [ShaderManager.setSampler2DValue, ShaderManager.setIntValue, ShaderManager.set]
  · intro name h1 h2
    simp [ShaderManager.setSampler2DValue, ShaderManager.setIntValue, ShaderManager.set,
      h1, h2]

/-- With a shader manager present and a non-empty material list,
`SetShaderMaterial` returns, having uploaded what `FindMaterial` left in the
local record. -/
theorem SetShaderMaterial_uniforms (uninit : OBJECT_MATERIAL R) (self : SceneManager R)
    (sh : ShaderManager R) (tag : String) (hsh : self.m_pShaderManager = some sh)
    (hne : self.m_objectMaterials ≠ []) :
    ∃ s' out, SetShaderMaterial uninit self tag = some s' ∧
      FindMaterial self tag uninit = some (true, out) ∧
      s'.m_pShaderManager = some (pushMaterial sh out) ∧
      Extends self s' [Call.SetShaderMaterial tag] := by
  obtain ⟨out, hout⟩ := FindMaterial_nonempty self tag uninit hne
  exact ⟨_, out, SetShaderMaterial_eq uninit self sh tag out hsh hne hout, hout, rfl,
    ⟨rfl, rfl, rfl, rfl, rfl, by simp [hsh]⟩⟩

/-- The pepper shaker cap step leaves `UVscale` at (4, 3). -/
theorem pepperCap_uniforms [Field R] (F : FloatOps R) (uninit : OBJECT_MATERIAL R)
    (l : RenderScene.Locals R) (self : SceneManager R) (hr : self.Ready)
    (hne : self.m_objectMaterials ≠ []) :
    ∃ r sh', RenderScene.pepperCap F uninit l self = some r ∧
      r.2.m_pShaderManager = some sh' ∧
      sh'.uniforms "UVscale" = some (UniformValue.vec2 ({ x := 4, y := 3 } : vec2 R)) := by
  obtain ⟨sh, hsh⟩ := Option.isSome_iff_exists.1 hr.1
  obtain ⟨sh1, h1, -⟩ := SetTransformations_uniforms F self sh
    ({ x := 15 / 10, y := 1, z := 15 / 10 } : vec3 R) l.XrotationDegrees l.YrotationDegrees
    l.ZrotationDegrees ({ x := -35 / 10, y := 37 / 10, z := 25 / 10 } : vec3 R) hsh
  have x1 := Extends_SetTransformations F (Extends_refl self)
    ({ x := 15 / 10, y := 1, z := 15 / 10 } : vec3 R) l.XrotationDegrees l.YrotationDegrees
    l.ZrotationDegrees ({ x := -35 / 10, y := 37 / 10, z := 25 / 10 } : vec3 R)
  obtain ⟨sh2, h2, v2, -⟩ := SetTextureUVScale_uniforms _ sh1 4 3 h1
  have x2 := Extends_SetTextureUVScale x1 4 3
  obtain ⟨a3, sh3, slot, e3, -, h3, -, -, u3, x3⟩ :=
    SetShaderTexture_uniforms _ sh2 "customTexture2" h2 (Extends_ready x2 hr).2
  have hne3 : a3.m_objectMaterials ≠ [] := by
    rw [x3.2.2.2.1, x2.2.2.2.1]; exact hne
  obtain ⟨a4, out, e4, -, h4, -⟩ := SetShaderMaterial_uniforms uninit a3 sh3 "brown" h3 hne3
  refine ⟨(({ scaleXYZ := { x := 15 / 10, y := 1, z := 15 / 10 }
              XrotationDegrees := l.XrotationDegrees
              YrotationDegrees := l.YrotationDegrees
              ZrotationDegrees := l.ZrotationDegrees
              positionXYZ := { x := -35 / 10, y := 37 / 10, z := 25 / 10 } } :
      RenderScene.Locals R), a4.mesh Call.DrawHalfSphereMesh), pushMaterial sh3 out, ?_, h4, ?_⟩
  · show (SetShaderTexture (SetTextureUVScale (SetTransformations F self
        ({ x := 15 / 10, y := 1, z := 15 / 10 } : vec3 R) l.XrotationDegrees
        l.YrotationDegrees l.ZrotationDegrees
        ({ x := -35 / 10, y := 37 / 10, z := 25 / 10 } : vec3 R)) 4 3) "customTexture2").bind _ = _
    rw [e3]
    show (SetShaderMaterial uninit a3 "brown").bind _ = _
    rw [e4]
    rfl
  · rw [(pushMaterial_uniforms sh3 out).2.2.2.2.2 "UVscale" (by decide),
      u3 "UVscale" (by decide) (by decide), v2]

/-- The tray step leaves texturing enabled, the sampler at the slot of
"table_wood" and the material uniforms at the fields of the first "table"
material; it writes no uniform besides these and `model`. -/
theorem tray_uniforms [Field R] (F : FloatOps R) (uninit : OBJECT_MATERIAL R)
    (l : RenderScene.Locals R) (self : SceneManager R) (sh : ShaderManager R)
    (k : Nat) (mk : OBJECT_MATERIAL R)
    (hsh : self.m_pShaderManager = some sh) (hb : self.InBounds)
    (hk : self.m_objectMaterials[k]? = some mk) (hktag : mk.tag = "table")
    (hfirst : ∀ (i : Nat) (m : OBJECT_MATERIAL R), i < k →
      self.m_objectMaterials[i]? = some m → m.tag ≠ "table") :
    ∃ r sh' slot, RenderScene.tray F uninit l self = some r ∧
      r.2.m_pShaderManager = some sh' ∧
      FindTextureSlot self "table_wood" = some slot ∧
      sh'.uniforms g_UseTextureName = some (UniformValue.int 1) ∧
      sh'.uniforms g_TextureValueName = some (UniformValue.sampler2D slot) ∧
      sh'.uniforms "material.ambientColor" = some (UniformValue.vec3 mk.ambientColor) ∧
      sh'.uniforms "material.ambientStrength" = some (UniformValue.float mk.ambientStrength) ∧
      sh'.uniforms "material.diffuseColor" = some (UniformValue.vec3 mk.diffuseColor) ∧
      sh'.uniforms "material.specularColor" = some (UniformValue.vec3 mk.specularColor) ∧
      sh'.uniforms "material.shininess" = some (UniformValue.float mk.shininess) ∧
      ∀ name, name ≠ g_ModelName → name ≠ g_UseTextureName → name ≠ g_TextureValueName →
        isMaterialUniform name = false → sh'.uniforms name = sh.uniforms name := by
  have hr : self.Ready := ⟨by rw [hsh]; rfl, hb⟩
  obtain ⟨sh1, h1, u1⟩ := SetTransformations_uniforms F self sh
    ({ x := 7, y := 9 / 10, z := 7 } : vec3 R) l.XrotationDegrees 0
    l.ZrotationDegrees ({ x := 0, y := 3 / 10, z := 0 } : vec3 R) hsh
  have x1 := Extends_SetTransformations F (Extends_refl self)
    ({ x := 7, y := 9 / 10, z := 7 } : vec3 R) l.XrotationDegrees 0
    l.ZrotationDegrees ({ x := 0, y := 3 / 10, z := 0 } : vec3 R)
  obtain ⟨a2, sh2, slot, e2, hslot, h2, t1, t2, u2, x2⟩ :=
    SetShaderTexture_uniforms _ sh1 "table_wood" h1 (Extends_ready x1 hr).2
  have hslot' : FindTextureSlot self "table_wood" = some slot := by
    rw [← hslot]
    exact (FindTextureSlot_congr _ _ _ x1.2.1 x1.2.2.1).symm
  have hmat : a2.m_objectMaterials = self.m_objectMaterials := by
    rw [x2.2.2.2.1, x1.2.2.2.1]
  have hne2 : a2.m_objectMaterials ≠ [] := by
    rw [hmat]; intro h; rw [h] at hk; simp at hk
  obtain ⟨a3, out, e3, hout, h3, -⟩ := SetShaderMaterial_uniforms uninit a2 sh2 "table" h2 hne2
  have hout' : out = copyMaterial uninit mk := by
    have h := FindMaterial_hit a2 "table" uninit k mk (by rw [hmat]; exact hk) hktag
      (by rw [hmat]; exact hfirst)
    rw [hout] at h
    exact (Prod.mk.inj (Option.some.inj h)).2
  obtain ⟨m1, m2, m3, m4, m5, m6⟩ := pushMaterial_uniforms sh2 out
  refine ⟨(({ scaleXYZ := { x := 7, y := 9 / 10, z := 7 }
              XrotationDegrees := l.XrotationDegrees
              YrotationDegrees := 0
              ZrotationDegrees := l.ZrotationDegrees
              positionXYZ := { x := 0, y := 3 / 10, z := 0 } } :
      RenderScene.Locals R), a3.mesh Call.DrawCylinderMesh), pushMaterial sh2 out, slot, ?_, h3,
    hslot',
    ?_, ?_, ?_, ?_, ?_, ?_, ?_, ?_⟩
  · show (SetShaderTexture (SetTransformations F self
        ({ x := 7, y := 9 / 10, z := 7 } : vec3 R) l.XrotationDegrees 0
        l.ZrotationDegrees ({ x := 0, y := 3 / 10, z := 0 } : vec3 R)) "table_wood").bind _ = _
    rw [e2]
    show (SetShaderMaterial uninit a2 "table").bind _ = _
    rw [e3]
    rfl
  · rw [m6 _ (by decide), t1]
  · rw [m6 _ (by decide), t2]
  · rw [m1, hout']; rfl
  · rw [m2, hout']; rfl
  · rw [m3, hout']; rfl
  · rw [m4, hout']; rfl
  · rw [m5, hout']; rfl
  · intro name n1 n2 n3 n4
    rw [m6 name n4, u2 name n2 n3, u1 name n1]

/-- The tray ring step returns, having written no uniform besides `model`; its
last call is the torus draw. -/
theorem trayRing_uniforms [Field R] (F : FloatOps R)
    (l : RenderScene.Locals R) (self : SceneManager R) (sh : ShaderManager R)
    (hsh : self.m_pShaderManager = some sh) :
    ∃ r sh', RenderScene.trayRing F l self = some r ∧
      r.2.m_pShaderManager = some sh' ∧
      ∀ name, name ≠ g_ModelName → sh'.uniforms name = sh.uniforms name := by
  obtain ⟨sh1, h1, u1⟩ := SetTransformations_uniforms F self sh
    ({ x := 682 / 100, y := 682 / 100, z := 682 / 100 } : vec3 R) 90 l.YrotationDegrees
    l.ZrotationDegrees ({ x := 0, y := 11 / 10, z := 0 } : vec3 R) hsh
  exact ⟨_, sh1, rfl, h1, u1⟩

/-- From a state that can run the render script, the draw steps after the
tray ring return. -/
theorem afterTrayRing_run [Field R] (F : FloatOps R) (uninit : OBJECT_MATERIAL R)
    (l : RenderScene.Locals R) (self : SceneManager R) (hr : self.Ready) :
    ∃ final, RenderScene.afterTrayRing F uninit l self = some final := by
  obtain ⟨r1, e1, -, x1⟩ := butterDish_run F uninit l self hr
  have q1 := Extends_ready x1 hr
  obtain ⟨r2, e2, -, x2⟩ := butterRing_run F uninit r1.1 r1.2 q1
  have q2 := Extends_ready x2 q1
  obtain ⟨r3, e3, -, x3⟩ := holderBack_run F uninit r2.1 r2.2 q2
  have q3 := Extends_ready x3 q2
  obtain ⟨r4, e4, -, x4⟩ := holderFront_run F r3.1 r3.2
  have q4 := Extends_ready x4 q3
  obtain ⟨r5, e5, -, x5⟩ := holderBase_run F r4.1 r4.2 q4
  have q5 := Extends_ready x5 q4
  obtain ⟨r6, e6, -⟩ := napkins_run F uninit r5.1 r5.2 q5
  exact ⟨r6.2, by simp only [RenderScene.afterTrayRing, e1, e2, e3, e4, e5, e6,
    Option.some_bind]⟩

/-- From a state that can run the render script, with a non-empty material
list, the draw steps up to the pepper shaker cap return, leaving `UVscale` at
(4, 3) and the registries as they were. -/
theorem throughPepperCap_run [Field R] (F : FloatOps R) (uninit : OBJECT_MATERIAL R)
    (l : RenderScene.Locals R) (self : SceneManager R) (hr : self.Ready)
    (hne : self.m_objectMaterials ≠ []) :
    ∃ r sh', RenderScene.throughPepperCap F uninit l self = some r ∧
      r.2.m_pShaderManager = some sh' ∧
      sh'.uniforms "UVscale" = some (UniformValue.vec2 ({ x := 4, y := 3 } : vec2 R)) ∧
      r.2.InBounds ∧ r.2.m_loadedTextures = self.m_loadedTextures ∧
      r.2.m_textureIDs = self.m_textureIDs ∧
      r.2.m_objectMaterials = self.m_objectMaterials := by
  obtain ⟨r1, e1, -, x1⟩ := tablePlane_run F uninit l self hr
  have q1 := Extends_ready x1 hr
  obtain ⟨r2, e2, -, x2⟩ := saltBody_run F uninit r1.1 r1.2 q1
  have q2 := Extends_ready x2 q1
  obtain ⟨r3, e3, -, x3⟩ := saltCap_run F uninit r2.1 r2.2 q2
  have q3 := Extends_ready x3 q2
  obtain ⟨r4, e4, -, x4⟩ := pepperBody_run F uninit r3.1 r3.2 q3
  have q4 := Extends_ready x4 q3
  have hne4 : r4.2.m_objectMaterials ≠ [] := by
    rw [x4.2.2.2.1, x3.2.2.2.1, x2.2.2.2.1, x1.2.2.2.1]; exact hne
  obtain ⟨r5, sh5, e5, h5, v5⟩ := pepperCap_uniforms F uninit r4.1 r4.2 q4 hne4
  obtain ⟨r5', e5', -, x5⟩ := pepperCap_run F uninit r4.1 r4.2 q4
  have hr5 : r5' = r5 := by
    rw [e5] at e5'; exact (Option.some.inj e5').symm
  rw [hr5] at x5
  refine ⟨r5, sh5, ?_, h5, v5, (Extends_ready x5 q4).2, ?_, ?_, ?_⟩
  · simp only [RenderScene.throughPepperCap, e1, e2, e3, e4, e5, Option.some_bind]
  · rw [x5.2.1, x4.2.1, x3.2.1, x2.2.1, x1.2.1]
  · rw [x5.2.2.1, x4.2.2.1, x3.2.2.1, x2.2.2.1, x1.2.2.1]
  · rw [x5.2.2.2.1, x4.2.2.2.1, x3.2.2.2.1, x2.2.2.2.1, x1.2.2.2.1]

/-- C19. With a shader manager present, `SetTransformations` changes no
uniform other than `model`. Hence in `RenderScene`, run from a state with a
shader manager, the texture count within the array and a "table" material
(the first one being `mk`): the draw steps up to the pepper shaker cap, the
tray, the tray ring and the remaining steps all return; when the tray
cylinder is drawn `UVscale` is (4, 3), as the pepper shaker cap left it,
`bUseTexture` is 1, `objectTexture` is the slot of "table_wood" and the
`material.*` uniforms are the fields of `mk`; and when the tray ring torus is
drawn every uniform other than `model`, the colour `objectColor` included,
holds exactly what it held at the cylinder draw. -/
theorem tray_ring_keeps_tray_uniforms [Field R] (F : FloatOps R) (uninit : OBJECT_MATERIAL R)
    (scaleXYZ0 positionXYZ0 : vec3 R) (self : SceneManager R)
    (k : Nat) (mk : OBJECT_MATERIAL R) (hr : self.Ready)
    (hk : self.m_objectMaterials[k]? = some mk) (hktag : mk.tag = "table")
    (hfirst : ∀ (i : Nat) (m : OBJECT_MATERIAL R), i < k →
      self.m_objectMaterials[i]? = some m → m.tag ≠ "table") :
    (∀ (s : SceneManager R) (sh : ShaderManager R) (scaleXYZ : vec3 R) (x y z : R)
        (positionXYZ : vec3 R), s.m_pShaderManager = some sh →
      ∃ sh', (SetTransformations F s scaleXYZ x y z positionXYZ).m_pShaderManager = some sh' ∧
        ∀ name, name ≠ g_ModelName → sh'.uniforms name = sh.uniforms name) ∧
    ∃ (cap cylinder torus : RenderScene.Locals R × SceneManager R) (final : SceneManager R)
      (shCap shCylinder shTorus : ShaderManager R) (slot : Int),
      RenderScene.throughPepperCap F uninit
        { scaleXYZ := scaleXYZ0, XrotationDegrees := 0, YrotationDegrees := 0,
          ZrotationDegrees := 0, positionXYZ := positionXYZ0 } self = some cap ∧
      RenderScene.tray F uninit cap.1 cap.2 = some cylinder ∧
      RenderScene.trayRing F cylinder.1 cylinder.2 = some torus ∧
      RenderScene.afterTrayRing F uninit torus.1 torus.2 = some final ∧
      RenderScene F uninit scaleXYZ0 positionXYZ0 self = some final ∧
      cylinder.2.trace = cap.2.trace ++
        ([Call.SetTransformations { x := 7, y := 9 / 10, z := 7 } cap.1.XrotationDegrees 0
            cap.1.ZrotationDegrees { x := 0, y := 3 / 10, z := 0 },
          Call.SetShaderTexture "table_wood", Call.SetShaderMaterial "table",
          Call.DrawCylinderMesh] : List (Call R)) ∧
      torus.2.trace = cylinder.2.trace ++
        ([Call.SetTransformations { x := 682 / 100, y := 682 / 100, z := 682 / 100 } 90
            cylinder.1.YrotationDegrees cylinder.1.ZrotationDegrees
            { x := 0, y := 11 / 10, z := 0 },
          Call.LoadTorusMesh (some (3 / 100)), Call.DrawTorusMesh] : List (Call R)) ∧
      cap.2.m_pShaderManager = some shCap ∧
      cylinder.2.m_pShaderManager = some shCylinder ∧
      torus.2.m_pShaderManager = some shTorus ∧
      shCap.uniforms "UVscale" = some (UniformValue.vec2 ({ x := 4, y := 3 } : vec2 R)) ∧
      FindTextureSlot self "table_wood" = some slot ∧
      (shCylinder.uniforms "UVscale" = some (UniformValue.vec2 ({ x := 4, y := 3 } : vec2 R)) ∧
        shCylinder.uniforms g_ColorValueName = shCap.uniforms g_ColorValueName ∧
        shCylinder.uniforms g_UseTextureName = some (UniformValue.int 1) ∧
        shCylinder.uniforms g_TextureValueName = some (UniformValue.sampler2D slot) ∧
        shCylinder.uniforms "material.ambientColor" =
          some (UniformValue.vec3 mk.ambientColor) ∧
        shCylinder.uniforms "material.ambientStrength" =
          some (UniformValue.float mk.ambientStrength) ∧
        shCylinder.uniforms "material.diffuseColor" =
          some (UniformValue.vec3 mk.diffuseColor) ∧
        shCylinder.uniforms "material.specularColor" =
          some (UniformValue.vec3 mk.specularColor) ∧
        shCylinder.uniforms "material.shininess" =
          some (UniformValue.float mk.shininess)) ∧
      (∀ name, name ≠ g_ModelName → shTorus.uniforms name = shCylinder.uniforms name) ∧
      (shTorus.uniforms "UVscale" = some (UniformValue.vec2 ({ x := 4, y := 3 } : vec2 R)) ∧
        shTorus.uniforms g_ColorValueName = shCylinder.uniforms g_ColorValueName ∧
        shTorus.uniforms g_UseTextureName = some (UniformValue.int 1) ∧
        shTorus.uniforms g_TextureValueName = some (UniformValue.sampler2D slot) ∧
        shTorus.uniforms "material.ambientColor" =
          some (UniformValue.vec3 mk.ambientColor) ∧
        shTorus.uniforms "material.ambientStrength" =
          some (UniformValue.float mk.ambientStrength) ∧
        shTorus.uniforms "material.diffuseColor" =
          some (UniformValue.vec3 mk.diffuseColor) ∧
        shTorus.uniforms "material.specularColor" =
          some (UniformValue.vec3 mk.specularColor) ∧
        shTorus.uniforms "material.shininess" =
          some (UniformValue.float mk.shininess)) := by
  refine ⟨fun s sh scaleXYZ x y z positionXYZ hsh =>
    SetTransformations_uniforms F s sh scaleXYZ x y z positionXYZ hsh, ?_⟩
  have hne : self.m_objectMaterials ≠ [] := by
    intro h; rw [h] at hk; simp at hk
  obtain ⟨cap, shCap, e5, h5, v5, b5, n5, a5, m5⟩ := throughPepperCap_run F uninit
    { scaleXYZ := scaleXYZ0, XrotationDegrees := 0, YrotationDegrees := 0,
      ZrotationDegrees := 0, positionXYZ := positionXYZ0 } self hr hne
  have q5 : cap.2.Ready := ⟨by rw [h5]; rfl, b5⟩
  obtain ⟨cylinder, shCylinder, slot, e6, h6, hslot, t1, t2, c1, c2, c3, c4, c5, u6⟩ :=
    tray_uniforms F uninit cap.1 cap.2 shCap k mk h5 b5 (by rw [m5]; exact hk) hktag
      (by rw [m5]; exact hfirst)
  obtain ⟨cylinder', e6', -, x6⟩ := tray_run F uninit cap.1 cap.2 q5
  have hc : cylinder' = cylinder := by
    rw [e6] at e6'; exact (Option.some.inj e6').symm
  rw [hc] at x6
  have q6 : cylinder.2.Ready := Extends_ready x6 q5
  obtain ⟨torus, shTorus, e7, h7, u7⟩ := trayRing_uniforms F cylinder.1 cylinder.2 shCylinder h6
  obtain ⟨torus', e7', -, x7⟩ := trayRing_run F cylinder.1 cylinder.2
  have ht : torus' = torus := by
    rw [e7] at e7'; exact (Option.some.inj e7').symm
  rw [ht] at x7
  have q7 : torus.2.Ready := Extends_ready x7 q6
  obtain ⟨final, e8⟩ := afterTrayRing_run F uninit torus.1 torus.2 q7
  have hslot' : FindTextureSlot self "table_wood" = some slot := by
    rw [← hslot]
    exact (FindTextureSlot_congr _ _ _ n5 a5).symm
  have huv : shCylinder.uniforms "UVscale" =
      some (UniformValue.vec2 ({ x := 4, y := 3 } : vec2 R)) := by
    rw [u6 "UVscale" (by decide) (by decide) (by decide) (by decide), v5]
  have hcol : shCylinder.uniforms g_ColorValueName = shCap.uniforms g_ColorValueName :=
    u6 g_ColorValueName (by decide) (by decide) (by decide) (by decide)
  refine ⟨cap, cylinder, torus, final, shCap, shCylinder, shTorus, slot, e5, e6, e7, e8, ?_,
    x6.1, x7.1, h5, h6, h7, v5, hslot', ⟨huv, hcol, t1, t2, c1, c2, c3, c4, c5⟩, u7, ?_⟩
  · rw [RenderScene_split, e5, Option.some_bind, e6, Option.some_bind, e7, Option.some_bind, e8]
  · refine ⟨?_, ?_, ?_, ?_, ?_, ?_, ?_, ?_, ?_⟩
    · rw [u7 _ (by decide), huv]
    · exact u7 _ (by decide)
    · rw [u7 _ (by decide), t1]
    · rw [u7 _ (by decide), t2]
    · rw [u7 _ (by decide), c1]
    · rw [u7 _ (by decide), c2]
    · rw [u7 _ (by decide), c3]
    · rw [u7 _ (by decide), c4]
    · rw [u7 _ (by decide), c5]

theorem tray_ring_keeps_tray_uniforms_witness :
    (DefineObjectMaterials (freshScene ℚ)).Ready ∧
    (DefineObjectMaterials (freshScene ℚ)).m_objectMaterials[2]? = some
      { ambientColor := { x := 1, y := 1, z := 1 }
        ambientStrength := 1 / 100
        diffuseColor := { x := 1 / 10, y := 1 / 10, z := 1 / 10 }
        specularColor := { x := 2 / 10, y := 2 / 10, z := 2 / 10 }
        shininess := 30
        tag := "table" } ∧
    ∃ (cap cylinder torus : RenderScene.Locals ℚ × SceneManager ℚ) (final : SceneManager ℚ)
      (shCap shCylinder shTorus : ShaderManager ℚ) (slot : Int),
      RenderScene rationalOps garbageMaterial { x := 0, y := 0, z := 0 }
        { x := 0, y := 0, z := 0 } (DefineObjectMaterials (freshScene ℚ)) = some final ∧
      cap.2.m_pShaderManager = some shCap ∧
      cylinder.2.m_pShaderManager = some shCylinder ∧
      torus.2.m_pShaderManager = some shTorus ∧
      FindTextureSlot (DefineObjectMaterials (freshScene ℚ)) "table_wood" = some slot ∧
      shTorus.uniforms "UVscale" = some (UniformValue.vec2 ({ x := 4, y := 3 } : vec2 ℚ)) :=
  ⟨⟨rfl, by decide⟩, rfl,
    (tray_ring_keeps_tray_uniforms rationalOps garbageMaterial { x := 0, y := 0, z := 0 }
      { x := 0, y := 0, z := 0 } (DefineObjectMaterials (freshScene ℚ)) 2
      { ambientColor := { x := 1, y := 1, z := 1 }
        ambientStrength := 1 / 100
        diffuseColor := { x := 1 / 10, y := 1 / 10, z := 1 / 10 }
        specularColor := { x := 2 / 10, y := 2 / 10, z := 2 / 10 }
        shininess := 30
        tag := "table" }
      ⟨rfl, by decide⟩ rfl rfl
      (by
        intro i m hi hm
        have hcases : i = 0 ∨ i = 1 := by omega
        rcases hcases with rfl | rfl
        · simp [DefineObjectMaterials, freshScene] at hm
          subst hm
          decide
        · simp [DefineObjectMaterials, freshScene] at hm
          subst hm
          decide)).2.imp
      (fun _ h => h.imp (fun _ h => h.imp (fun _ h => h.imp (fun _ h => h.imp (fun _ h =>
        h.imp (fun _ h => h.imp (fun _ h => h.imp (fun _ h =>
          ⟨h.2.2.2.2.1, h.2.2.2.2.2.2.2.1, h.2.2.2.2.2.2.2.2.1, h.2.2.2.2.2.2.2.2.2.1,
            h.2.2.2.2.2.2.2.2.2.2.2.1, h.2.2.2.2.2.2.2.2.2.2.2.2.2.2.1⟩))))))))⟩

end SceneManager

namespace ViewManager

variable {R : Type}

/-! ## Scroll wheel -/

/-- What `Scroll_Callback` stores, by cases on the validity test. -/
theorem Scroll_Callback_eq [LinearOrderedField R] (camera : Camera R) (xOffset yOffset : R) :
    Scroll_Callback (some camera) xOffset yOffset =
      some { camera with
        MovementSpeed :=
          if camera.MovementSpeed + yOffset < 0 ∨ camera.MouseSensitivity + yOffset / 100 < 0
          then 0 else camera.MovementSpeed + yOffset
        MouseSensitivity :=
          if camera.MovementSpeed + yOffset < 0 ∨ camera.MouseSensitivity + yOffset / 100 < 0
          then 0 else camera.MouseSensitivity + yOffset / 100 } := by
  unfold Scroll_Callback
  by_cases h : camera.MovementSpeed + yOffset < 0 ∨ camera.MouseSensitivity + yOffset / 100 < 0
  · simp only [h, if_true]
  · simp only [h, if_false]

/-- C16. Over any ordered field (exact arithmetic), for every camera and every
scroll offset, `Scroll_Callback` returns and leaves `MovementSpeed` and
`MouseSensitivity` both non-negative; this holds whatever the two values were
before the call, in particular when they were non-negative. -/
theorem Scroll_Callback_nonneg [LinearOrderedField R] (camera : Camera R)
    (xOffset yOffset : R) :
    ∃ camera', Scroll_Callback (some camera) xOffset yOffset = some camera' ∧
      0 ≤ camera'.MovementSpeed ∧ 0 ≤ camera'.MouseSensitivity := by
  refine ⟨_, Scroll_Callback_eq camera xOffset yOffset, ?_, ?_⟩
  · by_cases h : camera.MovementSpeed + yOffset < 0 ∨
        camera.MouseSensitivity + yOffset / 100 < 0
    · simp only [h, if_true]; exact le_refl 0
    · simp only [h, if_false]
      push_neg at h
      exact h.1
  · by_cases h : camera.MovementSpeed + yOffset < 0 ∨
        camera.MouseSensitivity + yOffset / 100 < 0
    · simp only [h, if_true]; exact le_refl 0
    · simp only [h, if_false]
      push_neg at h
      exact h.2

/-- C17 (the code at the failing input). With `MovementSpeed = 1` and
`MouseSensitivity = 0.01`, the scroll offset -2 would make the speed -1; the
call does not keep the old values: it stores 0 in both. -/
theorem Scroll_Callback_zeroes_instead_of_ignoring :
    initialCamera.MovementSpeed + (-2) < 0 ∧
    ∃ camera', Scroll_Callback (some initialCamera) 0 (-2) = some camera' ∧
      camera'.MovementSpeed = 0 ∧ camera'.MouseSensitivity = 0 ∧
      camera'.MovementSpeed ≠ initialCamera.MovementSpeed ∧
      camera'.MouseSensitivity ≠ initialCamera.MouseSensitivity := by
  have h : initialCamera.MovementSpeed + (-2) < 0 := by
    simp only [initialCamera]; norm_num
  refine ⟨h, _, Scroll_Callback_eq initialCamera 0 (-2), ?_, ?_, ?_, ?_⟩
  · simp only [h, true_or, if_true]
  · simp only [h, true_or, if_true]
  · simp only [h, true_or, if_true, initialCamera]; norm_num
  · simp only [h, true_or, if_true, initialCamera]; norm_num

end ViewManager

end CS330
